import Mathlib

/-!
# hcid D-Bus front end (`hcid/dbus.c`)

A shallow embedding of the endpoint lifecycle (`hcid_dbus_register_device`,
`hcid_dbus_unregister_device`, `hci_dbus_reg_obj_path`, `hci_dbus_unreg_obj_path`),
of the error catalogue (`bluez_dbus_error_to_str`, `bluez_new_failure_msg`), of the
request router (`msg_func`), of the handlers `handle_periodic_inq_req`,
`handle_role_switch_req` and `handle_inq_req`, of the authorization round trip
(`hcid_dbus_request_pin`, `reply_handler_function`) and of the event loop bridge
(`watch_func`), followed by the properties established about them.

Conventions of the embedding:

* a C string is the list of its characters before the terminating NUL;
* a pointer that may be `NULL` is an `Option`;
* a C function that dereferences `NULL` (undefined behaviour) returns `none`;
* the constants of `hcid/dbus.h`, which is not part of the sources at hand, are the
  fields of a `Header` record; properties are stated for every header that meets an
  explicit, decidable side condition;
* library calls (`malloc`, the object tree of libdbus and its choice of the handlers
  for a message, `strerror`, the HCI driver) are explicit parameters or explicit state;
* `num_adapters` is an unbounded integer (overflow of the C `int` is left aside),
  allocation failures inside libdbus are left aside, and `syslog` output is not part of
  the model.
-/

namespace Hcid

/-! ## C strings -/

/-- C string: the characters that precede the terminating NUL. -/
abbrev CStr := List Char

/-- Model of `strcmp`: zero on equality, otherwise `-1` or `1` according to the first
pair of differing characters (the end of a string ranking below every character). Only
the sign of the result of `strcmp` is specified. -/
def strcmp : CStr → CStr → Int
  | [], [] => 0
  | [], _ :: _ => -1
  | _ :: _, [] => 1
  | a :: as, b :: bs => if a = b then strcmp as bs else if a.toNat < b.toNat then -1 else 1

/-- Model of `p = strrchr(s, c); p++`: the characters that follow the last occurrence
of `c` in `s`, or `none` when `c` does not occur (`strrchr` returns `NULL`). -/
def strrchr_next (c : Char) : CStr → Option CStr
  | [] => none
  | x :: xs =>
    match strrchr_next c xs with
    | some r => some r
    | none => if x = c then some xs else none

/-- Decimal digit character of a number below ten. -/
def digit (k : Nat) : Char := Char.ofNat (48 + k)

/-- Digits of `n`, most significant first; `fuel` bounds the number of digits. -/
def dec_digits : Nat → Nat → CStr
  | 0, _ => []
  | fuel + 1, n => if n < 10 then [digit n] else dec_digits fuel (n / 10) ++ [digit (n % 10)]

/-- Model of the `%d` conversion of `sprintf` for a non-negative argument (the
`uint16_t` adapter id is promoted to `int`). -/
def fmt_d (n : Nat) : CStr := dec_digits (n + 1) n

/-- Value of a decimal digit string (used to show that `%d` is injective). -/
def dec_value (s : CStr) : Nat := s.foldl (fun acc c => 10 * acc + (c.toNat - 48)) 0

/-! ## Constants of `hcid/dbus.h` -/

/-- The constants of `hcid/dbus.h` that `hcid/dbus.c` uses. The header is not part of
the sources at hand, so each constant is a field. -/
structure Header where
  MANAGER_PATH : CStr
  DEVICE_PATH : CStr
  MANAGER_INTERFACE : CStr
  DEVICE_INTERFACE : CStr
  ERROR_INTERFACE : CStr
  HCI_DEFAULT_DEVICE_NAME : CStr
  HCI_DEVICE_NAME : CStr
  BLUEZ_HCI : CStr
  MANAGER_PATH_ID : Nat
  DEVICE_PATH_ID : Nat
  DEFAULT_DEVICE_PATH_ID : Nat
  BLUEZ_EDBUS_OFFSET : Nat
  BLUEZ_ESYSTEM_OFFSET : Nat
  BLUEZ_EDBUS_UNKNOWN_METHOD : Nat
  BLUEZ_EDBUS_WRONG_SIGNATURE : Nat
  BLUEZ_EDBUS_WRONG_PARAM : Nat
  BLUEZ_EDBUS_RECORD_NOT_FOUND : Nat
  BLUEZ_EDBUS_NO_MEM : Nat
  BLUEZ_EDBUS_CONN_NOT_FOUND : Nat
  BLUEZ_EDBUS_UNKNOWN_PATH : Nat
  BLUEZ_ESYSTEM_ENODEV : Nat

/-- A concrete header, used to instantiate the general statements: the path layout
`<root>/default/<profile>` and `<root>/hci<id>/<profile>`, sentinel identifiers at the
top of the 16-bit range and two one-bit error classes. -/
def sampleHeader : Header where
  MANAGER_PATH := "/org/bluez/Manager".toList
  DEVICE_PATH := "/org/bluez/Device".toList
  MANAGER_INTERFACE := "org.bluez.Manager".toList
  DEVICE_INTERFACE := "org.bluez.Device".toList
  ERROR_INTERFACE := "org.bluez.Error".toList
  HCI_DEFAULT_DEVICE_NAME := "default".toList
  HCI_DEVICE_NAME := "hci".toList
  BLUEZ_HCI := "Controller".toList
  MANAGER_PATH_ID := 0xFFFF
  DEVICE_PATH_ID := 0xFFFE
  DEFAULT_DEVICE_PATH_ID := 0xFFFD
  BLUEZ_EDBUS_OFFSET := 0x10000
  BLUEZ_ESYSTEM_OFFSET := 0x20000
  BLUEZ_EDBUS_UNKNOWN_METHOD := 0x10001
  BLUEZ_EDBUS_WRONG_SIGNATURE := 0x10002
  BLUEZ_EDBUS_WRONG_PARAM := 0x10003
  BLUEZ_EDBUS_RECORD_NOT_FOUND := 0x10004
  BLUEZ_EDBUS_NO_MEM := 0x10005
  BLUEZ_EDBUS_CONN_NOT_FOUND := 0x10006
  BLUEZ_EDBUS_UNKNOWN_PATH := 0x10007
  BLUEZ_ESYSTEM_ENODEV := 0x20013

/-! ## Object tree of the bus connection -/

/-- Contents of `struct hci_dbus_data`. -/
structure hci_dbus_data where
  id : Nat
deriving DecidableEq, Repr

/-- The object-path tree of a `DBusConnection`: the registered paths, each with the
user data handed over at registration. -/
abbrev ObjectTree := List (CStr × hci_dbus_data)

/-- Whether a handler is registered at `path`. -/
def registered (conn : ObjectTree) (path : CStr) : Bool :=
  conn.any (fun e => e.1 == path)

/-- Number of handlers registered at `path`. -/
def registrations (conn : ObjectTree) (path : CStr) : Nat :=
  conn.countP (fun e => e.1 == path)

/-- User data of the handler registered at `path`
(`dbus_connection_get_object_path_data`). -/
def object_path_data (conn : ObjectTree) (path : CStr) : Option hci_dbus_data :=
  (conn.find? (fun e => e.1 == path)).map Prod.snd

/-- Model of `dbus_connection_register_object_path`: fails, leaving the tree as it is,
when a handler is registered at `path` already. -/
def dbus_connection_register_object_path (conn : ObjectTree) (path : CStr)
    (data : hci_dbus_data) : Bool × ObjectTree :=
  if registered conn path then (false, conn) else (true, conn ++ [(path, data)])

/-- Model of `dbus_connection_unregister_object_path`: fails, leaving the tree as it
is, when no handler is registered at `path`. The callers modelled here use the result
for their own return value only. -/
def dbus_connection_unregister_object_path (conn : ObjectTree) (path : CStr) :
    Bool × ObjectTree :=
  if registered conn path then (true, conn.filter (fun e => !(e.1 == path)))
  else (false, conn)

/-! ## Object path register/unregister functions -/

/-- The part of `struct profile_obj_path_data` that is data; the function pointers
`reg_func` and `unreg_func` of the only profile declared are
`hci_dbus_reg_obj_path` and `hci_dbus_unreg_obj_path`, and `get_svc_table` is
supplied to the router separately. -/
structure profile_obj_path_data where
  name : CStr
  status : Int
  dft_reg : Int
deriving DecidableEq, Repr

/-- The entries of `obj_path_table` before its `NULL` terminator, as declared. -/
def obj_path_table (h : Header) : List profile_obj_path_data :=
  [{ name := h.BLUEZ_HCI, status := 1, dft_reg := 0 }]

/-- Result of `sprintf(path, "%s/%s/%s", MANAGER_PATH, HCI_DEFAULT_DEVICE_NAME, BLUEZ_HCI)`.
The buffer of `MAX_PATH_LENGTH` bytes is taken to be large enough for the strings of
the header. -/
def default_path (h : Header) : CStr :=
  h.MANAGER_PATH ++ '/' :: h.HCI_DEFAULT_DEVICE_NAME ++ '/' :: h.BLUEZ_HCI

/-- Result of `sprintf(path, "%s/%s%d/%s", MANAGER_PATH, HCI_DEVICE_NAME, id, BLUEZ_HCI)`,
under the same proviso on the buffer. -/
def device_path (h : Header) (id : Nat) : CStr :=
  h.MANAGER_PATH ++ '/' :: (h.HCI_DEVICE_NAME ++ fmt_d id) ++ '/' :: h.BLUEZ_HCI

/-- Model of `hci_dbus_reg_obj_path`. `m_dft` and `m_dev` tell whether the first and
the second `malloc` succeed. Returns the function result and the new object tree. -/
def hci_dbus_reg_obj_path (h : Header) (m_dft m_dev : Bool) (conn : ObjectTree)
    (dft_reg : Int) (id : Nat) : Int × ObjectTree :=
  /- register the default path -/
  let step1 : Option ObjectTree :=
    if dft_reg = 0 then
      if !m_dft then none
      else some (dbus_connection_register_object_path conn (default_path h)
        { id := h.DEFAULT_DEVICE_PATH_ID }).2
    else some conn
  match step1 with
  | none => (-1, conn)
  | some conn1 =>
    if !m_dev then (-1, conn1)
    else (0, (dbus_connection_register_object_path conn1 (device_path h id) { id := id }).2)

/-- Model of `hci_dbus_unreg_obj_path`. Returns the function result and the new
object tree. -/
def hci_dbus_unreg_obj_path (h : Header) (conn : ObjectTree) (unreg_dft : Int) (id : Nat) :
    Int × ObjectTree :=
  let r1 : Int × ObjectTree :=
    if unreg_dft ≠ 0 then
      let u := dbus_connection_unregister_object_path conn (default_path h)
      if !u.1 then (-1, u.2) else (0, u.2)
    else (0, conn)
  let u := dbus_connection_unregister_object_path r1.2 (device_path h id)
  if !u.1 then (-1, u.2) else (r1.1, u.2)

/-- The globals of `hcid/dbus.c` that the lifecycle functions read and write. -/
structure State where
  connection : Option ObjectTree
  num_adapters : Int
  obj_path_table : List profile_obj_path_data
deriving DecidableEq, Repr

/-- Loop of `hcid_dbus_register_device` over `obj_path_table`: returns the last `ret`,
the object tree and the updated table. -/
def register_loop (h : Header) (m_dft m_dev : Bool) (id : Nat) :
    List profile_obj_path_data → Int → ObjectTree →
    Int × ObjectTree × List profile_obj_path_data
  | [], ret, conn => (ret, conn, [])
  | ptr :: rest, _, conn =>
    let r := hci_dbus_reg_obj_path h m_dft m_dev conn ptr.dft_reg id
    let out := register_loop h m_dft m_dev id rest r.1 r.2
    (out.1, out.2.1, { ptr with dft_reg := 1 } :: out.2.2)

/-- Model of `hcid_dbus_register_device`: the `gboolean` returned and the new state. -/
def hcid_dbus_register_device (h : Header) (m_dft m_dev : Bool) (s : State) (id : Nat) :
    Bool × State :=
  match s.connection with
  | none => (false, s)
  | some conn =>
    let out := register_loop h m_dft m_dev id s.obj_path_table (-1) conn
    (true, { connection := some out.2.1,
             num_adapters := if out.1 = 0 then s.num_adapters + 1 else s.num_adapters,
             obj_path_table := out.2.2 })

/-- Loop of `hcid_dbus_unregister_device` over `obj_path_table`: returns the counter,
the object tree and the updated table. -/
def unregister_loop (h : Header) (id : Nat) :
    List profile_obj_path_data → Int → ObjectTree →
    Int × ObjectTree × List profile_obj_path_data
  | [], n, conn => (n, conn, [])
  | ptr :: rest, n, conn =>
    let dft_unreg : Int := if n > 1 then 0 else 1
    let r := hci_dbus_unreg_obj_path h conn dft_unreg id
    let out := unregister_loop h id rest (n - 1) r.2
    (out.1, out.2.1, (if dft_unreg ≠ 0 then { ptr with dft_reg := 0 } else ptr) :: out.2.2)

/-- Model of `hcid_dbus_unregister_device`: the `gboolean` returned and the new state. -/
def hcid_dbus_unregister_device (h : Header) (s : State) (id : Nat) : Bool × State :=
  match s.connection with
  | none => (false, s)
  | some conn =>
    let out := unregister_loop h id s.obj_path_table s.num_adapters conn
    (true, { connection := some out.2.1, num_adapters := out.1, obj_path_table := out.2.2 })

/-- One call of the lifecycle interface. A `register` call carries the outcome of the
two allocations `hci_dbus_reg_obj_path` may make. -/
inductive Call where
  | register (id : Nat) (m_dft m_dev : Bool)
  | unregister (id : Nat)
deriving DecidableEq, Repr

/-- Attach of adapter `id` with both allocations succeeding. -/
def attach (id : Nat) : Call := Call.register id true true

/-- Detach of adapter `id`. -/
def detach (id : Nat) : Call := Call.unregister id

/-- State after one call. -/
def step (h : Header) (s : State) : Call → State
  | Call.register id m_dft m_dev => (hcid_dbus_register_device h m_dft m_dev s id).2
  | Call.unregister id => (hcid_dbus_unregister_device h s id).2

/-- State after a sequence of calls, first call first. -/
def run (h : Header) (s : State) (calls : List Call) : State :=
  calls.foldl (step h) s

/-- State once the bus connection is open with object tree `conn`, before any adapter
is attached: `num_adapters = 0` and `dft_reg = 0`. -/
def initial (h : Header) (conn : ObjectTree) : State :=
  { connection := some conn, num_adapters := 0, obj_path_table := obj_path_table h }

/-- The object tree `hcid_dbus_init` leaves behind: the device path and the manager
path (a fallback handler), both registered on an empty tree. -/
def init_tree (h : Header) : ObjectTree :=
  [(h.DEVICE_PATH, { id := h.DEVICE_PATH_ID }), (h.MANAGER_PATH, { id := h.MANAGER_PATH_ID })]

/-- Whether the alias path `manager/default/profile` is registered in state `s`. -/
def alias_registered (h : Header) (s : State) : Bool :=
  match s.connection with
  | none => false
  | some conn => registered conn (default_path h)

/-- Whether the concrete path `manager/adapter-<id>/profile` is registered in state `s`. -/
def adapter_registered (h : Header) (s : State) (id : Nat) : Bool :=
  match s.connection with
  | none => false
  | some conn => registered conn (device_path h id)

/-- No adapter endpoint (alias or concrete) is registered in the tree. -/
def NoAdapterEndpoint (h : Header) (conn : ObjectTree) : Prop :=
  registered conn (default_path h) = false ∧ ∀ id, registered conn (device_path h id) = false

/-- The default device name does not begin with the device-name stem, so that the
alias path differs from every concrete path. -/
def AliasDistinct (h : Header) : Prop := ¬ h.HCI_DEVICE_NAME <+: h.HCI_DEFAULT_DEVICE_NAME

instance (h : Header) : Decidable (AliasDistinct h) := by
  unfold AliasDistinct; infer_instance

/-- Number of handlers registered at the alias path in state `s`. -/
def alias_registrations (h : Header) (s : State) : Nat :=
  match s.connection with
  | none => 0
  | some conn => registrations conn (default_path h)

/-- Whether every allocation of the call succeeds. -/
def Call.allocs_ok : Call → Bool
  | Call.register _ m_dft m_dev => m_dft && m_dev
  | Call.unregister _ => true

/-- Every allocation made during the sequence succeeds. -/
def AllocsSucceed (calls : List Call) : Prop := ∀ c ∈ calls, c.allocs_ok = true

instance (calls : List Call) : Decidable (AllocsSucceed calls) := by
  unfold AllocsSucceed; infer_instance

/-- With the counter `num_adapters` at `k`, no attach call of the sequence is made
while the counter is negative (each attach adds one to the counter, each detach takes
one off). -/
def never_attached_below_zero : Int → List Call → Bool
  | _, [] => true
  | k, Call.register _ _ _ :: cs => decide (0 ≤ k) && never_attached_below_zero (k + 1) cs
  | k, Call.unregister _ :: cs => never_attached_below_zero (k - 1) cs

/-- With the ids of `att` attached, every attach call of the sequence names an id that
is not attached and every detach call names an id that is attached. -/
def well_bracketed : List Nat → List Call → Bool
  | _, [] => true
  | att, Call.register id _ _ :: cs => decide (id ∉ att) && well_bracketed (id :: att) cs
  | att, Call.unregister id :: cs => decide (id ∈ att) && well_bracketed (att.erase id) cs

/-- The state right after `hcid_dbus_init` under the sample header. -/
def sampleInitial : State := initial sampleHeader (init_tree sampleHeader)

/-- The table `obj_path_table` with the `dft_reg` field of its entry set to `d`. -/
def table_with (h : Header) (d : Int) : List profile_obj_path_data :=
  [{ name := h.BLUEZ_HCI, status := 1, dft_reg := d }]

/-- Object tree after a successful attach of `id`, from tree `conn` and flag `d`. -/
def attach_tree (h : Header) (conn : ObjectTree) (d : Int) (id : Nat) : ObjectTree :=
  (dbus_connection_register_object_path
    (if d = 0 then (dbus_connection_register_object_path conn (default_path h)
      { id := h.DEFAULT_DEVICE_PATH_ID }).2 else conn)
    (device_path h id) { id := id }).2

/-- Object tree after a detach of `id`, from tree `conn` and counter `n`. -/
def detach_tree (h : Header) (conn : ObjectTree) (n : Int) (id : Nat) : ObjectTree :=
  (dbus_connection_unregister_object_path
    (if n > 1 then conn else (dbus_connection_unregister_object_path conn (default_path h)).2)
    (device_path h id)).2

/-- State with object tree `conn`, counter `n` and `dft_reg` flag `d`. -/
def state_with (h : Header) (conn : ObjectTree) (n d : Int) : State :=
  { connection := some conn, num_adapters := n, obj_path_table := table_with h d }

/-! ## Error catalogue -/

/-- Argument of a message, as far as the functions modelled here read or write it. -/
inductive DBusArg where
  | byte (v : Nat)
  | uint32 (v : Nat)
  | string (s : CStr)
  | uint16 (v : Nat)
deriving DecidableEq, Repr

/-- Message created on behalf of the daemon: an error reply
(`dbus_message_new_error`) or a method return (`dbus_message_new_method_return`),
with the arguments appended to it. -/
inductive Reply where
  | error (name : CStr) (text : CStr) (args : List DBusArg)
  | method_return (args : List DBusArg)
deriving DecidableEq, Repr

/-- The entries of `error_array` before its `{ 0, NULL }` terminator. -/
def error_array (h : Header) : List (Nat × CStr) :=
  [ (h.BLUEZ_EDBUS_UNKNOWN_METHOD, "Method not found".toList),
    (h.BLUEZ_EDBUS_WRONG_SIGNATURE, "Wrong method signature".toList),
    (h.BLUEZ_EDBUS_WRONG_PARAM, "Invalid parameters".toList),
    (h.BLUEZ_EDBUS_RECORD_NOT_FOUND, "No record found".toList),
    (h.BLUEZ_EDBUS_NO_MEM, "No memory".toList),
    (h.BLUEZ_EDBUS_CONN_NOT_FOUND, "Connection not found".toList),
    (h.BLUEZ_EDBUS_UNKNOWN_PATH, "Device path is not registered".toList) ]

/-- The loop `for (ptr = error_array; ptr->code; ptr++)` of `bluez_dbus_error_to_str`:
it stops at the first entry whose code is zero. -/
def error_array_scan (ecode : Nat) : List (Nat × CStr) → Option CStr
  | [] => none
  | ptr :: rest =>
    if ptr.1 = 0 then none
    else if ptr.1 = ecode then some ptr.2
    else error_array_scan ecode rest

/-- Model of `bluez_dbus_error_to_str` on a `uint32_t` code; `strerror` is the host's
`strerror`. `none` is the `NULL` result. -/
def bluez_dbus_error_to_str (h : Header) (strerror : Nat → CStr) (ecode : Nat) : Option CStr :=
  if ecode &&& h.BLUEZ_ESYSTEM_OFFSET ≠ 0 then
    /- System error -/
    let raw_code := (0xFFFFFFFF ^^^ h.BLUEZ_ESYSTEM_OFFSET) &&& ecode
    some (strerror raw_code)
  else if ecode &&& h.BLUEZ_EDBUS_OFFSET ≠ 0 then
    /- D-Bus error -/
    error_array_scan ecode (error_array h)
  else none

/-- Model of `bluez_new_failure_msg`: `none` is the `NULL` result. -/
def bluez_new_failure_msg (h : Header) (strerror : Nat → CStr) (ecode : Nat) : Option Reply :=
  match bluez_dbus_error_to_str h strerror ecode with
  | some error_msg => some (Reply.error h.ERROR_INTERFACE error_msg [DBusArg.uint32 ecode])
  | none => none

/-- The seven protocol error codes, in the order of `error_array`. -/
def protocol_codes (h : Header) : List Nat := (error_array h).map Prod.fst

/-- Side condition on the error constants of the header: the protocol codes are
pairwise distinct, carry the D-Bus class bit and do not carry the system class bit. -/
def ErrorCodesOk (h : Header) : Prop :=
  (protocol_codes h).Nodup ∧
  ∀ c ∈ protocol_codes h, c &&& h.BLUEZ_ESYSTEM_OFFSET = 0 ∧ c &&& h.BLUEZ_EDBUS_OFFSET ≠ 0

instance (h : Header) : Decidable (ErrorCodesOk h) := by
  unfold ErrorCodesOk; infer_instance

/-! ## Request router -/

/-- Type `DBusHandlerResult`. -/
inductive DBusHandlerResult where
  | HANDLED
  | NOT_YET_HANDLED
  | NEED_MEMORY
deriving DecidableEq, Repr

/-- Message types `DBUS_MESSAGE_TYPE_*`. -/
inductive MessageType where
  | INVALID
  | METHOD_CALL
  | METHOD_RETURN
  | ERROR
  | SIGNAL
deriving DecidableEq, Repr

/-- Inbound message, as read by `msg_func` through the `dbus_message_get_*`
accessors. The interface and the member may be absent (`NULL`). -/
structure DBusMessage where
  path : CStr
  type : MessageType
  iface : Option CStr
  method : Option CStr
  signature : CStr
  args : List DBusArg
deriving DecidableEq, Repr

/-- Entry of a dispatch table (`struct service_data`) before the terminator, whose
`name` is `NULL`. `H` names the handler functions. -/
structure service_data (H : Type) where
  name : CStr
  handler_func : Option H
  signature : Option CStr
deriving DecidableEq, Repr

/-- The dispatch tables `msg_func` chooses from: `dev_services`, `mgr_services` and, for
an entry of `obj_path_table`, the table its `get_svc_table` callback returns. -/
structure ServiceTables (H : Type) where
  dev_services : List (service_data H)
  mgr_services : List (service_data H)
  get_svc_table : profile_obj_path_data → List (service_data H)

/-- Locals of `msg_func` after the path has been classified (lines 950 to 983). -/
structure Classified (H : Type) where
  ptr_handlers : Option (List (service_data H))
  tmp_iface : Option CStr
  found : Bool
  reply : Option Reply
  ret : DBusHandlerResult
deriving DecidableEq, Repr

/-- The loop over `obj_path_table` in `msg_func`: every entry whose name equals
`rel_path` sets `ptr_handlers` and `found`. -/
def mgr_child_loop {H : Type} (T : ServiceTables H) (rel_path : CStr) :
    List profile_obj_path_data → Option (List (service_data H)) × Bool →
    Option (List (service_data H)) × Bool
  | [], acc => acc
  | mgr_child :: rest, acc =>
    if strcmp mgr_child.name rel_path = 0 then
      mgr_child_loop T rel_path rest (some (T.get_svc_table mgr_child), true)
    else mgr_child_loop T rel_path rest acc

/-- Classification of the path in `msg_func`. `none` stands for undefined behaviour:
`strrchr` found no `'/'` and the pointer `NULL + 1` is compared with a profile name. -/
def classify {H : Type} (h : Header) (strerror : Nat → CStr) (T : ServiceTables H)
    (tbl : List profile_obj_path_data) (msg : DBusMessage) (dbus_data : hci_dbus_data) :
    Option (Classified H) :=
  if strcmp msg.path h.DEVICE_PATH = 0 then
    some { ptr_handlers := some T.dev_services, tmp_iface := some h.DEVICE_INTERFACE,
           found := true, reply := none, ret := DBusHandlerResult.NOT_YET_HANDLED }
  else if strcmp msg.path h.MANAGER_PATH > 0 then
    /- it is device specific path -/
    if dbus_data.id = h.MANAGER_PATH_ID then
      /- fallback handling. The child path IS NOT registered -/
      some { ptr_handlers := none, tmp_iface := none, found := false,
             reply := bluez_new_failure_msg h strerror h.BLUEZ_EDBUS_UNKNOWN_PATH,
             ret := DBusHandlerResult.HANDLED }
    else
      match strrchr_next '/' msg.path with
      | none =>
        if tbl.isEmpty then
          some { ptr_handlers := none, tmp_iface := some h.MANAGER_INTERFACE, found := false,
                 reply := none, ret := DBusHandlerResult.NOT_YET_HANDLED }
        else none
      | some rel_path =>
        let r := mgr_child_loop T rel_path tbl (none, false)
        some { ptr_handlers := r.1, tmp_iface := some h.MANAGER_INTERFACE, found := r.2,
               reply := none, ret := DBusHandlerResult.NOT_YET_HANDLED }
  else
    /- it's the manager path -/
    some { ptr_handlers := some T.mgr_services, tmp_iface := some h.MANAGER_INTERFACE,
           found := true, reply := none, ret := DBusHandlerResult.NOT_YET_HANDLED }

/-- Locals of `msg_func` that the scan of the dispatch table updates, with the list of
the handler functions called so far. -/
structure Scan (H : Type) where
  result : Nat
  reply : Option Reply
  invoked : List H
deriving DecidableEq, Repr

/-- The loop `for (; ptr_handlers->name; ptr_handlers++)` of `msg_func`.
`call f` is the outcome of calling handler `f` on the message and the user data.
`none` stands for undefined behaviour: the entry's `signature` is `NULL` and is
handed to `strcmp`. -/
def scan_handlers {H : Type} (h : Header) (call : H → Option Reply) (method signature : CStr) :
    List (service_data H) → Scan H → Option (Scan H)
  | [], st => some st
  | ptr :: rest, st =>
    if strcmp method ptr.name = 0 then
      /- resetting unknown method. It's possible handle method overload -/
      let st1 : Scan H := { st with result := h.BLUEZ_EDBUS_WRONG_SIGNATURE }
      match ptr.signature with
      | none => none
      | some sig =>
        if strcmp sig signature = 0 then
          match ptr.handler_func with
          | some f =>
            /- resetting wrong signature -/
            some { result := 0, reply := call f, invoked := st1.invoked ++ [f] }
          | none => some st1
        else scan_handlers h call method signature rest st1
    else scan_handlers h call method signature rest st

/-- What a run of `msg_func` does: the value returned, the message handed to
`dbus_connection_send` (if any) and the handler functions called, in call order. -/
structure Outcome (H : Type) where
  ret : DBusHandlerResult
  sent : Option Reply
  invoked : List H
deriving DecidableEq, Repr

/-- Model of `msg_func`. `handler f msg data` is the message handler `f` returns
(`none` for `NULL`). The result `none` stands for undefined behaviour (a `NULL`
pointer handed to `strcmp`). -/
def msg_func {H : Type} (h : Header) (strerror : Nat → CStr) (T : ServiceTables H)
    (tbl : List profile_obj_path_data)
    (handler : H → DBusMessage → hci_dbus_data → Option Reply)
    (msg : DBusMessage) (data : hci_dbus_data) : Option (Outcome H) :=
  match classify h strerror T tbl msg data with
  | none => none
  | some c =>
    if c.found && decide (msg.type = MessageType.METHOD_CALL) then
      match msg.iface, c.tmp_iface, c.ptr_handlers with
      | some iface, some tmp_iface, some ptr_handlers =>
        if strcmp iface tmp_iface = 0 then
          match msg.method with
          | some method =>
            match scan_handlers h (fun f => handler f msg data) method msg.signature
                ptr_handlers { result := h.BLUEZ_EDBUS_UNKNOWN_METHOD, reply := c.reply,
                               invoked := [] } with
            | none => none
            | some st =>
              let reply :=
                if st.result ≠ 0 then bluez_new_failure_msg h strerror st.result else st.reply
              some { ret := DBusHandlerResult.HANDLED, sent := reply, invoked := st.invoked }
          | none => some { ret := c.ret, sent := c.reply, invoked := [] }
        else some { ret := c.ret, sent := c.reply, invoked := [] }
      | _, _, _ => none
    else some { ret := c.ret, sent := c.reply, invoked := [] }

/-- The call is a method call with member `m` on a path that `msg_func` classifies to
the dispatch table `table`, and it names the interface expected for that table. -/
def RoutedTo {H : Type} (h : Header) (strerror : Nat → CStr) (T : ServiceTables H)
    (tbl : List profile_obj_path_data) (msg : DBusMessage) (data : hci_dbus_data)
    (table : List (service_data H)) (m : CStr) : Prop :=
  ∃ c iface, classify h strerror T tbl msg data = some c ∧ c.found = true ∧
    c.ptr_handlers = some table ∧ msg.type = MessageType.METHOD_CALL ∧
    msg.iface = some iface ∧ c.tmp_iface = some iface ∧ msg.method = some m

/-- The message handler functions defined in `hcid/dbus.c`. -/
inductive Handler where
  | handle_get_devices_req
  | handle_not_implemented_req
  | handle_periodic_inq_req
  | handle_cancel_periodic_inq_req
  | handle_inq_req
  | handle_role_switch_req
  | handle_remote_name_req
  | handle_display_conn_req
deriving DecidableEq, Repr

/-- A `strerror` for concrete evaluations. -/
def sample_strerror : Nat → CStr := fun _ => "Unknown error".toList

/-- A method call under the sample header. -/
def sample_call (path iface method signature : String) : DBusMessage :=
  { path := path.toList, type := MessageType.METHOD_CALL, iface := some iface.toList,
    method := some method.toList, signature := signature.toList, args := [] }

/-- Service tables whose device table is `dev` and whose other tables are empty. -/
def tables_with_dev (dev : List (service_data Handler)) : ServiceTables Handler :=
  { dev_services := dev, mgr_services := [], get_svc_table := fun _ => [] }

/-- A handler behaviour for concrete evaluations: every handler answers with a method
return carrying one byte. -/
def sample_handler : Handler → DBusMessage → hci_dbus_data → Option Reply :=
  fun _ _ _ => some (Reply.method_return [DBusArg.byte 0])

/-- A device table with an overloaded method: two entries named `Scan` that differ in
their signature. -/
def overloaded_table : List (service_data Handler) :=
  [ { name := "Scan".toList, handler_func := some Handler.handle_periodic_inq_req,
      signature := some "yyy".toList },
    { name := "Scan".toList, handler_func := some Handler.handle_inq_req,
      signature := some "s".toList } ]

/-- A device table with a stub entry: name and signature but no handler function. -/
def stub_table : List (service_data Handler) :=
  [ { name := "Up".toList, handler_func := none, signature := some [] } ]

/-! ## Adapter driver and the periodic-inquiry handler -/

/-- Opcode group fields named in `hcid/dbus.c` (values in `<bluetooth/hci.h>`). -/
inductive Ogf where
  | OGF_LINK_CTL
  | OGF_LINK_POLICY
  | OGF_HOST_CTL
deriving DecidableEq, Repr

/-- Opcode command fields named in `hcid/dbus.c` (values in `<bluetooth/hci.h>`). -/
inductive Ocf where
  | OCF_PIN_CODE_REPLY
  | OCF_PIN_CODE_NEG_REPLY
  | OCF_WRITE_INQUIRY_MODE
  | OCF_PERIODIC_INQUIRY
  | OCF_EXIT_PERIODIC_INQUIRY
deriving DecidableEq, Repr

/-- A device address (`bdaddr_t`): its six bytes. -/
abbrev bdaddr_t := List Nat

/-- Command parameters handed to `hci_send_cmd`, by field. -/
inductive HciParam where
  | write_inquiry_mode_cp (mode : Nat)
  | periodic_inquiry_cp (max_period min_period : Nat) (lap : List Nat) (length num_rsp : Nat)
  | bdaddr (bda : bdaddr_t)
  | pin_code_reply_cp (bdaddr : bdaddr_t) (pin_len : Nat) (pin_code : List Nat)
deriving DecidableEq, Repr

/-- A call into the adapter driver layer (or `close` on a driver socket). -/
inductive DriverCall where
  | hci_get_route
  | hci_open_dev (dev_id : Int)
  | hci_send_cmd (sock : Int) (ogf : Ogf) (ocf : Ocf) (param : HciParam)
  | close (sock : Int)
  | hci_for_each_dev (bdaddr : bdaddr_t)
  | hci_switch_role (sock : Int) (bdaddr : bdaddr_t) (role : Nat)
  | hci_inquiry (dev_id : Int) (length num_rsp : Int) (flags : Nat)
deriving DecidableEq, Repr

/-- The adapter driver layer as one handler run sees it: the value `hci_get_route(NULL)`
returns, the value `hci_open_dev` returns for a device id, and for each command the
value `hci_send_cmd` returns together with the `errno` it leaves behind. -/
structure Driver where
  hci_get_route : Int
  hci_open_dev : Int → Int
  hci_send_cmd : Int → Ogf → Ocf → HciParam → Int
  errno : Int → Ogf → Ocf → HciParam → Nat

/-- Whether a driver call is a hardware command. -/
def DriverCall.is_send_cmd : DriverCall → Bool
  | DriverCall.hci_send_cmd _ _ _ _ => true
  | _ => false

/-- The label `failed:` of the handlers: the socket is closed when `sock > 0`, and the
reply is returned. -/
def handler_exit (sock : Int) (reply : Option Reply) (trace : List DriverCall) :
    Option Reply × List DriverCall :=
  (reply, if sock > 0 then trace ++ [DriverCall.close sock] else trace)

/-- Model of `handle_periodic_inq_req`: the reply returned (`none` for `NULL`) and the
driver calls made, in order. The result `none` stands for undefined behaviour: the
message does not start with the three byte arguments the handler reads. -/
def handle_periodic_inq_req (h : Header) (strerror : Nat → CStr) (drv : Driver)
    (msg : DBusMessage) (dbus_data : hci_dbus_data) :
    Option (Option Reply × List DriverCall) :=
  if dbus_data.id = h.DEFAULT_DEVICE_PATH_ID ∧ drv.hci_get_route < 0 then
    some (handler_exit (-1) (bluez_new_failure_msg h strerror h.BLUEZ_ESYSTEM_ENODEV)
      [DriverCall.hci_get_route])
  else
    let dev_id : Int :=
      if dbus_data.id = h.DEFAULT_DEVICE_PATH_ID then drv.hci_get_route else dbus_data.id
    let t0 : List DriverCall :=
      if dbus_data.id = h.DEFAULT_DEVICE_PATH_ID then [DriverCall.hci_get_route] else []
    let sock := drv.hci_open_dev dev_id
    let t1 := t0 ++ [DriverCall.hci_open_dev dev_id]
    if sock < 0 then
      some (handler_exit sock (bluez_new_failure_msg h strerror h.BLUEZ_ESYSTEM_ENODEV) t1)
    else
      match msg.args with
      | DBusArg.byte a0 :: DBusArg.byte a1 :: DBusArg.byte a2 :: _ =>
        let length := a0 % 256
        let min_period := a1 % 256
        let max_period := a2 % 256
        if length ≥ min_period ∨ min_period ≥ max_period then
          some (handler_exit sock (bluez_new_failure_msg h strerror h.BLUEZ_EDBUS_WRONG_PARAM) t1)
        else
          let inq_mode := HciParam.write_inquiry_mode_cp 1
          /- General/Unlimited Inquiry Access Code (GIAC) -/
          let inq_param := HciParam.periodic_inquiry_cp max_period min_period
            [0x33, 0x8b, 0x9e] length 100
          let t2 := t1 ++ [DriverCall.hci_send_cmd sock Ogf.OGF_HOST_CTL
            Ocf.OCF_WRITE_INQUIRY_MODE inq_mode]
          if drv.hci_send_cmd sock Ogf.OGF_HOST_CTL Ocf.OCF_WRITE_INQUIRY_MODE inq_mode < 0 then
            some (handler_exit sock (bluez_new_failure_msg h strerror
              ((h.BLUEZ_ESYSTEM_OFFSET
                + drv.errno sock Ogf.OGF_HOST_CTL Ocf.OCF_WRITE_INQUIRY_MODE inq_mode)
                % 2 ^ 32)) t2)
          else
            let t3 := t2 ++ [DriverCall.hci_send_cmd sock Ogf.OGF_LINK_CTL
              Ocf.OCF_PERIODIC_INQUIRY inq_param]
            if drv.hci_send_cmd sock Ogf.OGF_LINK_CTL Ocf.OCF_PERIODIC_INQUIRY inq_param < 0 then
              some (handler_exit sock (bluez_new_failure_msg h strerror
                ((h.BLUEZ_ESYSTEM_OFFSET
                  + drv.errno sock Ogf.OGF_LINK_CTL Ocf.OCF_PERIODIC_INQUIRY inq_param)
                  % 2 ^ 32)) t3)
            else
              /- return TRUE to indicate that operation was completed -/
              some (handler_exit sock (some (Reply.method_return [DBusArg.byte 0])) t3)
      | _ => none

/-- The adapter the handler addresses: the first adapter that is up for the alias
endpoint, the identifier bound to the endpoint otherwise. -/
def target_dev (h : Header) (drv : Driver) (dbus_data : hci_dbus_data) : Int :=
  if dbus_data.id = h.DEFAULT_DEVICE_PATH_ID then drv.hci_get_route else dbus_data.id

/-- Side condition on the system error class of the header: `BLUEZ_ESYSTEM_OFFSET` is
a single bit of a 32-bit word. -/
def SystemOffsetOk (h : Header) : Prop := ∃ k, k < 32 ∧ h.BLUEZ_ESYSTEM_OFFSET = 2 ^ k

/-- A driver for concrete evaluations: adapter 0 is up, sessions open on socket 5 and
every command succeeds. -/
def sample_driver : Driver :=
  { hci_get_route := 0, hci_open_dev := fun _ => 5, hci_send_cmd := fun _ _ _ _ => 0,
    errno := fun _ _ _ _ => 0 }

/-- A periodic-inquiry request with the given window, minimum and maximum period. -/
def periodic_request (length min_period max_period : Nat) : DBusMessage :=
  { path := default_path sampleHeader, type := MessageType.METHOD_CALL,
    iface := some sampleHeader.MANAGER_INTERFACE, method := some "PeriodicInquiry".toList,
    signature := "yyy".toList,
    args := [DBusArg.byte length, DBusArg.byte min_period, DBusArg.byte max_period] }

/-- A driver for concrete evaluations on which no session opens: adapter 0 is up but
`hci_open_dev` fails. -/
def closed_driver : Driver :=
  { hci_get_route := 0, hci_open_dev := fun _ => -1, hci_send_cmd := fun _ _ _ _ => 0,
    errno := fun _ _ _ _ => 0 }

/-! ## Authorization round trip -/

/-- Contents of `struct pin_request`. -/
structure pin_request where
  dev : Int
  bda : bdaddr_t
deriving DecidableEq, Repr

/-- The fields of `struct hci_conn_info` that `hcid_dbus_request_pin` reads. -/
structure hci_conn_info where
  bdaddr : bdaddr_t
  out : Nat
deriving DecidableEq, Repr

/-- The message `dbus_pending_call_steal_reply` hands over, as `reply_handler_function`
reads it: its type and its arguments. -/
structure AgentMessage where
  type : MessageType
  args : List DBusArg
deriving DecidableEq, Repr

/-- Model of `reply_handler_function`: the driver commands sent, in order.
`pin_code_size` is the size of the array `pin_code` of `pin_code_reply_cp` (declared
in `<bluetooth/hci.h>`); `message` is what `dbus_pending_call_steal_reply` returns.
The result `none` stands for undefined behaviour, in two places. On an error reply
`dbus_message_iter_get_basic(&iter, &error_msg)` is called with no check of the
argument type, and `error_msg`, which is not initialised, is handed to `syslog` for a
`%s` before the command is sent: it is a string only when the first argument of the
reply is one. On a string reply `memcpy` writes `strlen(pin)` bytes into `pin_code`,
past its end when the PIN is longer than the array. The field `pin_len` is a
`uint8_t`. -/
def reply_handler_function (pin_code_size : Nat) (req : pin_request)
    (message : Option AgentMessage) : Option (List DriverCall) :=
  match message with
  | none => some []
  | some m =>
    if m.type = MessageType.ERROR then
      match m.args with
      | DBusArg.string _ :: _ =>
        /- handling WRONG_ARGS_ERROR, DBUS_ERROR_NO_REPLY, DBUS_ERROR_SERVICE_UNKNOWN -/
        some [DriverCall.hci_send_cmd req.dev Ogf.OGF_LINK_CTL Ocf.OCF_PIN_CODE_NEG_REPLY
          (HciParam.bdaddr req.bda)]
      | _ => none
    else
      /- check signature -/
      match m.args with
      | DBusArg.string pin :: _ =>
        let len := pin.length
        if len ≤ pin_code_size then
          some [DriverCall.hci_send_cmd req.dev Ogf.OGF_LINK_CTL Ocf.OCF_PIN_CODE_REPLY
            (HciParam.pin_code_reply_cp req.bda (len % 256)
              (pin.map Char.toNat ++ List.replicate (pin_code_size - len) 0))]
        else none
      | _ =>
        some [DriverCall.hci_send_cmd req.dev Ogf.OGF_LINK_CTL Ocf.OCF_PIN_CODE_NEG_REPLY
          (HciParam.bdaddr req.bda)]

/-- Model of `hcid_dbus_request_pin`: the driver commands sent and the request handed to
`dbus_pending_call_set_notify`, if any. `message_alloc`, `req_alloc` and `send_ok` tell
whether `dbus_message_new_method_call`, `malloc` and
`dbus_connection_send_with_reply` succeed. The result `none` stands for undefined
behaviour: the result of `malloc` is written through without a check. -/
def hcid_dbus_request_pin (message_alloc req_alloc send_ok : Bool) (dev : Int)
    (ci : hci_conn_info) : Option (List DriverCall × Option pin_request) :=
  if !message_alloc then
    some ([DriverCall.hci_send_cmd dev Ogf.OGF_LINK_CTL Ocf.OCF_PIN_CODE_NEG_REPLY
      (HciParam.bdaddr ci.bdaddr)], none)
  else if !req_alloc then none
  else if !send_ok then
    some ([DriverCall.hci_send_cmd dev Ogf.OGF_LINK_CTL Ocf.OCF_PIN_CODE_NEG_REPLY
      (HciParam.bdaddr ci.bdaddr)], none)
  else some ([], some { dev := dev, bda := ci.bdaddr })

/-- One authorization correlation: `hcid_dbus_request_pin`, followed, when the request
was sent, by one call of `reply_handler_function` on what the pending call holds. The
driver commands of both, in order. -/
def pin_correlation (pin_code_size : Nat) (message_alloc req_alloc send_ok : Bool) (dev : Int)
    (ci : hci_conn_info) (completion : Option AgentMessage) : Option (List DriverCall) :=
  match hcid_dbus_request_pin message_alloc req_alloc send_ok dev ci with
  | none => none
  | some (trace, none) => some trace
  | some (trace, some req) =>
    match reply_handler_function pin_code_size req completion with
    | none => none
    | some trace2 => some (trace ++ trace2)

/-- A pending PIN request for concrete evaluations. -/
def sample_pin_request : pin_request := { dev := 3, bda := [1, 2, 3, 4, 5, 6] }

/-- A connection needing authorization, for concrete evaluations. -/
def sample_conn_info : hci_conn_info := { bdaddr := [1, 2, 3, 4, 5, 6], out := 0 }

/-- An agent reply carrying the string `pin`. -/
def pin_reply (pin : String) : AgentMessage :=
  { type := MessageType.METHOD_RETURN, args := [DBusArg.string pin.toList] }

/-! ## Role switch and one-shot inquiry handlers -/

/-- The part of the adapter driver layer that `handle_role_switch_req` uses beyond
`Driver`: `str2ba`, the value `hci_for_each_dev(HCI_UP, find_conn, &bdaddr)` returns,
the value `hci_switch_role` returns and the `errno` it leaves behind. -/
structure LinkDriver where
  str2ba : CStr → bdaddr_t
  hci_for_each_dev : bdaddr_t → Int
  hci_switch_role : Int → bdaddr_t → Nat → Int
  errno : Int → bdaddr_t → Nat → Nat

/-- Model of `handle_role_switch_req`: the reply returned (`none` for `NULL`) and the
driver calls made, in order. Its label `failed:` returns the reply and closes nothing.
The result `none` stands for undefined behaviour: the message does not start with the
string and the byte the handler reads. -/
def handle_role_switch_req (h : Header) (strerror : Nat → CStr) (drv : Driver)
    (link : LinkDriver) (msg : DBusMessage) (dbus_data : hci_dbus_data) :
    Option (Option Reply × List DriverCall) :=
  match msg.args with
  | DBusArg.string str_bdaddr :: DBusArg.byte a1 :: _ =>
    let role := a1 % 256
    let bdaddr := link.str2ba str_bdaddr
    let dev_id := link.hci_for_each_dev bdaddr
    let t0 := [DriverCall.hci_for_each_dev bdaddr]
    if dev_id < 0 then
      some (bluez_new_failure_msg h strerror h.BLUEZ_ESYSTEM_ENODEV, t0)
    else if dbus_data.id ≠ h.DEFAULT_DEVICE_PATH_ID ∧ (dbus_data.id : Int) ≠ dev_id then
      some (bluez_new_failure_msg h strerror h.BLUEZ_EDBUS_CONN_NOT_FOUND, t0)
    else
      let sock := drv.hci_open_dev dev_id
      let t1 := t0 ++ [DriverCall.hci_open_dev dev_id]
      if sock < 0 then
        some (bluez_new_failure_msg h strerror h.BLUEZ_ESYSTEM_ENODEV, t1)
      else
        let t2 := t1 ++ [DriverCall.hci_switch_role sock bdaddr role]
        if link.hci_switch_role sock bdaddr role < 0 then
          some (bluez_new_failure_msg h strerror
            ((h.BLUEZ_ESYSTEM_OFFSET + link.errno sock bdaddr role) % 2 ^ 32), t2)
        else
          /- return TRUE to indicate that operation was completed -/
          some (some (Reply.method_return [DBusArg.byte 0]), t2)
  | _ => none

/-- The sessions left open by a sequence of driver calls, given the descriptor
`hci_open_dev` returns for a device id: every non-negative descriptor returned by an
`hci_open_dev` call and not closed afterwards. -/
def open_sessions (hci_open_dev : Int → Int) : List DriverCall → List Int
  | [] => []
  | DriverCall.hci_open_dev dev_id :: rest =>
    if hci_open_dev dev_id ≥ 0 ∧
        DriverCall.close (hci_open_dev dev_id) ∉ rest then
      hci_open_dev dev_id :: open_sessions hci_open_dev rest
    else open_sessions hci_open_dev rest
  | _ :: rest => open_sessions hci_open_dev rest

/-- A link driver for concrete evaluations: the connection is on adapter 0 and the
role switch succeeds. -/
def sample_link_driver : LinkDriver :=
  { str2ba := fun _ => [1, 2, 3, 4, 5, 6], hci_for_each_dev := fun _ => 0,
    hci_switch_role := fun _ _ _ => 0, errno := fun _ _ _ => 0 }

/-- A role-switch request for the given address and role. -/
def role_switch_request (addr : String) (role : Nat) : DBusMessage :=
  { path := default_path sampleHeader, type := MessageType.METHOD_CALL,
    iface := some sampleHeader.MANAGER_INTERFACE, method := some "RoleSwitch".toList,
    signature := "sy".toList, args := [DBusArg.string addr.toList, DBusArg.byte role] }

/-- Entry of the array `hci_inquiry` fills (`inquiry_info`), as far as `handle_inq_req`
reads it. -/
structure inquiry_info where
  bdaddr : bdaddr_t
  dev_class : List Nat
  clock_offset : Nat
deriving DecidableEq, Repr

/-- The part of the adapter driver layer that `handle_inq_req` uses: the count
`hci_inquiry` returns with the array it allocates and the `errno` it leaves behind,
and the conversions `ba2str`, `btohs` and of the three class bytes to a number. -/
structure InquiryDriver where
  hci_get_route : Int
  hci_inquiry : Int → Int → Int → Nat → Int × List inquiry_info
  errno : Int → Int → Int → Nat → Nat
  ba2str : bdaddr_t → CStr
  btohs : Nat → Nat
  class_value : List Nat → Nat

/-- Value of a byte read into an `int8_t`. -/
def to_int8 (v : Int) : Int := if v % 256 < 128 then v % 256 else v % 256 - 256

/-- The local variable `reply` of `handle_inq_req` when the function returns: not
built, an error reply, or a method return holding an array of records (address, class,
clock offset). -/
inductive InquiryReply where
  | not_built
  | failure (reply : Option Reply)
  | records (items : List (CStr × Nat × Nat))
deriving DecidableEq, Repr

/-- What a run of `handle_inq_req` does: the value returned, the local `reply` it built
and the driver calls made, in order. -/
structure InquiryOutcome where
  returned : Option Reply
  built : InquiryReply
  trace : List DriverCall
deriving DecidableEq, Repr

/-- Model of `handle_inq_req`. Whatever reply was built, the function ends in
`return NULL`. The result `none` stands for undefined behaviour: the message does not
start with the two bytes and the 16-bit number the handler reads, or the driver
reports more results than the array it returns holds. -/
def handle_inq_req (h : Header) (strerror : Nat → CStr) (drv : InquiryDriver)
    (msg : DBusMessage) (dbus_data : hci_dbus_data) : Option InquiryOutcome :=
  if dbus_data.id = h.DEFAULT_DEVICE_PATH_ID ∧ drv.hci_get_route < 0 then
    some { returned := none,
           built := InquiryReply.failure
             (bluez_new_failure_msg h strerror h.BLUEZ_ESYSTEM_ENODEV),
           trace := [DriverCall.hci_get_route] }
  else
    let dev_id : Int :=
      if dbus_data.id = h.DEFAULT_DEVICE_PATH_ID then drv.hci_get_route else dbus_data.id
    let t0 : List DriverCall :=
      if dbus_data.id = h.DEFAULT_DEVICE_PATH_ID then [DriverCall.hci_get_route] else []
    match msg.args with
    | DBusArg.byte a0 :: DBusArg.byte a1 :: DBusArg.uint16 a2 :: _ =>
      let length := to_int8 a0
      let num_rsp := to_int8 a1
      let flags := a2 % 65536
      if length ≤ 0 ∨ num_rsp ≤ 0 then
        some { returned := none,
               built := InquiryReply.failure
                 (bluez_new_failure_msg h strerror h.BLUEZ_EDBUS_WRONG_PARAM),
               trace := t0 }
      else
        let r := drv.hci_inquiry dev_id length num_rsp flags
        let t1 := t0 ++ [DriverCall.hci_inquiry dev_id length num_rsp flags]
        let num_rsp := to_int8 r.1
        if num_rsp < 0 then
          some { returned := none,
                 built := InquiryReply.failure (bluez_new_failure_msg h strerror
                   ((h.BLUEZ_ESYSTEM_OFFSET + drv.errno dev_id length (to_int8 a1) flags)
                     % 2 ^ 32)),
                 trace := t1 }
        else if num_rsp.toNat ≤ r.2.length then
          some { returned := none,
                 built := InquiryReply.records ((r.2.take num_rsp.toNat).map (fun info =>
                   (drv.ba2str info.bdaddr, drv.class_value info.dev_class,
                    drv.btohs info.clock_offset))),
                 trace := t1 }
        else none
    | _ => none

/-- An inquiry driver for concrete evaluations: adapter 0 is up and every inquiry finds
the same two devices. -/
def sample_inquiry_driver : InquiryDriver :=
  { hci_get_route := 0,
    hci_inquiry := fun _ _ _ _ =>
      (2, [{ bdaddr := [1, 2, 3, 4, 5, 6], dev_class := [4, 1, 0], clock_offset := 7 },
           { bdaddr := [6, 5, 4, 3, 2, 1], dev_class := [12, 2, 0], clock_offset := 9 }]),
    errno := fun _ _ _ _ => 0,
    ba2str := fun a => a.map digit,
    btohs := fun v => v,
    class_value := fun c => c.foldr (fun b acc => b + 256 * acc) 0 }

/-- A one-shot inquiry request with the given window, maximum number of results and
flags. -/
def inquiry_request (length num_rsp flags : Nat) : DBusMessage :=
  { path := default_path sampleHeader, type := MessageType.METHOD_CALL,
    iface := some sampleHeader.MANAGER_INTERFACE, method := some "Inquiry".toList,
    signature := "yyq".toList,
    args := [DBusArg.byte length, DBusArg.byte num_rsp, DBusArg.uint16 flags] }

/-! ## Error code spaces -/

/-- Modelled from the spec: the values of the error constants of `hcid/dbus.h` are
missing. The spec's invariant that the protocol and the hardware code spaces never
overlap and that the tag selects the lookup is taken as: `BLUEZ_ESYSTEM_OFFSET` is a
single bit of a 32-bit word, no protocol code carries it, and the seven protocol codes
are pairwise distinct and carry the bit `BLUEZ_EDBUS_OFFSET` tests. -/
def TaggedCodeSpaces (h : Header) : Prop := ErrorCodesOk h ∧ SystemOffsetOk h

/-! ## Manager dispatch table -/

/-- The method names and the signature of `hcid/dbus.h` that `mgr_services` uses; like
the other constants of the header they are fields. -/
structure ManagerNames where
  MGR_GET_DEV : CStr
  MGR_INIT : CStr
  MGR_ENABLE : CStr
  MGR_DISABLE : CStr
  MGR_GET_DEV_SIGNATURE : CStr

/-- The entries of `mgr_services` before its terminator, as declared: the last three
have the signature `NULL`. -/
def mgr_services (n : ManagerNames) : List (service_data Handler) :=
  [ { name := n.MGR_GET_DEV, handler_func := some Handler.handle_get_devices_req,
      signature := some n.MGR_GET_DEV_SIGNATURE },
    { name := n.MGR_INIT, handler_func := some Handler.handle_not_implemented_req,
      signature := none },
    { name := n.MGR_ENABLE, handler_func := some Handler.handle_not_implemented_req,
      signature := none },
    { name := n.MGR_DISABLE, handler_func := some Handler.handle_not_implemented_req,
      signature := none } ]

/-- Model of `handle_not_implemented_req`: it logs and returns `NULL`. -/
def handle_not_implemented_req (_msg : DBusMessage) (_data : hci_dbus_data) : Option Reply :=
  none

/-- Manager method names for concrete evaluations. -/
def sampleManagerNames : ManagerNames :=
  { MGR_GET_DEV := "DeviceList".toList, MGR_INIT := "Init".toList,
    MGR_ENABLE := "Enable".toList, MGR_DISABLE := "Disable".toList,
    MGR_GET_DEV_SIGNATURE := [] }

/-- Service tables whose manager table is `mgr_services` and whose other tables are
empty. -/
def tables_with_mgr (n : ManagerNames) : ServiceTables Handler :=
  { dev_services := [], mgr_services := mgr_services n, get_svc_table := fun _ => [] }

/-- A handler behaviour for concrete evaluations in which the stub handler is
`handle_not_implemented_req`. -/
def stub_aware_handler : Handler → DBusMessage → hci_dbus_data → Option Reply
  | Handler.handle_not_implemented_req, msg, data => handle_not_implemented_req msg data
  | _, _, _ => some (Reply.method_return [DBusArg.byte 0])

/-! ## Identifiers carried by the endpoints -/

/-- Where an entry of the object tree comes from: the tree `conn₀` the lifecycle started
from, the registration of the alias endpoint, or the registration of the concrete
endpoint of an adapter `c`, which carries the identifier `c`. -/
def EntryOrigin (h : Header) (conn₀ : ObjectTree) (e : CStr × hci_dbus_data) : Prop :=
  e ∈ conn₀ ∨ e = (default_path h, { id := h.DEFAULT_DEVICE_PATH_ID }) ∨
    ∃ c, e = (device_path h c, { id := c })

/-- Every entry of the object tree of state `s` has one of the three origins. -/
def TreeOrigin (h : Header) (conn₀ : ObjectTree) (s : State) : Prop :=
  ∀ conn, s.connection = some conn → ∀ e ∈ conn, EntryOrigin h conn₀ e

/-- User data of the concrete endpoint of adapter `id` in state `s`. -/
def adapter_data (h : Header) (s : State) (id : Nat) : Option hci_dbus_data :=
  match s.connection with
  | none => none
  | some conn => object_path_data conn (device_path h id)

/-- Whether some endpoint registered in state `s` carries the identifier `id`. -/
def carries_id (s : State) (id : Nat) : Bool :=
  match s.connection with
  | none => false
  | some conn => conn.any (fun e => e.2.id == id)

/-! ## Event loop bridge -/

/-- The bits of `GIOCondition` that `watch_func` tests. They are declared in
`glib-ectomy.h`, which is not part of the sources at hand, so each is a field. -/
structure GIOBits where
  G_IO_IN : Nat
  G_IO_OUT : Nat
  G_IO_HUP : Nat
  G_IO_ERR : Nat

/-- Flag `DBUS_WATCH_READABLE` of `DBusWatchFlags` (libdbus). -/
def DBUS_WATCH_READABLE : Nat := 1

/-- Flag `DBUS_WATCH_WRITABLE` of `DBusWatchFlags` (libdbus). -/
def DBUS_WATCH_WRITABLE : Nat := 2

/-- Flag `DBUS_WATCH_ERROR` of `DBusWatchFlags` (libdbus). -/
def DBUS_WATCH_ERROR : Nat := 4

/-- Flag `DBUS_WATCH_HANGUP` of `DBusWatchFlags` (libdbus). -/
def DBUS_WATCH_HANGUP : Nat := 8

/-- Type `DBusDispatchStatus`. -/
inductive DBusDispatchStatus where
  | DATA_REMAINS
  | COMPLETE
  | NEED_MEMORY
deriving DecidableEq, Repr

/-- The translation of the host readiness bits at the head of `watch_func`: the value
of `flags` handed to `dbus_watch_handle`. -/
def watch_flags (g : GIOBits) (cond : Nat) : Nat :=
  let flags := 0
  let flags := if cond &&& g.G_IO_IN ≠ 0 then flags ||| DBUS_WATCH_READABLE else flags
  let flags := if cond &&& g.G_IO_OUT ≠ 0 then flags ||| DBUS_WATCH_WRITABLE else flags
  let flags := if cond &&& g.G_IO_HUP ≠ 0 then flags ||| DBUS_WATCH_HANGUP else flags
  let flags := if cond &&& g.G_IO_ERR ≠ 0 then flags ||| DBUS_WATCH_ERROR else flags
  flags

/-- The message transport as `watch_func` uses it, over a transport state `σ`: the
effect of `dbus_watch_handle` for given flags, and the status and effect of one
`dbus_connection_dispatch`. -/
structure Transport (σ : Type) where
  dbus_watch_handle : Nat → σ → σ
  dbus_connection_dispatch : σ → DBusDispatchStatus × σ

/-- The loop `while (dbus_connection_dispatch(connection) == DBUS_DISPATCH_DATA_REMAINS);`
run for at most `fuel` dispatches: the transport state it ends in and the number of
dispatches made, or `none` when the fuel runs out first. -/
def dispatch_loop {σ : Type} (tr : Transport σ) : Nat → σ → Option (σ × Nat)
  | 0, _ => none
  | fuel + 1, t =>
    let r := tr.dbus_connection_dispatch t
    if r.1 = DBusDispatchStatus.DATA_REMAINS then
      match dispatch_loop tr fuel r.2 with
      | some out => some (out.1, out.2 + 1)
      | none => none
    else some (r.2, 1)

/-- What a run of `watch_func` does: the `gboolean` returned, the flags handed to
`dbus_watch_handle`, the transport state left behind and the number of dispatches. -/
structure WatchOutcome (σ : Type) where
  ret : Bool
  flags : Nat
  transport : σ
  dispatches : Nat
deriving DecidableEq, Repr

/-- Model of `watch_func` with at most `fuel` dispatches; `none` when the loop has not
ended by then. -/
def watch_func {σ : Type} (g : GIOBits) (tr : Transport σ) (fuel : Nat) (cond : Nat) (t : σ) :
    Option (WatchOutcome σ) :=
  let flags := watch_flags g cond
  let t1 := tr.dbus_watch_handle flags t
  /- Dispatch messages -/
  match dispatch_loop tr fuel t1 with
  | some out => some { ret := true, flags := flags, transport := out.1, dispatches := out.2 }
  | none => none

/-- A transport whose state is its queue of pending messages: `dbus_watch_handle` acts
on the queue as `on_handle` says, and each dispatch removes the message at the head and
reports `DATA_REMAINS` exactly when messages are left. -/
def queue_transport (M : Type) (on_handle : Nat → List M → List M) : Transport (List M) :=
  { dbus_watch_handle := on_handle,
    dbus_connection_dispatch := fun q =>
      match q with
      | [] => (DBusDispatchStatus.COMPLETE, [])
      | _ :: rest =>
        (if rest.isEmpty then DBusDispatchStatus.COMPLETE else DBusDispatchStatus.DATA_REMAINS,
          rest) }

/-- Host readiness bits for concrete evaluations. -/
def sampleGIOBits : GIOBits := { G_IO_IN := 1, G_IO_OUT := 4, G_IO_HUP := 16, G_IO_ERR := 8 }

/-- The number of bytes `reply_handler_function` asks `memcpy` to write into
`pr.pin_code` (`len = strlen(pin)`), when the reply reaches the accept branch: no bound
is applied to it. `none` when the accept branch is not reached. -/
def pin_copy_length (message : Option AgentMessage) : Option Nat :=
  match message with
  | none => none
  | some m =>
    if m.type = MessageType.ERROR then none
    else
      match m.args with
      | DBusArg.string pin :: _ => some pin.length
      | _ => none

/-! ## Delivery of a message to the handlers -/

/-- Side condition on the path constants of the header: the profile name `BLUEZ_HCI` is
a single path segment (it holds no `'/'`) and the device path is not the manager
path. -/
def EndpointPathsOk (h : Header) : Prop :=
  '/' ∉ h.BLUEZ_HCI ∧ h.DEVICE_PATH ≠ h.MANAGER_PATH

instance (h : Header) : Decidable (EndpointPathsOk h) := by
  unfold EndpointPathsOk; infer_instance

/-- The user data of the handlers that libdbus hands a message on `path` to, in the
order it tries them: the handler registered at `path` itself, then the fallback handler
of an ancestor of `path`. `hcid/dbus.c` registers one fallback handler, the one of
`MANAGER_PATH` (`dbus_connection_register_fallback` in `hcid_dbus_init`); every other
handler is registered with `dbus_connection_register_object_path` and is handed the
messages on its own path only. All of them run `msg_func` (`obj_vtable`). -/
def dispatch_chain (h : Header) (conn : ObjectTree) (path : CStr) : List hci_dbus_data :=
  (object_path_data conn path).toList ++
    (if (h.MANAGER_PATH ++ ['/']) <+: path then (object_path_data conn h.MANAGER_PATH).toList
     else [])

/-- The user data `msg_func` may be called with for a message on `path` in state `s`:
that of the handlers of `dispatch_chain` on the object tree of the connection. -/
def handlers_tried (h : Header) (s : State) (path : CStr) : List hci_dbus_data :=
  match s.connection with
  | none => []
  | some conn => dispatch_chain h conn path

/-! ## Facts about C strings and the object tree -/

theorem digit_toNat (k : Nat) (hk : k < 10) : (digit k).toNat = 48 + k := by
  interval_cases k <;> rfl

theorem dec_value_append (xs : CStr) (c : Char) :
    dec_value (xs ++ [c]) = 10 * dec_value xs + (c.toNat - 48) := by
  simp [dec_value, List.foldl_append]

theorem dec_value_dec_digits : ∀ fuel n, n < fuel → dec_value (dec_digits fuel n) = n
  | 0, n, hn => by omega
  | fuel + 1, n, hn => by
    unfold dec_digits
    split
    · rename_i h10
      simp [dec_value, digit_toNat n h10]
    · rename_i h10
      rw [dec_value_append, dec_value_dec_digits fuel (n / 10) (by omega),
        digit_toNat _ (Nat.mod_lt _ (by decide))]
      omega

theorem fmt_d_injective : Function.Injective fmt_d := by
  intro a b hab
  have ha := dec_value_dec_digits (a + 1) a (by omega)
  have hb := dec_value_dec_digits (b + 1) b (by omega)
  unfold fmt_d at hab
  rw [hab, hb] at ha
  exact ha.symm

theorem device_path_injective (h : Header) : Function.Injective (device_path h) := by
  intro a b hab
  unfold device_path at hab
  simp only [List.append_assoc, List.cons_append, List.append_cancel_left_eq,
    List.cons.injEq, true_and] at hab
  have h2 := List.append_cancel_right hab
  exact fmt_d_injective h2

theorem default_path_ne_device_path (h : Header) (hd : AliasDistinct h) (id : Nat) :
    default_path h ≠ device_path h id := by
  intro hab
  unfold default_path device_path at hab
  simp only [List.append_assoc, List.cons_append, List.append_cancel_left_eq,
    List.cons.injEq, true_and] at hab
  rw [← List.append_assoc] at hab
  have h2 := List.append_cancel_right hab
  exact hd ⟨fmt_d id, h2.symm⟩

theorem registered_register (conn : ObjectTree) (p q : CStr) (d : hci_dbus_data) :
    registered (dbus_connection_register_object_path conn p d).2 q
      = (registered conn q || (p == q)) := by
  unfold dbus_connection_register_object_path
  by_cases hp : registered conn p = true
  · by_cases hpq : p = q
    · subst hpq; simp [hp]
    · simp [hp, hpq]
  · simp only [hp]
    simp [registered, List.any_append]

theorem registered_filter (conn : ObjectTree) (p q : CStr) :
    registered (conn.filter (fun e => !(e.1 == p))) q = (registered conn q && !(p == q)) := by
  induction conn with
  | nil => simp [registered]
  | cons e rest ih =>
    unfold registered at ih
    by_cases h1 : e.1 = p
    · by_cases h2 : p = q
      · subst h2; simp [registered, List.filter_cons, h1, ih]
      · have h3 : ¬ e.1 = q := fun hh => h2 (h1 ▸ hh)
        have hb : (p == q) = false := beq_false_of_ne h2
        simp [registered, List.filter_cons, h1, h3, ih, hb]
    · by_cases h2 : p = q
      · subst h2; simp [registered, List.filter_cons, h1, ih]
      · have hb : (p == q) = false := beq_false_of_ne h2
        simp [registered, List.filter_cons, h1, ih, hb]

theorem registered_unregister (conn : ObjectTree) (p q : CStr) :
    registered (dbus_connection_unregister_object_path conn p).2 q
      = (registered conn q && !(p == q)) := by
  unfold dbus_connection_unregister_object_path
  by_cases hp : registered conn p = true
  · simp only [hp, if_true]
    exact registered_filter conn p q
  · by_cases hpq : p = q
    · subst hpq
      have hf : registered conn p = false := by simpa using hp
      simp [hf]
    · simp [hp, hpq]

/-! ## Facts about the lifecycle functions -/

theorem ite_pair_snd {α β : Type} (c : Prop) [Decidable c] (a b : α) (x : β) :
    (if c then (a, x) else (b, x)).2 = x := by
  split <;> rfl

theorem run_cons (h : Header) (s : State) (c : Call) (cs : List Call) :
    run h s (c :: cs) = run h (step h s c) cs := rfl

theorem step_attach (h : Header) (conn : ObjectTree) (n d : Int) (id : Nat) :
    step h (state_with h conn n d) (Call.register id true true)
      = state_with h (attach_tree h conn d id) (n + 1) 1 := by
  by_cases hd : d = 0 <;>
    simp [step, hcid_dbus_register_device, register_loop, hci_dbus_reg_obj_path,
      table_with, hd, attach_tree, state_with]

theorem step_detach (h : Header) (conn : ObjectTree) (n d : Int) (id : Nat) :
    step h (state_with h conn n d) (Call.unregister id)
      = state_with h (detach_tree h conn n id) (n - 1) (if n > 1 then d else 0) := by
  by_cases hn : n > 1 <;>
    simp [step, hcid_dbus_unregister_device, unregister_loop, hci_dbus_unreg_obj_path,
      table_with, hn, ite_pair_snd, detach_tree, state_with]

theorem initial_eq (h : Header) (conn : ObjectTree) :
    initial h conn = state_with h conn 0 0 := rfl

theorem device_beq_default (h : Header) (hd : AliasDistinct h) (id : Nat) :
    (device_path h id == default_path h) = false :=
  beq_false_of_ne (fun e => default_path_ne_device_path h hd id e.symm)

theorem default_beq_device (h : Header) (hd : AliasDistinct h) (id : Nat) :
    (default_path h == device_path h id) = false :=
  beq_false_of_ne (default_path_ne_device_path h hd id)

theorem device_beq_device (h : Header) (i j : Nat) :
    (device_path h i == device_path h j) = decide (i = j) := by
  by_cases hij : i = j
  · subst hij; simp
  · have : device_path h i ≠ device_path h j := fun e => hij (device_path_injective h e)
    simp [hij, this]

theorem alias_attach_tree (h : Header) (hd : AliasDistinct h) (conn : ObjectTree) (d : Int)
    (id : Nat) :
    registered (attach_tree h conn d id) (default_path h)
      = (if d = 0 then true else registered conn (default_path h)) := by
  unfold attach_tree
  rw [registered_register, device_beq_default h hd]
  by_cases h0 : d = 0
  · simp [h0, registered_register]
  · simp [h0]

theorem adapter_attach_tree (h : Header) (hd : AliasDistinct h) (conn : ObjectTree) (d : Int)
    (id j : Nat) :
    registered (attach_tree h conn d id) (device_path h j)
      = (registered conn (device_path h j) || decide (id = j)) := by
  unfold attach_tree
  rw [registered_register, device_beq_device]
  by_cases h0 : d = 0
  · simp [h0, registered_register, default_beq_device h hd]
  · simp [h0]

theorem alias_detach_tree (h : Header) (hd : AliasDistinct h) (conn : ObjectTree) (n : Int)
    (id : Nat) :
    registered (detach_tree h conn n id) (default_path h)
      = (if n > 1 then registered conn (default_path h) else false) := by
  unfold detach_tree
  rw [registered_unregister, device_beq_default h hd]
  by_cases h1 : n > 1
  · simp [h1]
  · simp [h1, registered_unregister]

theorem adapter_detach_tree (h : Header) (hd : AliasDistinct h) (conn : ObjectTree) (n : Int)
    (id j : Nat) :
    registered (detach_tree h conn n id) (device_path h j)
      = (registered conn (device_path h j) && !decide (id = j)) := by
  unfold detach_tree
  rw [registered_unregister, device_beq_device]
  by_cases h1 : n > 1
  · simp [h1]
  · simp [h1, registered_unregister, default_beq_device h hd]

/-- Invariant behind the count property: from a state in which the alias is registered
exactly when `dft_reg` is set and exactly when the counter `k` is positive, a sequence
that never attaches at a negative counter ends in a state where the alias is
registered exactly when the counter is positive. -/
theorem alias_iff_count_from (h : Header) (hd : AliasDistinct h) :
    ∀ (calls : List Call) (conn : ObjectTree) (k d : Int),
      (registered conn (default_path h) = true ↔ d ≠ 0) →
      (registered conn (default_path h) = true ↔ 0 < k) →
      AllocsSucceed calls → never_attached_below_zero k calls = true →
      (alias_registered h (run h (state_with h conn k d) calls) = true
        ↔ 0 < (run h (state_with h conn k d) calls).num_adapters)
  | [], conn, k, d, _, hk, _, _ => by
    simp only [run, List.foldl_nil, alias_registered, state_with]
    exact hk
  | Call.register id m_dft m_dev :: cs, conn, k, d, _, _, ha, hb => by
    have hm := ha (Call.register id m_dft m_dev) (List.mem_cons_self _ _)
    simp only [Call.allocs_ok, Bool.and_eq_true] at hm
    obtain ⟨rfl, rfl⟩ := hm
    simp only [never_attached_below_zero, Bool.and_eq_true, decide_eq_true_eq] at hb
    obtain ⟨hk0, hb⟩ := hb
    rw [run_cons, step_attach]
    have hal : registered (attach_tree h conn d id) (default_path h) = true := by
      rw [alias_attach_tree h hd]
      by_cases h0 : d = 0
      · simp [h0]
      · simp only [h0, if_false]; tauto
    apply alias_iff_count_from h hd cs
    · simp [hal]
    · simp only [hal, true_iff]; omega
    · exact fun c hc => ha c (List.mem_cons_of_mem _ hc)
    · exact hb
  | Call.unregister id :: cs, conn, k, d, hdr, hk, ha, hb => by
    simp only [never_attached_below_zero] at hb
    rw [run_cons, step_detach]
    have hal := alias_detach_tree h hd conn k id
    apply alias_iff_count_from h hd cs
    · rw [hal]
      by_cases h1 : k > 1
      · simp only [h1, if_true]; exact hdr
      · simp [h1]
    · rw [hal]
      by_cases h1 : k > 1
      · simp only [h1, if_true]
        constructor
        · intro _; omega
        · intro _; exact hk.2 (by omega)
      · simp only [h1, if_false]
        constructor
        · intro hh; cases hh
        · intro hh; omega
    · exact fun c hc => ha c (List.mem_cons_of_mem _ hc)
    · exact hb

theorem registrations_eq_zero (conn : ObjectTree) (q : CStr)
    (hq : registered conn q = false) : registrations conn q = 0 := by
  unfold registrations
  rw [List.countP_eq_zero]
  intro e he
  unfold registered at hq
  rw [List.any_eq_false] at hq
  exact hq e he

theorem registrations_register_le (conn : ObjectTree) (p q : CStr) (d : hci_dbus_data)
    (hle : registrations conn q ≤ 1) :
    registrations (dbus_connection_register_object_path conn p d).2 q ≤ 1 := by
  unfold dbus_connection_register_object_path
  by_cases hp : registered conn p = true
  · simpa [hp] using hle
  · have hf : registered conn p = false := by simpa using hp
    simp only [hf]
    by_cases hpq : p = q
    · subst hpq
      have h0 := registrations_eq_zero conn p hf
      unfold registrations at h0 ⊢
      simp [List.countP_append, h0, List.countP_cons]
    · unfold registrations at hle ⊢
      simp [List.countP_append, List.countP_cons, hpq]
      exact hle

theorem registrations_unregister_le (conn : ObjectTree) (p q : CStr)
    (hle : registrations conn q ≤ 1) :
    registrations (dbus_connection_unregister_object_path conn p).2 q ≤ 1 := by
  unfold dbus_connection_unregister_object_path
  by_cases hp : registered conn p = true
  · simp only [hp, if_true]
    exact le_trans (List.Sublist.countP_le _ (List.filter_sublist _)) hle
  · simpa [hp] using hle

theorem registrations_reg_obj_path (h : Header) (m_dft m_dev : Bool) (conn : ObjectTree)
    (dft_reg : Int) (id : Nat) (q : CStr) (hle : registrations conn q ≤ 1) :
    registrations (hci_dbus_reg_obj_path h m_dft m_dev conn dft_reg id).2 q ≤ 1 := by
  unfold hci_dbus_reg_obj_path
  by_cases h0 : dft_reg = 0 <;> cases m_dft <;> cases m_dev <;>
    simp [h0, hle, registrations_register_le]

theorem registrations_unreg_obj_path (h : Header) (conn : ObjectTree) (unreg_dft : Int)
    (id : Nat) (q : CStr) (hle : registrations conn q ≤ 1) :
    registrations (hci_dbus_unreg_obj_path h conn unreg_dft id).2 q ≤ 1 := by
  unfold hci_dbus_unreg_obj_path
  by_cases h0 : unreg_dft = 0 <;>
    simp [h0, hle, ite_pair_snd, registrations_unregister_le]

theorem registrations_register_loop (h : Header) (m_dft m_dev : Bool) (id : Nat) (q : CStr) :
    ∀ (tbl : List profile_obj_path_data) (ret : Int) (conn : ObjectTree),
      registrations conn q ≤ 1 →
      registrations (register_loop h m_dft m_dev id tbl ret conn).2.1 q ≤ 1
  | [], _, _, hle => by simpa [register_loop] using hle
  | ptr :: rest, _, conn, hle => by
    simp only [register_loop]
    exact registrations_register_loop h m_dft m_dev id q rest _ _
      (registrations_reg_obj_path h m_dft m_dev conn ptr.dft_reg id q hle)

theorem registrations_unregister_loop (h : Header) (id : Nat) (q : CStr) :
    ∀ (tbl : List profile_obj_path_data) (n : Int) (conn : ObjectTree),
      registrations conn q ≤ 1 →
      registrations (unregister_loop h id tbl n conn).2.1 q ≤ 1
  | [], _, _, hle => by simpa [unregister_loop] using hle
  | _ :: rest, n, conn, hle => by
    simp only [unregister_loop]
    exact registrations_unregister_loop h id q rest _ _
      (registrations_unreg_obj_path h conn _ id q hle)

theorem alias_registrations_step (h : Header) (s : State) (c : Call)
    (hle : alias_registrations h s ≤ 1) : alias_registrations h (step h s c) ≤ 1 := by
  cases hc : s.connection with
  | none =>
    cases c <;>
      simp [step, hcid_dbus_register_device, hcid_dbus_unregister_device, hc,
        alias_registrations]
  | some conn =>
    have hle2 : registrations conn (default_path h) ≤ 1 := by
      simpa [alias_registrations, hc] using hle
    cases c with
    | register id m_dft m_dev =>
      simpa [step, hcid_dbus_register_device, hc, alias_registrations] using
        registrations_register_loop h m_dft m_dev id _ s.obj_path_table (-1) conn hle2
    | unregister id =>
      simpa [step, hcid_dbus_unregister_device, hc, alias_registrations] using
        registrations_unregister_loop h id _ s.obj_path_table s.num_adapters conn hle2

theorem alias_registrations_run (h : Header) :
    ∀ (calls : List Call) (s : State), alias_registrations h s ≤ 1 →
      alias_registrations h (run h s calls) ≤ 1
  | [], _, hle => hle
  | c :: cs, s, hle => by
    rw [run_cons]
    exact alias_registrations_run h cs _ (alias_registrations_step h s c hle)

/-- Invariant behind the alias/adapter property: `att` lists the attached ids. -/
theorem alias_iff_adapter_from (h : Header) (hd : AliasDistinct h) :
    ∀ (calls : List Call) (conn : ObjectTree) (att : List Nat) (d : Int),
      att.Nodup →
      (registered conn (default_path h) = true ↔ d ≠ 0) →
      (registered conn (default_path h) = true ↔ att ≠ []) →
      (∀ j, registered conn (device_path h j) = true ↔ j ∈ att) →
      AllocsSucceed calls → well_bracketed att calls = true →
      (alias_registered h (run h (state_with h conn att.length d) calls) = true
        ↔ ∃ id, adapter_registered h (run h (state_with h conn att.length d) calls) id = true)
  | [], conn, att, d, _, _, hk, hj, _, _ => by
    simp only [run, List.foldl_nil, alias_registered, adapter_registered, state_with]
    rw [hk]
    constructor
    · intro hne
      obtain ⟨j, hjm⟩ := List.exists_mem_of_ne_nil att hne
      exact ⟨j, (hj j).2 hjm⟩
    · rintro ⟨j, hjr⟩
      exact List.ne_nil_of_mem ((hj j).1 hjr)
  | Call.register id m_dft m_dev :: cs, conn, att, d, hnd, _, _, hj, ha, hb => by
    have hm := ha (Call.register id m_dft m_dev) (List.mem_cons_self _ _)
    simp only [Call.allocs_ok, Bool.and_eq_true] at hm
    obtain ⟨rfl, rfl⟩ := hm
    simp only [well_bracketed, Bool.and_eq_true, decide_eq_true_eq] at hb
    obtain ⟨hnot, hb⟩ := hb
    rw [run_cons, step_attach]
    have hcast : ((att.length : Int) + 1) = (((id :: att).length : Nat) : Int) := by
      simp
    rw [hcast]
    have hal : registered (attach_tree h conn d id) (default_path h) = true := by
      rw [alias_attach_tree h hd]
      by_cases h0 : d = 0
      · simp [h0]
      · simp only [h0, if_false]; tauto
    apply alias_iff_adapter_from h hd cs
    · exact List.nodup_cons.2 ⟨hnot, hnd⟩
    · simp [hal]
    · simp [hal]
    · intro j
      rw [adapter_attach_tree h hd, Bool.or_eq_true, hj j, decide_eq_true_eq, List.mem_cons]
      constructor
      · rintro (hh | hh)
        · exact Or.inr hh
        · exact Or.inl hh.symm
      · rintro (hh | hh)
        · exact Or.inr hh.symm
        · exact Or.inl hh
    · exact fun c hc => ha c (List.mem_cons_of_mem _ hc)
    · exact hb
  | Call.unregister id :: cs, conn, att, d, hnd, hdr, hk, hj, ha, hb => by
    simp only [well_bracketed, Bool.and_eq_true, decide_eq_true_eq] at hb
    obtain ⟨hmem, hb⟩ := hb
    have hlen : 0 < att.length := List.length_pos_of_mem hmem
    have hel : (att.erase id).length = att.length - 1 := List.length_erase_of_mem hmem
    rw [run_cons, step_detach]
    have hcast : ((att.length : Int) - 1) = (((att.erase id).length : Nat) : Int) := by
      rw [hel]; omega
    rw [hcast]
    have hal := alias_detach_tree h hd conn (att.length : Int) id
    have hne : att ≠ [] := List.ne_nil_of_mem hmem
    apply alias_iff_adapter_from h hd cs
    · exact hnd.erase id
    · rw [hal]
      by_cases h1 : (att.length : Int) > 1
      · simp only [h1, if_true]; exact hdr
      · simp [h1]
    · rw [hal]
      by_cases h1 : (att.length : Int) > 1
      · simp only [h1, if_true]
        constructor
        · intro _ hnil
          rw [hnil] at hel
          simp at hel
          omega
        · intro _; exact hk.2 hne
      · simp only [h1, if_false]
        constructor
        · intro hh; cases hh
        · intro hh
          exfalso; apply hh
          apply List.eq_nil_of_length_eq_zero
          omega
    · intro j
      rw [adapter_detach_tree h hd, Bool.and_eq_true, hj j, hnd.mem_erase_iff]
      simp only [Bool.not_eq_true', decide_eq_false_iff_not]
      constructor
      · rintro ⟨h1, h2⟩
        exact ⟨fun e => h2 e.symm, h1⟩
      · rintro ⟨h1, h2⟩
        exact ⟨h2, fun e => h1 e.symm⟩
    · exact fun c hc => ha c (List.mem_cons_of_mem _ hc)
    · exact hb

theorem sampleHeader_aliasDistinct : AliasDistinct sampleHeader := by decide

theorem sample_no_adapter_endpoint : NoAdapterEndpoint sampleHeader (init_tree sampleHeader) := by
  have hm : sampleHeader.MANAGER_PATH = "/org/bluez/Manager".toList := rfl
  have hv : sampleHeader.DEVICE_PATH = "/org/bluez/Device".toList := rfl
  constructor
  · decide
  · intro id
    simp [registered, init_tree, device_path, hm, hv]

/-! ## Endpoint lifecycle: the alias and the adapter count -/

/-- C1, as amended: from the initial state (no adapter endpoint registered,
`num_adapters = 0`, `dft_reg = 0`), after every finite sequence of
`hcid_dbus_register_device` / `hcid_dbus_unregister_device` calls whose allocations
succeed and in which no attach call is made while `num_adapters` is negative (ids are
arbitrary: detaching out of order or detaching an id that was never attached is
allowed), the alias path is registered if and only if `num_adapters > 0`. -/
theorem alias_registered_iff_num_adapters_pos (h : Header) (conn : ObjectTree)
    (calls : List Call) (hd : AliasDistinct h) (h0 : NoAdapterEndpoint h conn)
    (ha : AllocsSucceed calls) (hb : never_attached_below_zero 0 calls = true) :
    alias_registered h (run h (initial h conn) calls) = true
      ↔ 0 < (run h (initial h conn) calls).num_adapters := by
  rw [initial_eq]
  exact alias_iff_count_from h hd calls conn 0 0 (by simp [h0.1]) (by simp [h0.1]) ha hb

/-- Instance of the amended C1 on a sequence with an out-of-order detach, a detach of
an id that was never attached and a final detach at counter zero. -/
theorem alias_registered_iff_num_adapters_pos_witness :
    AliasDistinct sampleHeader ∧ NoAdapterEndpoint sampleHeader (init_tree sampleHeader) ∧
    AllocsSucceed [attach 0, attach 1, detach 7, detach 0, detach 1] ∧
    never_attached_below_zero 0 [attach 0, attach 1, detach 7, detach 0, detach 1] = true ∧
    (alias_registered sampleHeader
        (run sampleHeader sampleInitial [attach 0, attach 1, detach 7, detach 0, detach 1]) = true
      ↔ 0 < (run sampleHeader sampleInitial
        [attach 0, attach 1, detach 7, detach 0, detach 1]).num_adapters) :=
  ⟨sampleHeader_aliasDistinct, sample_no_adapter_endpoint, by decide, by decide,
    alias_registered_iff_num_adapters_pos sampleHeader (init_tree sampleHeader)
      [attach 0, attach 1, detach 7, detach 0, detach 1] sampleHeader_aliasDistinct
      sample_no_adapter_endpoint (by decide) (by decide)⟩

/-- C1 fails as stated: detaching an id that was never attached and then attaching an
adapter leaves the alias registered while `num_adapters` is zero. -/
theorem alias_registered_with_zero_count :
    alias_registered sampleHeader (run sampleHeader sampleInitial [detach 5, attach 0]) = true ∧
    (run sampleHeader sampleInitial [detach 5, attach 0]).num_adapters = 0 ∧
    ¬ (alias_registered sampleHeader (run sampleHeader sampleInitial [detach 5, attach 0]) = true
      ↔ 0 < (run sampleHeader sampleInitial [detach 5, attach 0]).num_adapters) := by
  decide

/-! ## Endpoint lifecycle: the alias and the concrete endpoints -/

/-- C2, as amended: after every finite sequence of attach and detach calls from the
initial state the alias endpoint is never registered more than once; and when the
allocations succeed, every attach names an id that is not attached and every detach
names an id that is attached, the alias endpoint is registered if and only if at
least one concrete adapter endpoint is registered. -/
theorem alias_once_and_iff_adapter (h : Header) (conn : ObjectTree) (calls : List Call)
    (hd : AliasDistinct h) (h0 : NoAdapterEndpoint h conn) :
    alias_registrations h (run h (initial h conn) calls) ≤ 1 ∧
    (AllocsSucceed calls → well_bracketed [] calls = true →
      (alias_registered h (run h (initial h conn) calls) = true
        ↔ ∃ id, adapter_registered h (run h (initial h conn) calls) id = true)) := by
  constructor
  · apply alias_registrations_run
    simp [alias_registrations, initial, registrations_eq_zero conn _ h0.1]
  · intro ha hb
    rw [initial_eq]
    have := alias_iff_adapter_from h hd calls conn [] 0 List.nodup_nil
      (by simp [h0.1]) (by simp [h0.1]) (by simp [h0.2]) ha hb
    simpa using this

/-- Instance of the amended C2 on a sequence that attaches three adapters and detaches
two of them out of order. -/
theorem alias_once_and_iff_adapter_witness :
    AliasDistinct sampleHeader ∧ NoAdapterEndpoint sampleHeader (init_tree sampleHeader) ∧
    AllocsSucceed [attach 0, attach 1, attach 2, detach 1, detach 0] ∧
    well_bracketed [] [attach 0, attach 1, attach 2, detach 1, detach 0] = true ∧
    alias_registrations sampleHeader
      (run sampleHeader sampleInitial [attach 0, attach 1, attach 2, detach 1, detach 0]) ≤ 1 ∧
    (alias_registered sampleHeader
        (run sampleHeader sampleInitial [attach 0, attach 1, attach 2, detach 1, detach 0]) = true
      ↔ ∃ id, adapter_registered sampleHeader
        (run sampleHeader sampleInitial [attach 0, attach 1, attach 2, detach 1, detach 0]) id
          = true) :=
  have hw := alias_once_and_iff_adapter sampleHeader (init_tree sampleHeader)
    [attach 0, attach 1, attach 2, detach 1, detach 0] sampleHeader_aliasDistinct
    sample_no_adapter_endpoint
  ⟨sampleHeader_aliasDistinct, sample_no_adapter_endpoint, by decide, by decide, hw.1,
    hw.2 (by decide) (by decide)⟩

/-- C2 fails as stated: after attaching adapter 0 twice and detaching it once the alias
is registered although no concrete adapter endpoint is; and after attaching adapter 0
and detaching adapter 1 the concrete endpoint of adapter 0 is registered although the
alias is not. -/
theorem alias_without_adapter :
    (alias_registered sampleHeader
        (run sampleHeader sampleInitial [attach 0, attach 0, detach 0]) = true ∧
      ¬ ∃ id, adapter_registered sampleHeader
        (run sampleHeader sampleInitial [attach 0, attach 0, detach 0]) id = true) ∧
    (alias_registered sampleHeader
        (run sampleHeader sampleInitial [attach 0, detach 1]) = false ∧
      adapter_registered sampleHeader
        (run sampleHeader sampleInitial [attach 0, detach 1]) 0 = true) := by
  refine ⟨⟨by decide, ?_⟩, by decide, by decide⟩
  rintro ⟨id, hid⟩
  have hd := sampleHeader_aliasDistinct
  have h0 := sample_no_adapter_endpoint.2 id
  simp only [sampleInitial, initial_eq, run_cons, attach, detach, step_attach, step_detach] at hid
  simp only [run, List.foldl_nil, adapter_registered, state_with] at hid
  rw [adapter_detach_tree sampleHeader hd, adapter_attach_tree sampleHeader hd,
    adapter_attach_tree sampleHeader hd, h0] at hid
  by_cases hz : 0 = id <;> simp [hz] at hid

/-! ## Endpoint lifecycle: end to end -/

/-- C3: for distinct adapter ids `a` and `b`, from the initial state: after
`attach a` the alias path and the concrete path of `a` are registered; after a
following `detach a` neither is; after `attach a`, `attach b`, `detach a` the alias
is still registered and so is the concrete path of `b`; the following `detach b`
unregisters the alias and leaves no adapter endpoint registered. -/
theorem attach_detach_end_to_end (h : Header) (conn : ObjectTree) (a b : Nat)
    (hd : AliasDistinct h) (h0 : NoAdapterEndpoint h conn) (hab : a ≠ b) :
    (alias_registered h (run h (initial h conn) [attach a]) = true ∧
      adapter_registered h (run h (initial h conn) [attach a]) a = true) ∧
    (alias_registered h (run h (initial h conn) [attach a, detach a]) = false ∧
      adapter_registered h (run h (initial h conn) [attach a, detach a]) a = false) ∧
    (alias_registered h (run h (initial h conn) [attach a, attach b, detach a]) = true ∧
      adapter_registered h (run h (initial h conn) [attach a, attach b, detach a]) b = true ∧
      adapter_registered h (run h (initial h conn) [attach a, attach b, detach a]) a = false) ∧
    (alias_registered h (run h (initial h conn) [attach a, attach b, detach a, detach b])
        = false ∧
      ∀ c, adapter_registered h
        (run h (initial h conn) [attach a, attach b, detach a, detach b]) c = false) := by
  have hba : b ≠ a := fun e => hab e.symm
  simp only [initial_eq, run_cons, attach, detach, step_attach, step_detach]
  simp only [run, List.foldl_nil, alias_registered, adapter_registered, state_with,
    alias_attach_tree h hd, alias_detach_tree h hd, adapter_attach_tree h hd,
    adapter_detach_tree h hd, h0.1, h0.2]
  simp [hab, hba]
  intro c
  by_cases h1 : a = c <;> by_cases h2 : b = c <;> simp [h1, h2]

/-- Instance of C3 at adapters 0 and 1 with the sample header. -/
theorem attach_detach_end_to_end_witness :
    (alias_registered sampleHeader (run sampleHeader sampleInitial [attach 0]) = true ∧
      adapter_registered sampleHeader (run sampleHeader sampleInitial [attach 0]) 0 = true) ∧
    (alias_registered sampleHeader (run sampleHeader sampleInitial [attach 0, detach 0])
        = false ∧
      adapter_registered sampleHeader (run sampleHeader sampleInitial [attach 0, detach 0]) 0
        = false) ∧
    (alias_registered sampleHeader
        (run sampleHeader sampleInitial [attach 0, attach 1, detach 0]) = true ∧
      adapter_registered sampleHeader
        (run sampleHeader sampleInitial [attach 0, attach 1, detach 0]) 1 = true ∧
      adapter_registered sampleHeader
        (run sampleHeader sampleInitial [attach 0, attach 1, detach 0]) 0 = false) ∧
    (alias_registered sampleHeader
        (run sampleHeader sampleInitial [attach 0, attach 1, detach 0, detach 1]) = false ∧
      ∀ c, adapter_registered sampleHeader
        (run sampleHeader sampleInitial [attach 0, attach 1, detach 0, detach 1]) c = false) :=
  attach_detach_end_to_end sampleHeader (init_tree sampleHeader) 0 1
    sampleHeader_aliasDistinct sample_no_adapter_endpoint (by decide)

/-! ## Facts about the error catalogue and the router -/

theorem strcmp_eq_zero_iff : ∀ (a b : CStr), strcmp a b = 0 ↔ a = b
  | [], [] => by simp [strcmp]
  | [], _ :: _ => by simp [strcmp]
  | _ :: _, [] => by simp [strcmp]
  | a :: as, b :: bs => by
    by_cases hab : a = b
    · subst hab
      simp [strcmp, strcmp_eq_zero_iff as bs]
    · by_cases hlt : a.toNat < b.toNat <;> simp [strcmp, hab, hlt]

theorem strcmp_self (a : CStr) : strcmp a a = 0 := (strcmp_eq_zero_iff a a).2 rfl

theorem error_array_scan_of_mem (ecode : Nat) (str : CStr) :
    ∀ (arr : List (Nat × CStr)), (arr.map Prod.fst).Nodup → (∀ e ∈ arr, e.1 ≠ 0) →
      (ecode, str) ∈ arr → error_array_scan ecode arr = some str
  | [], _, _, hm => by cases hm
  | ptr :: rest, hnd, hnz, hm => by
    have h0 : ptr.1 ≠ 0 := hnz ptr (List.mem_cons_self _ _)
    simp only [List.map_cons, List.nodup_cons] at hnd
    rcases List.mem_cons.1 hm with heq | hin
    · subst heq
      simp [error_array_scan] at h0 ⊢
      exact fun hh => absurd hh h0
    · have hne : ptr.1 ≠ ecode := by
        intro hh
        apply hnd.1
        rw [hh]
        exact List.mem_map.2 ⟨(ecode, str), hin, rfl⟩
      simp only [error_array_scan, h0, hne, if_false]
      exact error_array_scan_of_mem ecode str rest hnd.2
        (fun e he => hnz e (List.mem_cons_of_mem _ he)) hin

theorem protocol_code_ne_zero (h : Header) (hok : ErrorCodesOk h) (c : Nat)
    (hc : c ∈ protocol_codes h) : c ≠ 0 := by
  intro h0
  have := (hok.2 c hc).2
  rw [h0] at this
  simp at this

/-- Every entry of `error_array` is resolved to its own string. -/
theorem error_to_str_of_mem (h : Header) (strerror : Nat → CStr) (hok : ErrorCodesOk h)
    (c : Nat) (str : CStr) (hm : (c, str) ∈ error_array h) :
    bluez_dbus_error_to_str h strerror c = some str := by
  have hc : c ∈ protocol_codes h := List.mem_map.2 ⟨(c, str), hm, rfl⟩
  have h1 := hok.2 c hc
  unfold bluez_dbus_error_to_str
  simp only [h1.1, ne_eq, not_true_eq_false, if_false, h1.2, not_false_eq_true, if_true]
  apply error_array_scan_of_mem c str (error_array h) hok.1 _ hm
  intro e he
  exact protocol_code_ne_zero h hok e.1 (List.mem_map.2 ⟨e, he, rfl⟩)

theorem failure_msg_of_mem (h : Header) (strerror : Nat → CStr) (hok : ErrorCodesOk h)
    (c : Nat) (str : CStr) (hm : (c, str) ∈ error_array h) :
    bluez_new_failure_msg h strerror c
      = some (Reply.error h.ERROR_INTERFACE str [DBusArg.uint32 c]) := by
  unfold bluez_new_failure_msg
  rw [error_to_str_of_mem h strerror hok c str hm]

theorem failure_msg_unknown_method (h : Header) (strerror : Nat → CStr) (hok : ErrorCodesOk h) :
    bluez_new_failure_msg h strerror h.BLUEZ_EDBUS_UNKNOWN_METHOD
      = some (Reply.error h.ERROR_INTERFACE "Method not found".toList
          [DBusArg.uint32 h.BLUEZ_EDBUS_UNKNOWN_METHOD]) :=
  failure_msg_of_mem h strerror hok _ _ (by simp [error_array])

theorem failure_msg_wrong_signature (h : Header) (strerror : Nat → CStr)
    (hok : ErrorCodesOk h) :
    bluez_new_failure_msg h strerror h.BLUEZ_EDBUS_WRONG_SIGNATURE
      = some (Reply.error h.ERROR_INTERFACE "Wrong method signature".toList
          [DBusArg.uint32 h.BLUEZ_EDBUS_WRONG_SIGNATURE]) :=
  failure_msg_of_mem h strerror hok _ _ (by simp [error_array])

theorem failure_msg_wrong_param (h : Header) (strerror : Nat → CStr) (hok : ErrorCodesOk h) :
    bluez_new_failure_msg h strerror h.BLUEZ_EDBUS_WRONG_PARAM
      = some (Reply.error h.ERROR_INTERFACE "Invalid parameters".toList
          [DBusArg.uint32 h.BLUEZ_EDBUS_WRONG_PARAM]) :=
  failure_msg_of_mem h strerror hok _ _ (by simp [error_array])

theorem failure_msg_unknown_path (h : Header) (strerror : Nat → CStr) (hok : ErrorCodesOk h) :
    bluez_new_failure_msg h strerror h.BLUEZ_EDBUS_UNKNOWN_PATH
      = some (Reply.error h.ERROR_INTERFACE "Device path is not registered".toList
          [DBusArg.uint32 h.BLUEZ_EDBUS_UNKNOWN_PATH]) :=
  failure_msg_of_mem h strerror hok _ _ (by simp [error_array])

theorem sampleHeader_errorCodesOk : ErrorCodesOk sampleHeader := by decide

theorem mgr_child_loop_found {H : Type} (T : ServiceTables H) (rel_path : CStr) :
    ∀ (tbl : List profile_obj_path_data) (acc : Option (List (service_data H)) × Bool),
      (acc.2 = true → ∃ t, acc.1 = some t) →
      (mgr_child_loop T rel_path tbl acc).2 = true →
      ∃ t, (mgr_child_loop T rel_path tbl acc).1 = some t
  | [], _, hacc, hf => hacc (by simpa [mgr_child_loop] using hf)
  | p :: rest, acc, hacc, hf => by
    unfold mgr_child_loop at hf ⊢
    by_cases hp : strcmp p.name rel_path = 0
    · simp only [hp, if_true] at hf ⊢
      exact mgr_child_loop_found T rel_path rest _ (fun _ => ⟨_, rfl⟩) hf
    · simp only [hp, if_false] at hf ⊢
      exact mgr_child_loop_found T rel_path rest _ hacc hf

theorem mgr_child_loop_no_match {H : Type} (T : ServiceTables H) (rel_path : CStr) :
    ∀ (tbl : List profile_obj_path_data) (acc : Option (List (service_data H)) × Bool),
      (∀ p ∈ tbl, p.name ≠ rel_path) → mgr_child_loop T rel_path tbl acc = acc
  | [], _, _ => rfl
  | p :: rest, acc, hno => by
    have hp : ¬ strcmp p.name rel_path = 0 := by
      rw [strcmp_eq_zero_iff]; exact hno p (List.mem_cons_self _ _)
    simp only [mgr_child_loop, hp, if_false]
    exact mgr_child_loop_no_match T rel_path rest acc
      (fun q hq => hno q (List.mem_cons_of_mem _ hq))

/-- A path classified to a dispatch table comes with no reply prepared and the result
`NOT_YET_HANDLED`. -/
theorem classify_found {H : Type} (h : Header) (strerror : Nat → CStr) (T : ServiceTables H)
    (tbl : List profile_obj_path_data) (msg : DBusMessage) (data : hci_dbus_data)
    (c : Classified H) (hc : classify h strerror T tbl msg data = some c)
    (hf : c.found = true) :
    c.reply = none ∧ c.ret = DBusHandlerResult.NOT_YET_HANDLED ∧
      (∃ t, c.ptr_handlers = some t) ∧ (∃ i, c.tmp_iface = some i) := by
  unfold classify at hc
  split at hc
  · cases hc; exact ⟨rfl, rfl, ⟨_, rfl⟩, ⟨_, rfl⟩⟩
  · split at hc
    · split at hc
      · cases hc; cases hf
      · split at hc
        · split at hc
          · cases hc; cases hf
          · cases hc
        · cases hc
          exact ⟨rfl, rfl, mgr_child_loop_found T _ tbl _ (fun hh => by cases hh) hf,
            ⟨_, rfl⟩⟩
    · cases hc; exact ⟨rfl, rfl, ⟨_, rfl⟩, ⟨_, rfl⟩⟩

theorem scan_no_full_match {H : Type} (h : Header) (call : H → Option Reply)
    (m sig : CStr) :
    ∀ (tbl : List (service_data H)) (st : Scan H),
      (∀ e ∈ tbl, e.name = m → ∃ sg, e.signature = some sg ∧ sg ≠ sig) →
      scan_handlers h call m sig tbl st
        = some (if ∃ e ∈ tbl, e.name = m
            then { st with result := h.BLUEZ_EDBUS_WRONG_SIGNATURE } else st)
  | [], st, _ => by simp [scan_handlers]
  | ptr :: rest, st, hno => by
    have hrest : ∀ e ∈ rest, e.name = m → ∃ sg, e.signature = some sg ∧ sg ≠ sig :=
      fun e he => hno e (List.mem_cons_of_mem _ he)
    by_cases hn : ptr.name = m
    · obtain ⟨sg, hsg, hne⟩ := hno ptr (List.mem_cons_self _ _) hn
      have h1 : strcmp m ptr.name = 0 := by rw [strcmp_eq_zero_iff]; exact hn.symm
      have h2 : ¬ strcmp sg sig = 0 := by rw [strcmp_eq_zero_iff]; exact hne
      have hex : ∃ e ∈ ptr :: rest, e.name = m := ⟨ptr, List.mem_cons_self _ _, hn⟩
      simp only [scan_handlers, h1, if_true, hsg, h2, if_false, hex]
      rw [scan_no_full_match h call m sig rest _ hrest]
      split <;> rfl
    · have h1 : ¬ strcmp m ptr.name = 0 := by
        rw [strcmp_eq_zero_iff]; exact fun e => hn e.symm
      simp only [scan_handlers, h1, if_false]
      rw [scan_no_full_match h call m sig rest st hrest]
      have hiff : (∃ e ∈ ptr :: rest, e.name = m) ↔ (∃ e ∈ rest, e.name = m) := by
        simp [hn]
      simp only [hiff]

theorem scan_first_full_match {H : Type} (h : Header) (call : H → Option Reply)
    (m sig : CStr) (e : service_data H) (post : List (service_data H))
    (hn : e.name = m) (hs : e.signature = some sig) :
    ∀ (pre : List (service_data H)) (st : Scan H),
      (∀ e' ∈ pre, e'.name = m → ∃ sg, e'.signature = some sg ∧ sg ≠ sig) →
      scan_handlers h call m sig (pre ++ e :: post) st
        = some (match e.handler_func with
            | some f => { result := 0, reply := call f, invoked := st.invoked ++ [f] }
            | none => { st with result := h.BLUEZ_EDBUS_WRONG_SIGNATURE })
  | [], st, _ => by
    have h1 : strcmp m e.name = 0 := by rw [strcmp_eq_zero_iff]; exact hn.symm
    have h2 : strcmp sig sig = 0 := strcmp_self sig
    simp only [List.nil_append, scan_handlers, h1, if_true, hs, h2]
    cases e.handler_func <;> rfl
  | ptr :: rest, st, hno => by
    have hrest : ∀ e' ∈ rest, e'.name = m → ∃ sg, e'.signature = some sg ∧ sg ≠ sig :=
      fun e' he => hno e' (List.mem_cons_of_mem _ he)
    by_cases hp : ptr.name = m
    · obtain ⟨sg, hsg, hne⟩ := hno ptr (List.mem_cons_self _ _) hp
      have h1 : strcmp m ptr.name = 0 := by rw [strcmp_eq_zero_iff]; exact hp.symm
      have h2 : ¬ strcmp sg sig = 0 := by rw [strcmp_eq_zero_iff]; exact hne
      have ih := scan_first_full_match h call m sig e post hn hs rest
        { st with result := h.BLUEZ_EDBUS_WRONG_SIGNATURE } hrest
      rw [List.cons_append]
      simp only [scan_handlers, h1, if_true, hsg, h2, if_false]
      rw [ih]
    · have h1 : ¬ strcmp m ptr.name = 0 := by
        rw [strcmp_eq_zero_iff]; exact fun e => hp e.symm
      rw [List.cons_append]
      simp only [scan_handlers, h1, if_false]
      exact scan_first_full_match h call m sig e post hn hs rest st hrest

/-- On a routed call `msg_func` scans the table and reports the call as handled. -/
theorem msg_func_routed {H : Type} (h : Header) (strerror : Nat → CStr) (T : ServiceTables H)
    (tbl : List profile_obj_path_data)
    (handler : H → DBusMessage → hci_dbus_data → Option Reply)
    (msg : DBusMessage) (data : hci_dbus_data) (table : List (service_data H)) (m : CStr)
    (hr : RoutedTo h strerror T tbl msg data table m) :
    msg_func h strerror T tbl handler msg data
      = (scan_handlers h (fun f => handler f msg data) m msg.signature table
          { result := h.BLUEZ_EDBUS_UNKNOWN_METHOD, reply := none, invoked := [] }).map
        (fun st => { ret := DBusHandlerResult.HANDLED,
                     sent := if st.result ≠ 0 then bluez_new_failure_msg h strerror st.result
                             else st.reply,
                     invoked := st.invoked }) := by
  obtain ⟨c, iface, hc, hf, ht, hty, hi, hti, hm⟩ := hr
  have hcf := classify_found h strerror T tbl msg data c hc hf
  unfold msg_func
  simp only [hc, hf, hty, decide_True, Bool.and_self, if_true, hi, hti, ht, strcmp_self, hm,
    hcf.1]
  cases scan_handlers h (fun f => handler f msg data) m msg.signature table
    { result := h.BLUEZ_EDBUS_UNKNOWN_METHOD, reply := none, invoked := [] } <;> rfl

/-! ## Request router: signature mismatch, unknown method, interface mismatch -/

/-- C4: for every dispatch table whose entries all carry a signature and every method
call on a classified path with the expected interface, if the method name equals the
name of some entry but the call's signature equals the signature of no entry with that
name, `msg_func` sends the WrongSignature error reply (which differs from the
UnknownMethod reply), calls no handler and reports the call as handled. -/
theorem wrong_signature_on_name_match {H : Type} (h : Header) (strerror : Nat → CStr)
    (T : ServiceTables H) (tbl : List profile_obj_path_data)
    (handler : H → DBusMessage → hci_dbus_data → Option Reply)
    (msg : DBusMessage) (data : hci_dbus_data) (table : List (service_data H)) (m : CStr)
    (hok : ErrorCodesOk h) (hr : RoutedTo h strerror T tbl msg data table m)
    (hsig : ∀ e ∈ table, e.signature ≠ none)
    (hname : ∃ e ∈ table, e.name = m)
    (hno : ∀ e ∈ table, e.name = m → e.signature ≠ some msg.signature) :
    msg_func h strerror T tbl handler msg data
        = some { ret := DBusHandlerResult.HANDLED,
                 sent := some (Reply.error h.ERROR_INTERFACE "Wrong method signature".toList
                   [DBusArg.uint32 h.BLUEZ_EDBUS_WRONG_SIGNATURE]),
                 invoked := [] } ∧
      h.BLUEZ_EDBUS_WRONG_SIGNATURE ≠ h.BLUEZ_EDBUS_UNKNOWN_METHOD := by
  have hws : h.BLUEZ_EDBUS_WRONG_SIGNATURE ≠ 0 :=
    protocol_code_ne_zero h hok _ (by simp [protocol_codes, error_array])
  have hall : ∀ e ∈ table, e.name = m → ∃ sg, e.signature = some sg ∧ sg ≠ msg.signature := by
    intro e he hn
    cases hse : e.signature with
    | none => exact absurd hse (hsig e he)
    | some sg => exact ⟨sg, rfl, fun hh => hno e he hn (by rw [hse, hh])⟩
  constructor
  · rw [msg_func_routed h strerror T tbl handler msg data table m hr,
      scan_no_full_match h _ m msg.signature table _ hall]
    simp only [hname, if_true, Option.map_some', ne_eq, hws, not_false_eq_true,
      failure_msg_wrong_signature h strerror hok]
  · have hnd := hok.1
    simp only [protocol_codes, error_array, List.map_cons, List.nodup_cons, List.mem_cons] at hnd
    intro heq
    exact hnd.1 (Or.inl heq.symm)

/-- Instance of C4: a call of `Scan` with a signature that neither of the two `Scan`
entries declares. -/
theorem wrong_signature_on_name_match_witness :
    msg_func sampleHeader sample_strerror (tables_with_dev overloaded_table)
        (obj_path_table sampleHeader) sample_handler
        (sample_call "/org/bluez/Device" "org.bluez.Device" "Scan" "q")
        { id := sampleHeader.DEVICE_PATH_ID }
      = some { ret := DBusHandlerResult.HANDLED,
               sent := some (Reply.error sampleHeader.ERROR_INTERFACE
                 "Wrong method signature".toList
                 [DBusArg.uint32 sampleHeader.BLUEZ_EDBUS_WRONG_SIGNATURE]),
               invoked := [] } ∧
    sampleHeader.BLUEZ_EDBUS_WRONG_SIGNATURE ≠ sampleHeader.BLUEZ_EDBUS_UNKNOWN_METHOD :=
  wrong_signature_on_name_match sampleHeader sample_strerror (tables_with_dev overloaded_table)
    (obj_path_table sampleHeader) sample_handler
    (sample_call "/org/bluez/Device" "org.bluez.Device" "Scan" "q")
    { id := sampleHeader.DEVICE_PATH_ID } overloaded_table "Scan".toList
    sampleHeader_errorCodesOk ⟨_, _, rfl, rfl, rfl, rfl, rfl, rfl, rfl⟩
    (by decide) (by decide) (by decide)

/-- C5, as amended: dispatch is first-full-match-wins by declaration order. For every
dispatch table and every method call on a classified path with the expected
interface, if an entry has the call's method name and signature and a handler, and
every earlier entry with that name declares a different signature, then `msg_func`
calls the handler of that entry, sends what the handler returns and reports the call
as handled; WrongSignature is not sent on account of the earlier entries. -/
theorem first_full_match_dispatched {H : Type} (h : Header) (strerror : Nat → CStr)
    (T : ServiceTables H) (tbl : List profile_obj_path_data)
    (handler : H → DBusMessage → hci_dbus_data → Option Reply)
    (msg : DBusMessage) (data : hci_dbus_data) (pre post : List (service_data H))
    (e : service_data H) (f : H) (m : CStr)
    (hr : RoutedTo h strerror T tbl msg data (pre ++ e :: post) m)
    (hpre : ∀ e' ∈ pre, e'.name = m → ∃ sg, e'.signature = some sg ∧ sg ≠ msg.signature)
    (hn : e.name = m) (hs : e.signature = some msg.signature) (hf : e.handler_func = some f) :
    msg_func h strerror T tbl handler msg data
      = some { ret := DBusHandlerResult.HANDLED, sent := handler f msg data, invoked := [f] } := by
  rw [msg_func_routed h strerror T tbl handler msg data _ m hr,
    scan_first_full_match h _ m msg.signature e post hn hs pre _ hpre, hf]
  simp

/-- Instance of the amended C5: the second `Scan` entry is the first whose signature
equals that of the call. -/
theorem first_full_match_dispatched_witness :
    msg_func sampleHeader sample_strerror (tables_with_dev overloaded_table)
        (obj_path_table sampleHeader) sample_handler
        (sample_call "/org/bluez/Device" "org.bluez.Device" "Scan" "s")
        { id := sampleHeader.DEVICE_PATH_ID }
      = some { ret := DBusHandlerResult.HANDLED,
               sent := sample_handler Handler.handle_inq_req
                 (sample_call "/org/bluez/Device" "org.bluez.Device" "Scan" "s")
                 { id := sampleHeader.DEVICE_PATH_ID },
               invoked := [Handler.handle_inq_req] } :=
  first_full_match_dispatched sampleHeader sample_strerror (tables_with_dev overloaded_table)
    (obj_path_table sampleHeader) sample_handler
    (sample_call "/org/bluez/Device" "org.bluez.Device" "Scan" "s")
    { id := sampleHeader.DEVICE_PATH_ID }
    [{ name := "Scan".toList, handler_func := some Handler.handle_periodic_inq_req,
       signature := some "yyy".toList }] []
    { name := "Scan".toList, handler_func := some Handler.handle_inq_req,
      signature := some "s".toList }
    Handler.handle_inq_req "Scan".toList
    ⟨_, _, rfl, rfl, rfl, rfl, rfl, rfl, rfl⟩ (by decide) rfl rfl rfl

/-- C5 fails as stated: with two entries named `Scan`, a call whose signature differs
from the first entry's and equals the second entry's is dispatched to the second
entry's handler, and the reply sent is that handler's, not WrongSignature. -/
theorem later_overload_is_invoked :
    msg_func sampleHeader sample_strerror (tables_with_dev overloaded_table)
        (obj_path_table sampleHeader) sample_handler
        (sample_call "/org/bluez/Device" "org.bluez.Device" "Scan" "s")
        { id := sampleHeader.DEVICE_PATH_ID }
      = some { ret := DBusHandlerResult.HANDLED,
               sent := some (Reply.method_return [DBusArg.byte 0]),
               invoked := [Handler.handle_inq_req] } ∧
    bluez_new_failure_msg sampleHeader sample_strerror sampleHeader.BLUEZ_EDBUS_WRONG_SIGNATURE
      ≠ some (Reply.method_return [DBusArg.byte 0]) := by
  decide

/-- C6 does not hold of the code: on a call whose method name and signature equal those
of an entry with a null handler, `msg_func` leaves `result` at WrongSignature and
sends the WrongSignature error reply. -/
theorem null_handler_sends_wrong_signature :
    msg_func sampleHeader sample_strerror (tables_with_dev stub_table)
        (obj_path_table sampleHeader) sample_handler
        (sample_call "/org/bluez/Device" "org.bluez.Device" "Up" "")
        { id := sampleHeader.DEVICE_PATH_ID }
      = some { ret := DBusHandlerResult.HANDLED,
               sent := some (Reply.error sampleHeader.ERROR_INTERFACE
                 "Wrong method signature".toList
                 [DBusArg.uint32 sampleHeader.BLUEZ_EDBUS_WRONG_SIGNATURE]),
               invoked := [] } := by
  decide

/-- C7: for every dispatch table and every method call on a classified path with the
expected interface whose method name equals the name of no table entry, `msg_func`
calls no handler, sends the UnknownMethod error reply and reports the call as
handled. -/
theorem unknown_method_on_no_name_match {H : Type} (h : Header) (strerror : Nat → CStr)
    (T : ServiceTables H) (tbl : List profile_obj_path_data)
    (handler : H → DBusMessage → hci_dbus_data → Option Reply)
    (msg : DBusMessage) (data : hci_dbus_data) (table : List (service_data H)) (m : CStr)
    (hok : ErrorCodesOk h) (hr : RoutedTo h strerror T tbl msg data table m)
    (hno : ∀ e ∈ table, e.name ≠ m) :
    msg_func h strerror T tbl handler msg data
      = some { ret := DBusHandlerResult.HANDLED,
               sent := some (Reply.error h.ERROR_INTERFACE "Method not found".toList
                 [DBusArg.uint32 h.BLUEZ_EDBUS_UNKNOWN_METHOD]),
               invoked := [] } := by
  have hum : h.BLUEZ_EDBUS_UNKNOWN_METHOD ≠ 0 :=
    protocol_code_ne_zero h hok _ (by simp [protocol_codes, error_array])
  have hall : ∀ e ∈ table, e.name = m → ∃ sg, e.signature = some sg ∧ sg ≠ msg.signature :=
    fun e he hn => absurd hn (hno e he)
  have hex : ¬ ∃ e ∈ table, e.name = m := fun ⟨e, he, hn⟩ => hno e he hn
  rw [msg_func_routed h strerror T tbl handler msg data table m hr,
    scan_no_full_match h _ m msg.signature table _ hall]
  simp only [hex, if_false, Option.map_some', ne_eq, hum, not_false_eq_true, if_true,
    failure_msg_unknown_method h strerror hok]

/-- Instance of C7: the method `Reset` is in no entry of the table. -/
theorem unknown_method_on_no_name_match_witness :
    msg_func sampleHeader sample_strerror (tables_with_dev overloaded_table)
        (obj_path_table sampleHeader) sample_handler
        (sample_call "/org/bluez/Device" "org.bluez.Device" "Reset" "")
        { id := sampleHeader.DEVICE_PATH_ID }
      = some { ret := DBusHandlerResult.HANDLED,
               sent := some (Reply.error sampleHeader.ERROR_INTERFACE "Method not found".toList
                 [DBusArg.uint32 sampleHeader.BLUEZ_EDBUS_UNKNOWN_METHOD]),
               invoked := [] } :=
  unknown_method_on_no_name_match sampleHeader sample_strerror
    (tables_with_dev overloaded_table) (obj_path_table sampleHeader) sample_handler
    (sample_call "/org/bluez/Device" "org.bluez.Device" "Reset" "")
    { id := sampleHeader.DEVICE_PATH_ID } overloaded_table "Reset".toList
    sampleHeader_errorCodesOk ⟨_, _, rfl, rfl, rfl, rfl, rfl, rfl, rfl⟩ (by decide)

/-- C8: for every call whose path `msg_func` classifies to a dispatch table (the
device path, the manager path or a profile endpoint) and whose declared interface
differs from the interface expected for that table, `msg_func` returns
`NOT_YET_HANDLED`, calls no handler and sends no reply, whatever the message type,
the method name and the signature are. -/
theorem not_handled_on_interface_mismatch {H : Type} (h : Header) (strerror : Nat → CStr)
    (T : ServiceTables H) (tbl : List profile_obj_path_data)
    (handler : H → DBusMessage → hci_dbus_data → Option Reply)
    (msg : DBusMessage) (data : hci_dbus_data) (c : Classified H) (iface : CStr)
    (hc : classify h strerror T tbl msg data = some c) (hf : c.found = true)
    (hi : msg.iface = some iface) (hne : c.tmp_iface ≠ some iface) :
    msg_func h strerror T tbl handler msg data
      = some { ret := DBusHandlerResult.NOT_YET_HANDLED, sent := none, invoked := [] } := by
  obtain ⟨hrep, hret, ⟨t, ht⟩, ⟨ti, hti⟩⟩ := classify_found h strerror T tbl msg data c hc hf
  have hstr : ¬ strcmp iface ti = 0 := by
    rw [strcmp_eq_zero_iff]
    intro heq
    exact hne (by rw [hti, heq])
  unfold msg_func
  simp only [hc, hf, hi, hti, ht, hstr, if_false, hrep, hret, Bool.true_and]
  split <;> rfl

/-- Instance of C8: a call on the device path that names the manager interface. -/
theorem not_handled_on_interface_mismatch_witness :
    msg_func sampleHeader sample_strerror (tables_with_dev overloaded_table)
        (obj_path_table sampleHeader) sample_handler
        (sample_call "/org/bluez/Device" "org.bluez.Manager" "Scan" "s")
        { id := sampleHeader.DEVICE_PATH_ID }
      = some { ret := DBusHandlerResult.NOT_YET_HANDLED, sent := none, invoked := [] } :=
  not_handled_on_interface_mismatch sampleHeader sample_strerror
    (tables_with_dev overloaded_table) (obj_path_table sampleHeader) sample_handler
    (sample_call "/org/bluez/Device" "org.bluez.Manager" "Scan" "s")
    { id := sampleHeader.DEVICE_PATH_ID }
    { ptr_handlers := some overloaded_table, tmp_iface := some sampleHeader.DEVICE_INTERFACE,
      found := true, reply := none, ret := DBusHandlerResult.NOT_YET_HANDLED }
    "org.bluez.Manager".toList rfl rfl rfl (by decide)

/-! ## Request router: paths below the manager path -/

/-- What `msg_func` does with a message whose path compares strictly greater than the
manager path, is not the device path and ends in a segment that is no profile name of
the table: called with the identifier `MANAGER_PATH_ID` it sends the UnknownPath error
reply and returns `HANDLED`; called with another identifier it sends nothing and
returns `NOT_YET_HANDLED`. -/
theorem msg_func_unmatched_child {H : Type} (h : Header) (strerror : Nat → CStr)
    (T : ServiceTables H) (tbl : List profile_obj_path_data)
    (handler : H → DBusMessage → hci_dbus_data → Option Reply)
    (msg : DBusMessage) (data : hci_dbus_data) (rel_path : CStr)
    (hok : ErrorCodesOk h) (hdev : msg.path ≠ h.DEVICE_PATH)
    (hgt : strcmp msg.path h.MANAGER_PATH > 0)
    (hrel : strrchr_next '/' msg.path = some rel_path)
    (hno : ∀ p ∈ tbl, p.name ≠ rel_path) :
    msg_func h strerror T tbl handler msg data
      = some (if data.id = h.MANAGER_PATH_ID then
          { ret := DBusHandlerResult.HANDLED,
            sent := some (Reply.error h.ERROR_INTERFACE "Device path is not registered".toList
              [DBusArg.uint32 h.BLUEZ_EDBUS_UNKNOWN_PATH]),
            invoked := [] }
        else { ret := DBusHandlerResult.NOT_YET_HANDLED, sent := none, invoked := [] }) := by
  have h1 : ¬ strcmp msg.path h.DEVICE_PATH = 0 := by
    rw [strcmp_eq_zero_iff]; exact hdev
  by_cases hid : data.id = h.MANAGER_PATH_ID
  · simp [msg_func, classify, h1, hgt, hid, failure_msg_unknown_path h strerror hok]
  · simp [msg_func, classify, h1, hgt, hid, hrel, mgr_child_loop_no_match T rel_path tbl _ hno]

/-! ## Facts about the handlers -/

theorem system_code_has_system_bit (k e : Nat) (hk : k < 32) (he : e < 2 ^ k) :
    ((2 ^ k + e) % 2 ^ 32) &&& 2 ^ k ≠ 0 := by
  have hlt : 2 ^ k + e < 2 ^ 32 := by
    have h1 : 2 ^ (k + 1) ≤ 2 ^ 32 := Nat.pow_le_pow_right (by decide) (by omega)
    have h2 : 2 ^ (k + 1) = 2 ^ k + 2 ^ k := by rw [pow_succ]; omega
    omega
  rw [Nat.mod_eq_of_lt hlt]
  intro h0
  have hb : ((2 ^ k + e) &&& 2 ^ k).testBit k = true := by
    rw [Nat.testBit_and, Nat.testBit_two_pow_add_eq, Nat.testBit_lt_two_pow he,
      Nat.testBit_two_pow_self]
    rfl
  rw [h0] at hb
  simp at hb

/-- A reply built for a system error code is not the WrongParam reply. -/
theorem system_failure_ne_wrong_param (h : Header) (strerror : Nat → CStr)
    (hok : ErrorCodesOk h) (hbit : SystemOffsetOk h) (e : Nat)
    (he : e < h.BLUEZ_ESYSTEM_OFFSET) :
    bluez_new_failure_msg h strerror ((h.BLUEZ_ESYSTEM_OFFSET + e) % 2 ^ 32)
      ≠ bluez_new_failure_msg h strerror h.BLUEZ_EDBUS_WRONG_PARAM := by
  obtain ⟨k, hk, hoff⟩ := hbit
  have hsys : ((h.BLUEZ_ESYSTEM_OFFSET + e) % 2 ^ 32) &&& h.BLUEZ_ESYSTEM_OFFSET ≠ 0 := by
    rw [hoff] at he ⊢
    exact system_code_has_system_bit k e hk he
  have hwp : h.BLUEZ_EDBUS_WRONG_PARAM &&& h.BLUEZ_ESYSTEM_OFFSET = 0 :=
    (hok.2 _ (by simp [protocol_codes, error_array])).1
  have hne : (h.BLUEZ_ESYSTEM_OFFSET + e) % 2 ^ 32 ≠ h.BLUEZ_EDBUS_WRONG_PARAM := by
    intro heq
    rw [heq] at hsys
    exact hsys hwp
  rw [failure_msg_wrong_param h strerror hok]
  unfold bluez_new_failure_msg
  cases bluez_dbus_error_to_str h strerror ((h.BLUEZ_ESYSTEM_OFFSET + e) % 2 ^ 32) with
  | none => simp
  | some str =>
    simp only [ne_eq, Option.some.injEq, Reply.error.injEq, List.cons.injEq,
      DBusArg.uint32.injEq, and_true, true_and, not_and]
    exact fun _ => hne

theorem sampleHeader_systemOffsetOk : SystemOffsetOk sampleHeader := ⟨17, by decide, by decide⟩

theorem sample_driver_errno (sock : Int) (ogf : Ogf) (ocf : Ocf) (p : HciParam) :
    sample_driver.errno sock ogf ocf p < sampleHeader.BLUEZ_ESYSTEM_OFFSET := by
  show 0 < 0x20000
  decide

/-! ## Periodic inquiry: parameter validation -/

/-- C10: for all byte values `length` (the window), `min_period` and `max_period`, when
the target adapter resolves and the driver session opens, `handle_periodic_inq_req`
returns the WrongParam error if and only if `length >= min_period` or
`min_period >= max_period`; a rejected request sends no hardware command and an
accepted one proceeds to the driver commands, the first being the write of the
inquiry mode. -/
theorem periodic_inq_wrong_param_iff (h : Header) (strerror : Nat → CStr) (drv : Driver)
    (msg : DBusMessage) (data : hci_dbus_data) (length min_period max_period : Nat)
    (hok : ErrorCodesOk h) (hbit : SystemOffsetOk h)
    (herr : ∀ sock ogf ocf p, drv.errno sock ogf ocf p < h.BLUEZ_ESYSTEM_OFFSET)
    (hargs : msg.args
      = [DBusArg.byte length, DBusArg.byte min_period, DBusArg.byte max_period])
    (hl : length < 256) (hmin : min_period < 256) (hmax : max_period < 256)
    (hres : 0 ≤ target_dev h drv data)
    (hopen : 0 ≤ drv.hci_open_dev (target_dev h drv data)) :
    ∃ reply trace, handle_periodic_inq_req h strerror drv msg data = some (reply, trace) ∧
      (reply = some (Reply.error h.ERROR_INTERFACE "Invalid parameters".toList
          [DBusArg.uint32 h.BLUEZ_EDBUS_WRONG_PARAM])
        ↔ (length ≥ min_period ∨ min_period ≥ max_period)) ∧
      ((length ≥ min_period ∨ min_period ≥ max_period) →
        ∀ c ∈ trace, c.is_send_cmd = false) ∧
      (¬ (length ≥ min_period ∨ min_period ≥ max_period) →
        DriverCall.hci_send_cmd (drv.hci_open_dev (target_dev h drv data)) Ogf.OGF_HOST_CTL
          Ocf.OCF_WRITE_INQUIRY_MODE (HciParam.write_inquiry_mode_cp 1) ∈ trace) := by
  have hwp := failure_msg_wrong_param h strerror hok
  have hsys := fun e he => system_failure_ne_wrong_param h strerror hok hbit e he
  simp only [hwp] at hsys
  have hguard : ¬ (data.id = h.DEFAULT_DEVICE_PATH_ID ∧ drv.hci_get_route < 0) := by
    rintro ⟨h1, h2⟩
    simp only [target_dev, h1, if_true] at hres
    omega
  have hsock : ¬ drv.hci_open_dev (target_dev h drv data) < 0 := by omega
  have hl' : length % 256 = length := Nat.mod_eq_of_lt hl
  have hmin' : min_period % 256 = min_period := Nat.mod_eq_of_lt hmin
  have hmax' : max_period % 256 = max_period := Nat.mod_eq_of_lt hmax
  have hval : handle_periodic_inq_req h strerror drv msg data
      = if length ≥ min_period ∨ min_period ≥ max_period then
          some (handler_exit (drv.hci_open_dev (target_dev h drv data))
            (bluez_new_failure_msg h strerror h.BLUEZ_EDBUS_WRONG_PARAM)
            ((if data.id = h.DEFAULT_DEVICE_PATH_ID then [DriverCall.hci_get_route] else [])
              ++ [DriverCall.hci_open_dev (target_dev h drv data)]))
        else if drv.hci_send_cmd (drv.hci_open_dev (target_dev h drv data)) Ogf.OGF_HOST_CTL
            Ocf.OCF_WRITE_INQUIRY_MODE (HciParam.write_inquiry_mode_cp 1) < 0 then
          some (handler_exit (drv.hci_open_dev (target_dev h drv data))
            (bluez_new_failure_msg h strerror ((h.BLUEZ_ESYSTEM_OFFSET
              + drv.errno (drv.hci_open_dev (target_dev h drv data)) Ogf.OGF_HOST_CTL
                Ocf.OCF_WRITE_INQUIRY_MODE (HciParam.write_inquiry_mode_cp 1)) % 2 ^ 32))
            (((if data.id = h.DEFAULT_DEVICE_PATH_ID then [DriverCall.hci_get_route] else [])
              ++ [DriverCall.hci_open_dev (target_dev h drv data)])
              ++ [DriverCall.hci_send_cmd (drv.hci_open_dev (target_dev h drv data))
                Ogf.OGF_HOST_CTL Ocf.OCF_WRITE_INQUIRY_MODE (HciParam.write_inquiry_mode_cp 1)]))
        else if drv.hci_send_cmd (drv.hci_open_dev (target_dev h drv data)) Ogf.OGF_LINK_CTL
            Ocf.OCF_PERIODIC_INQUIRY
            (HciParam.periodic_inquiry_cp max_period min_period [0x33, 0x8b, 0x9e] length 100)
            < 0 then
          some (handler_exit (drv.hci_open_dev (target_dev h drv data))
            (bluez_new_failure_msg h strerror ((h.BLUEZ_ESYSTEM_OFFSET
              + drv.errno (drv.hci_open_dev (target_dev h drv data)) Ogf.OGF_LINK_CTL
                Ocf.OCF_PERIODIC_INQUIRY (HciParam.periodic_inquiry_cp max_period min_period
                  [0x33, 0x8b, 0x9e] length 100)) % 2 ^ 32))
            ((((if data.id = h.DEFAULT_DEVICE_PATH_ID then [DriverCall.hci_get_route] else [])
              ++ [DriverCall.hci_open_dev (target_dev h drv data)])
              ++ [DriverCall.hci_send_cmd (drv.hci_open_dev (target_dev h drv data))
                Ogf.OGF_HOST_CTL Ocf.OCF_WRITE_INQUIRY_MODE (HciParam.write_inquiry_mode_cp 1)])
              ++ [DriverCall.hci_send_cmd (drv.hci_open_dev (target_dev h drv data))
                Ogf.OGF_LINK_CTL Ocf.OCF_PERIODIC_INQUIRY (HciParam.periodic_inquiry_cp
                  max_period min_period [0x33, 0x8b, 0x9e] length 100)]))
        else
          some (handler_exit (drv.hci_open_dev (target_dev h drv data))
            (some (Reply.method_return [DBusArg.byte 0]))
            ((((if data.id = h.DEFAULT_DEVICE_PATH_ID then [DriverCall.hci_get_route] else [])
              ++ [DriverCall.hci_open_dev (target_dev h drv data)])
              ++ [DriverCall.hci_send_cmd (drv.hci_open_dev (target_dev h drv data))
                Ogf.OGF_HOST_CTL Ocf.OCF_WRITE_INQUIRY_MODE (HciParam.write_inquiry_mode_cp 1)])
              ++ [DriverCall.hci_send_cmd (drv.hci_open_dev (target_dev h drv data))
                Ogf.OGF_LINK_CTL Ocf.OCF_PERIODIC_INQUIRY (HciParam.periodic_inquiry_cp
                  max_period min_period [0x33, 0x8b, 0x9e] length 100)])) := by
    unfold handle_periodic_inq_req
    simp only [hguard, if_false, hargs, hl', hmin', hmax']
    rw [show (if data.id = h.DEFAULT_DEVICE_PATH_ID then drv.hci_get_route else (data.id : Int))
      = target_dev h drv data from rfl]
    simp only [hsock, if_false]
  have hmem : ∀ (sock : Int) (trace : List DriverCall) (c : DriverCall),
      c ∈ trace → c ∈ (if sock > 0 then trace ++ [DriverCall.close sock] else trace) := by
    intro sock trace c hc
    split
    · exact List.mem_append_left _ hc
    · exact hc
  have hquiet : ∀ (sock : Int) (trace : List DriverCall),
      (∀ c ∈ trace, c.is_send_cmd = false) →
      ∀ c ∈ (if sock > 0 then trace ++ [DriverCall.close sock] else trace),
        c.is_send_cmd = false := by
    intro sock trace hall c hc
    split at hc
    · rcases List.mem_append.1 hc with hc | hc
      · exact hall c hc
      · rw [List.mem_singleton.1 hc]; rfl
    · exact hall c hc
  rw [hval]
  by_cases hv : length ≥ min_period ∨ min_period ≥ max_period
  · rw [if_pos hv, hwp]
    refine ⟨_, _, rfl, ?_, ?_, ?_⟩
    · exact iff_of_true rfl hv
    · intro _ c hc
      refine hquiet _ _ ?_ c hc
      intro c' hc'
      rcases List.mem_append.1 hc' with hc' | hc'
      · split at hc'
        · rw [List.mem_singleton.1 hc']; rfl
        · cases hc'
      · rw [List.mem_singleton.1 hc']; rfl
    · intro hn; exact absurd hv hn
  · rw [if_neg hv]
    have hfirst : ∀ (rest : List DriverCall),
        DriverCall.hci_send_cmd (drv.hci_open_dev (target_dev h drv data)) Ogf.OGF_HOST_CTL
          Ocf.OCF_WRITE_INQUIRY_MODE (HciParam.write_inquiry_mode_cp 1)
        ∈ (((if data.id = h.DEFAULT_DEVICE_PATH_ID then [DriverCall.hci_get_route] else [])
              ++ [DriverCall.hci_open_dev (target_dev h drv data)])
              ++ [DriverCall.hci_send_cmd (drv.hci_open_dev (target_dev h drv data))
                Ogf.OGF_HOST_CTL Ocf.OCF_WRITE_INQUIRY_MODE (HciParam.write_inquiry_mode_cp 1)])
              ++ rest := by
      intro rest
      apply List.mem_append_left
      apply List.mem_append_right
      exact List.mem_singleton_self _
    by_cases hc1 : drv.hci_send_cmd (drv.hci_open_dev (target_dev h drv data)) Ogf.OGF_HOST_CTL
        Ocf.OCF_WRITE_INQUIRY_MODE (HciParam.write_inquiry_mode_cp 1) < 0
    · rw [if_pos hc1]
      refine ⟨_, _, rfl, ?_, ?_, ?_⟩
      · exact iff_of_false (hsys _ (herr _ _ _ _)) hv
      · intro hn; exact absurd hn hv
      · intro _
        have := hfirst []
        rw [List.append_nil] at this
        exact hmem _ _ _ this
    · rw [if_neg hc1]
      by_cases hc2 : drv.hci_send_cmd (drv.hci_open_dev (target_dev h drv data))
          Ogf.OGF_LINK_CTL Ocf.OCF_PERIODIC_INQUIRY
          (HciParam.periodic_inquiry_cp max_period min_period [0x33, 0x8b, 0x9e] length 100) < 0
      · rw [if_pos hc2]
        refine ⟨_, _, rfl, ?_, ?_, ?_⟩
        · exact iff_of_false (hsys _ (herr _ _ _ _)) hv
        · intro hn; exact absurd hn hv
        · intro _
          exact hmem _ _ _ (hfirst _)
      · rw [if_neg hc2]
        refine ⟨_, _, rfl, ?_, ?_, ?_⟩
        · exact iff_of_false (by simp [handler_exit]) hv
        · intro hn; exact absurd hn hv
        · intro _
          exact hmem _ _ _ (hfirst _)

/-- Instances of C10 on the alias endpoint: the request (10, 20, 15) is rejected with
WrongParam before any hardware command, the request (5, 10, 50) passes validation and
both driver commands are sent. -/
theorem periodic_inq_wrong_param_iff_witness :
    (handle_periodic_inq_req sampleHeader sample_strerror sample_driver
        (periodic_request 10 20 15) { id := sampleHeader.DEFAULT_DEVICE_PATH_ID }
      = some (some (Reply.error sampleHeader.ERROR_INTERFACE "Invalid parameters".toList
            [DBusArg.uint32 sampleHeader.BLUEZ_EDBUS_WRONG_PARAM]),
          [DriverCall.hci_get_route, DriverCall.hci_open_dev 0, DriverCall.close 5])) ∧
    (handle_periodic_inq_req sampleHeader sample_strerror sample_driver
        (periodic_request 5 10 50) { id := sampleHeader.DEFAULT_DEVICE_PATH_ID }
      = some (some (Reply.method_return [DBusArg.byte 0]),
          [DriverCall.hci_get_route, DriverCall.hci_open_dev 0,
            DriverCall.hci_send_cmd 5 Ogf.OGF_HOST_CTL Ocf.OCF_WRITE_INQUIRY_MODE
              (HciParam.write_inquiry_mode_cp 1),
            DriverCall.hci_send_cmd 5 Ogf.OGF_LINK_CTL Ocf.OCF_PERIODIC_INQUIRY
              (HciParam.periodic_inquiry_cp 50 10 [0x33, 0x8b, 0x9e] 5 100),
            DriverCall.close 5])) ∧
    (∃ reply trace, handle_periodic_inq_req sampleHeader sample_strerror sample_driver
        (periodic_request 10 20 15) { id := sampleHeader.DEFAULT_DEVICE_PATH_ID }
        = some (reply, trace) ∧
      (reply = some (Reply.error sampleHeader.ERROR_INTERFACE "Invalid parameters".toList
          [DBusArg.uint32 sampleHeader.BLUEZ_EDBUS_WRONG_PARAM])
        ↔ (10 ≥ 20 ∨ 20 ≥ 15)) ∧
      ((10 ≥ 20 ∨ 20 ≥ 15) → ∀ c ∈ trace, c.is_send_cmd = false) ∧
      (¬ (10 ≥ 20 ∨ 20 ≥ 15) →
        DriverCall.hci_send_cmd (sample_driver.hci_open_dev (target_dev sampleHeader
          sample_driver { id := sampleHeader.DEFAULT_DEVICE_PATH_ID })) Ogf.OGF_HOST_CTL
          Ocf.OCF_WRITE_INQUIRY_MODE (HciParam.write_inquiry_mode_cp 1) ∈ trace)) ∧
    (∃ reply trace, handle_periodic_inq_req sampleHeader sample_strerror sample_driver
        (periodic_request 5 10 50) { id := sampleHeader.DEFAULT_DEVICE_PATH_ID }
        = some (reply, trace) ∧
      (reply = some (Reply.error sampleHeader.ERROR_INTERFACE "Invalid parameters".toList
          [DBusArg.uint32 sampleHeader.BLUEZ_EDBUS_WRONG_PARAM])
        ↔ (5 ≥ 10 ∨ 10 ≥ 50)) ∧
      ((5 ≥ 10 ∨ 10 ≥ 50) → ∀ c ∈ trace, c.is_send_cmd = false) ∧
      (¬ (5 ≥ 10 ∨ 10 ≥ 50) →
        DriverCall.hci_send_cmd (sample_driver.hci_open_dev (target_dev sampleHeader
          sample_driver { id := sampleHeader.DEFAULT_DEVICE_PATH_ID })) Ogf.OGF_HOST_CTL
          Ocf.OCF_WRITE_INQUIRY_MODE (HciParam.write_inquiry_mode_cp 1) ∈ trace)) :=
  ⟨by decide, by decide,
    periodic_inq_wrong_param_iff sampleHeader sample_strerror sample_driver
      (periodic_request 10 20 15) { id := sampleHeader.DEFAULT_DEVICE_PATH_ID } 10 20 15
      sampleHeader_errorCodesOk sampleHeader_systemOffsetOk sample_driver_errno rfl
      (by decide) (by decide) (by decide) (by decide) (by decide),
    periodic_inq_wrong_param_iff sampleHeader sample_strerror sample_driver
      (periodic_request 5 10 50) { id := sampleHeader.DEFAULT_DEVICE_PATH_ID } 5 10 50
      sampleHeader_errorCodesOk sampleHeader_systemOffsetOk sample_driver_errno rfl
      (by decide) (by decide) (by decide) (by decide) (by decide)⟩

/-! ## Periodic inquiry: validation and the driver -/

/-- C11, as amended: for every periodic-scan request whose parameters fail validation
(`length >= min_period` or `min_period >= max_period`), `handle_periodic_inq_req`
sends no hardware command, but the adapter lookup (on the alias endpoint) and the
opening of the driver session come before the validation: when the lookup or the open
fails the reply is the system error `BLUEZ_ESYSTEM_ENODEV`, and otherwise the reply is
WrongParam and the session is closed when its descriptor is positive. -/
theorem periodic_inq_invalid_after_open (h : Header) (strerror : Nat → CStr) (drv : Driver)
    (msg : DBusMessage) (data : hci_dbus_data) (length min_period max_period : Nat)
    (hok : ErrorCodesOk h)
    (hargs : msg.args
      = [DBusArg.byte length, DBusArg.byte min_period, DBusArg.byte max_period])
    (hl : length < 256) (hmin : min_period < 256) (hmax : max_period < 256)
    (hv : length ≥ min_period ∨ min_period ≥ max_period) :
    handle_periodic_inq_req h strerror drv msg data
      = some (
        if data.id = h.DEFAULT_DEVICE_PATH_ID ∧ drv.hci_get_route < 0 then
          (bluez_new_failure_msg h strerror h.BLUEZ_ESYSTEM_ENODEV, [DriverCall.hci_get_route])
        else if drv.hci_open_dev (target_dev h drv data) < 0 then
          (bluez_new_failure_msg h strerror h.BLUEZ_ESYSTEM_ENODEV,
            (if data.id = h.DEFAULT_DEVICE_PATH_ID then [DriverCall.hci_get_route] else [])
              ++ [DriverCall.hci_open_dev (target_dev h drv data)])
        else
          (some (Reply.error h.ERROR_INTERFACE "Invalid parameters".toList
              [DBusArg.uint32 h.BLUEZ_EDBUS_WRONG_PARAM]),
            (if data.id = h.DEFAULT_DEVICE_PATH_ID then [DriverCall.hci_get_route] else [])
              ++ [DriverCall.hci_open_dev (target_dev h drv data)]
              ++ (if drv.hci_open_dev (target_dev h drv data) > 0
                  then [DriverCall.close (drv.hci_open_dev (target_dev h drv data))]
                  else []))) := by
  have hwp := failure_msg_wrong_param h strerror hok
  have hl' : length % 256 = length := Nat.mod_eq_of_lt hl
  have hmin' : min_period % 256 = min_period := Nat.mod_eq_of_lt hmin
  have hmax' : max_period % 256 = max_period := Nat.mod_eq_of_lt hmax
  unfold handle_periodic_inq_req
  by_cases hg : data.id = h.DEFAULT_DEVICE_PATH_ID ∧ drv.hci_get_route < 0
  · simp [hg, handler_exit]
  · rw [if_neg hg, if_neg hg]
    rw [show (if data.id = h.DEFAULT_DEVICE_PATH_ID then drv.hci_get_route else (data.id : Int))
      = target_dev h drv data from rfl]
    by_cases hs : drv.hci_open_dev (target_dev h drv data) < 0
    · have hn : ¬ drv.hci_open_dev (target_dev h drv data) > 0 := by omega
      simp only [hs, if_true, handler_exit, hn, if_false]
    · simp only [hs, if_false, hargs, hl', hmin', hmax', hv, if_true, hwp, handler_exit]
      split <;> simp

/-- Instances of the amended C11 for the request (10, 20, 15) on the alias endpoint:
with a session that opens and with one that does not. -/
theorem periodic_inq_invalid_after_open_witness :
    handle_periodic_inq_req sampleHeader sample_strerror sample_driver
        (periodic_request 10 20 15) { id := sampleHeader.DEFAULT_DEVICE_PATH_ID }
      = some (some (Reply.error sampleHeader.ERROR_INTERFACE "Invalid parameters".toList
            [DBusArg.uint32 sampleHeader.BLUEZ_EDBUS_WRONG_PARAM]),
          [DriverCall.hci_get_route, DriverCall.hci_open_dev 0, DriverCall.close 5]) ∧
    handle_periodic_inq_req sampleHeader sample_strerror closed_driver
        (periodic_request 10 20 15) { id := sampleHeader.DEFAULT_DEVICE_PATH_ID }
      = some (bluez_new_failure_msg sampleHeader sample_strerror
            sampleHeader.BLUEZ_ESYSTEM_ENODEV,
          [DriverCall.hci_get_route, DriverCall.hci_open_dev 0]) :=
  ⟨periodic_inq_invalid_after_open sampleHeader sample_strerror sample_driver
      (periodic_request 10 20 15) { id := sampleHeader.DEFAULT_DEVICE_PATH_ID } 10 20 15
      sampleHeader_errorCodesOk rfl (by decide) (by decide) (by decide) (by decide),
    periodic_inq_invalid_after_open sampleHeader sample_strerror closed_driver
      (periodic_request 10 20 15) { id := sampleHeader.DEFAULT_DEVICE_PATH_ID } 10 20 15
      sampleHeader_errorCodesOk rfl (by decide) (by decide) (by decide) (by decide)⟩

/-- C11 fails as stated: for the request (10, 20, 15) the adapter is looked up and the
session is opened before the parameters are checked, and when the open fails the reply
is the system error for `ENODEV`, not WrongParam. -/
theorem periodic_inq_invalid_opens_first :
    handle_periodic_inq_req sampleHeader sample_strerror closed_driver
        (periodic_request 10 20 15) { id := sampleHeader.DEFAULT_DEVICE_PATH_ID }
      = some (some (Reply.error sampleHeader.ERROR_INTERFACE "Unknown error".toList
            [DBusArg.uint32 sampleHeader.BLUEZ_ESYSTEM_ENODEV]),
          [DriverCall.hci_get_route, DriverCall.hci_open_dev 0]) ∧
    sampleHeader.BLUEZ_ESYSTEM_ENODEV ≠ sampleHeader.BLUEZ_EDBUS_WRONG_PARAM ∧
    handle_periodic_inq_req sampleHeader sample_strerror sample_driver
        (periodic_request 10 20 15) { id := sampleHeader.DEFAULT_DEVICE_PATH_ID }
      = some (some (Reply.error sampleHeader.ERROR_INTERFACE "Invalid parameters".toList
            [DBusArg.uint32 sampleHeader.BLUEZ_EDBUS_WRONG_PARAM]),
          [DriverCall.hci_get_route, DriverCall.hci_open_dev 0, DriverCall.close 5]) := by
  decide

/-! ## Authorization round trip: the follow-up command -/

/-- C12, as amended: for every pending PIN request (dev, peer address) and every agent
reply delivered to `reply_handler_function`: if the reply is a non-error message whose
first argument is a string `s` that fits the `pin_code` field (and is shorter than 256
bytes), the command sent is the accept command (`PIN_CODE_REPLY`) on `dev` carrying
the owned peer address, `s` as the PIN (zero padded) and `pin_len` = length of `s`; if
the reply is an error message whose first argument is a string (the text of the
error), or a non-error message whose first argument is not a string, the command sent
is the reject command (`PIN_CODE_NEG_REPLY`) on `dev` carrying the owned peer
address. -/
theorem reply_handler_accept_or_reject (pin_code_size : Nat) (req : pin_request)
    (m : AgentMessage) :
    (∀ (s : CStr) (rest : List DBusArg), m.type ≠ MessageType.ERROR →
      m.args = DBusArg.string s :: rest → s.length ≤ pin_code_size → s.length < 256 →
      reply_handler_function pin_code_size req (some m)
        = some [DriverCall.hci_send_cmd req.dev Ogf.OGF_LINK_CTL Ocf.OCF_PIN_CODE_REPLY
            (HciParam.pin_code_reply_cp req.bda s.length
              (s.map Char.toNat ++ List.replicate (pin_code_size - s.length) 0))]) ∧
    (((m.type = MessageType.ERROR ∧ ∃ s rest, m.args = DBusArg.string s :: rest) ∨
        (m.type ≠ MessageType.ERROR ∧ ∀ s rest, m.args ≠ DBusArg.string s :: rest)) →
      reply_handler_function pin_code_size req (some m)
        = some [DriverCall.hci_send_cmd req.dev Ogf.OGF_LINK_CTL Ocf.OCF_PIN_CODE_NEG_REPLY
            (HciParam.bdaddr req.bda)]) := by
  constructor
  · intro s rest hty hargs hlen h256
    simp [reply_handler_function, hty, hargs, hlen, Nat.mod_eq_of_lt h256]
  · intro hcase
    rcases hcase with ⟨hty, s, rest, hargs⟩ | ⟨hty, hns⟩
    · simp [reply_handler_function, hty, hargs]
    · cases hargs : m.args with
      | nil => simp [reply_handler_function, hty, hargs]
      | cons x rest =>
        cases x <;>
          first
            | exact absurd hargs (hns _ _)
            | simp [reply_handler_function, hty, hargs]

/-- Instances of the amended C12: a four-byte PIN is accepted, an error reply carrying
its text and a reply whose first argument is a byte are rejected. -/
theorem reply_handler_accept_or_reject_witness :
    reply_handler_function 16 sample_pin_request (some (pin_reply "1234"))
      = some [DriverCall.hci_send_cmd 3 Ogf.OGF_LINK_CTL Ocf.OCF_PIN_CODE_REPLY
          (HciParam.pin_code_reply_cp [1, 2, 3, 4, 5, 6] 4
            [49, 50, 51, 52, 0, 0, 0, 0, 0, 0, 0, 0, 0, 0, 0, 0])] ∧
    reply_handler_function 16 sample_pin_request
        (some { type := MessageType.ERROR, args := [DBusArg.string "No reply".toList] })
      = some [DriverCall.hci_send_cmd 3 Ogf.OGF_LINK_CTL Ocf.OCF_PIN_CODE_NEG_REPLY
          (HciParam.bdaddr [1, 2, 3, 4, 5, 6])] ∧
    reply_handler_function 16 sample_pin_request
        (some { type := MessageType.METHOD_RETURN, args := [DBusArg.byte 7] })
      = some [DriverCall.hci_send_cmd 3 Ogf.OGF_LINK_CTL Ocf.OCF_PIN_CODE_NEG_REPLY
          (HciParam.bdaddr [1, 2, 3, 4, 5, 6])] :=
  ⟨(reply_handler_accept_or_reject 16 sample_pin_request (pin_reply "1234")).1
      "1234".toList [] (by decide) rfl (by decide) (by decide),
    (reply_handler_accept_or_reject 16 sample_pin_request
      { type := MessageType.ERROR, args := [DBusArg.string "No reply".toList] }).2
      (Or.inl ⟨rfl, "No reply".toList, [], rfl⟩),
    (reply_handler_accept_or_reject 16 sample_pin_request
      { type := MessageType.METHOD_RETURN, args := [DBusArg.byte 7] }).2
      (Or.inr ⟨by decide, by intro s rest hh; cases hh⟩)⟩

/-- C12 fails as stated, on two kinds of reply. On a string reply of 17 bytes, one more
than the `pin_code` field holds, `reply_handler_function` copies past the end of the
field, so that no accept command with that PIN and `pin_len = 17` is what the code is
defined to send. On an error reply with no argument, and on one whose first argument
is a number, it hands an uninitialised pointer to `syslog` before the reject command,
so that the reject command is not what the code is defined to send either. -/
theorem reply_handler_undefined_replies :
    ("12345678901234567".toList).length = 17 ∧
    reply_handler_function 16 sample_pin_request (some (pin_reply "12345678901234567")) = none ∧
    reply_handler_function 16 sample_pin_request (some (pin_reply "12345678901234567"))
      ≠ some [DriverCall.hci_send_cmd 3 Ogf.OGF_LINK_CTL Ocf.OCF_PIN_CODE_REPLY
          (HciParam.pin_code_reply_cp [1, 2, 3, 4, 5, 6] 17
            ("12345678901234567".toList.map Char.toNat))] ∧
    reply_handler_function 16 sample_pin_request
        (some { type := MessageType.ERROR, args := [] }) = none ∧
    reply_handler_function 16 sample_pin_request
        (some { type := MessageType.ERROR, args := [DBusArg.uint32 7] }) = none ∧
    reply_handler_function 16 sample_pin_request
        (some { type := MessageType.ERROR, args := [DBusArg.uint32 7] })
      ≠ some [DriverCall.hci_send_cmd 3 Ogf.OGF_LINK_CTL Ocf.OCF_PIN_CODE_NEG_REPLY
          (HciParam.bdaddr [1, 2, 3, 4, 5, 6])] := by
  decide

/-- C13 does not hold of the code: when the request was sent and the pending call
holds no reply message at its completion, `reply_handler_function` sends no command,
so that the correlation issues no driver command at all; with an error reply it
issues the one reject command. -/
theorem no_command_without_reply_message :
    pin_correlation 16 true true true 3 sample_conn_info none = some [] ∧
    pin_correlation 16 true true true 3 sample_conn_info
        (some { type := MessageType.ERROR, args := [DBusArg.string "No reply".toList] })
      = some [DriverCall.hci_send_cmd 3 Ogf.OGF_LINK_CTL Ocf.OCF_PIN_CODE_NEG_REPLY
          (HciParam.bdaddr [1, 2, 3, 4, 5, 6])] := by
  decide

/-! ## Handlers: driver sessions and the inquiry reply -/

/-- C14 does not hold of the code: `handle_role_switch_req` opens a driver session and
returns without closing it. On a successful role switch the session opened on socket
5 is still open when the handler returns. -/
theorem role_switch_leaves_session_open :
    handle_role_switch_req sampleHeader sample_strerror sample_driver sample_link_driver
        (role_switch_request "00:11:22:33:44:55" 1) { id := 0 }
      = some (some (Reply.method_return [DBusArg.byte 0]),
          [DriverCall.hci_for_each_dev [1, 2, 3, 4, 5, 6], DriverCall.hci_open_dev 0,
            DriverCall.hci_switch_role 5 [1, 2, 3, 4, 5, 6] 1]) ∧
    open_sessions sample_driver.hci_open_dev
        [DriverCall.hci_for_each_dev [1, 2, 3, 4, 5, 6], DriverCall.hci_open_dev 0,
          DriverCall.hci_switch_role 5 [1, 2, 3, 4, 5, 6] 1] = [5] ∧
    open_sessions sample_driver.hci_open_dev [] = [] := by
  decide

/-- C15 does not hold of the code: whatever the request and whatever the driver
answers, `handle_inq_req` returns `NULL`; the reply it built (the records or the
WrongParam error) is not returned. -/
theorem inq_req_returns_null (h : Header) (strerror : Nat → CStr) (drv : InquiryDriver)
    (msg : DBusMessage) (data : hci_dbus_data) (out : InquiryOutcome)
    (hout : handle_inq_req h strerror drv msg data = some out) :
    out.returned = none := by
  unfold handle_inq_req at hout
  simp only at hout
  repeat' (split at hout)
  all_goals first
    | (simp only [Option.some.injEq] at hout; subst hout; rfl)
    | (simp at hout)

/-- Instance for C15: an inquiry with window 5 and at most 10 results, answered by the
driver with two devices, builds the two records in the driver's order and returns
`NULL`; an inquiry with window 0 builds the WrongParam error and returns `NULL`. -/
theorem inq_req_returns_null_witness :
    handle_inq_req sampleHeader sample_strerror sample_inquiry_driver
        (inquiry_request 5 10 0) { id := sampleHeader.DEFAULT_DEVICE_PATH_ID }
      = some { returned := none,
               built := InquiryReply.records
                 [("123456".toList, 260, 7), ("654321".toList, 524, 9)],
               trace := [DriverCall.hci_get_route, DriverCall.hci_inquiry 0 5 10 0] } ∧
    handle_inq_req sampleHeader sample_strerror sample_inquiry_driver
        (inquiry_request 0 10 0) { id := sampleHeader.DEFAULT_DEVICE_PATH_ID }
      = some { returned := none,
               built := InquiryReply.failure
                 (some (Reply.error sampleHeader.ERROR_INTERFACE "Invalid parameters".toList
                   [DBusArg.uint32 sampleHeader.BLUEZ_EDBUS_WRONG_PARAM])),
               trace := [DriverCall.hci_get_route] } ∧
    (∀ out, handle_inq_req sampleHeader sample_strerror sample_inquiry_driver
        (inquiry_request 5 10 0) { id := sampleHeader.DEFAULT_DEVICE_PATH_ID } = some out →
      out.returned = none) :=
  ⟨by decide, by decide,
    fun out hout => inq_req_returns_null sampleHeader sample_strerror sample_inquiry_driver
      (inquiry_request 5 10 0) { id := sampleHeader.DEFAULT_DEVICE_PATH_ID } out hout⟩

/-! ## Error catalogue: protocol codes and system codes -/

theorem strip_system_bit (k e : Nat) (hk : k < 32) (he : e < 2 ^ k) :
    (0xFFFFFFFF ^^^ 2 ^ k) &&& (2 ^ k + e) = e := by
  have hM : (0xFFFFFFFF : Nat) = 2 ^ 32 - 1 := by decide
  apply Nat.eq_of_testBit_eq
  intro i
  rw [Nat.testBit_and, Nat.testBit_xor, hM, Nat.testBit_two_pow_sub_one, Nat.testBit_two_pow]
  rcases Nat.lt_trichotomy i k with hik | hik | hik
  · have h1 : i < 32 := by omega
    have h2 : ¬ k = i := by omega
    rw [Nat.testBit_two_pow_add_gt hik]
    simp [h1, h2]
  · subst hik
    rw [Nat.testBit_lt_two_pow he]
    simp [hk]
  · have h3 : 2 ^ (k + 1) ≤ 2 ^ i := Nat.pow_le_pow_right (by decide) (by omega)
    have h4 : 2 ^ (k + 1) = 2 ^ k + 2 ^ k := by rw [pow_succ]; omega
    have h5 : 2 ^ k ≤ 2 ^ i := Nat.pow_le_pow_right (by decide) (by omega)
    rw [Nat.testBit_lt_two_pow (show 2 ^ k + e < 2 ^ i by omega),
      Nat.testBit_lt_two_pow (show e < 2 ^ i by omega)]
    simp

/-- C16: for each of the seven protocol error codes listed in `error_array`,
`bluez_dbus_error_to_str` returns the string paired with that code in the table, and
`bluez_new_failure_msg` returns an error reply (not `NULL`) whose message is that
string and whose payload is that code. -/
theorem protocol_codes_resolved (h : Header) (strerror : Nat → CStr) (hok : ErrorCodesOk h) :
    error_array h
      = [ (h.BLUEZ_EDBUS_UNKNOWN_METHOD, "Method not found".toList),
          (h.BLUEZ_EDBUS_WRONG_SIGNATURE, "Wrong method signature".toList),
          (h.BLUEZ_EDBUS_WRONG_PARAM, "Invalid parameters".toList),
          (h.BLUEZ_EDBUS_RECORD_NOT_FOUND, "No record found".toList),
          (h.BLUEZ_EDBUS_NO_MEM, "No memory".toList),
          (h.BLUEZ_EDBUS_CONN_NOT_FOUND, "Connection not found".toList),
          (h.BLUEZ_EDBUS_UNKNOWN_PATH, "Device path is not registered".toList) ] ∧
    ∀ p ∈ error_array h,
      bluez_dbus_error_to_str h strerror p.1 = some p.2 ∧
      bluez_new_failure_msg h strerror p.1
        = some (Reply.error h.ERROR_INTERFACE p.2 [DBusArg.uint32 p.1]) :=
  ⟨rfl, fun p hp => ⟨error_to_str_of_mem h strerror hok p.1 p.2 hp,
    failure_msg_of_mem h strerror hok p.1 p.2 hp⟩⟩

/-- Instance of C16 under the sample header, read at the code for "record not found". -/
theorem protocol_codes_resolved_witness :
    ErrorCodesOk sampleHeader ∧
    bluez_dbus_error_to_str sampleHeader sample_strerror 0x10004
      = some "No record found".toList ∧
    bluez_new_failure_msg sampleHeader sample_strerror 0x10004
      = some (Reply.error "org.bluez.Error".toList "No record found".toList
          [DBusArg.uint32 0x10004]) :=
  ⟨sampleHeader_errorCodesOk,
    (protocol_codes_resolved sampleHeader sample_strerror sampleHeader_errorCodesOk).2
      (0x10004, "No record found".toList) (by decide)⟩

/-- C17: under the layout of the code spaces, for every host error number `e` below
`BLUEZ_ESYSTEM_OFFSET` the code `BLUEZ_ESYSTEM_OFFSET + e` fits a `uint32_t`, differs
from all seven protocol codes, passes the system-class test (so that
`bluez_dbus_error_to_str` returns before the loop over `error_array`) and is resolved
to `strerror(e)`; every protocol code fails the system-class test and is resolved to
its entry of `error_array`, whatever `strerror` is. -/
theorem code_spaces_disjoint (h : Header) (strerror : Nat → CStr) (hts : TaggedCodeSpaces h)
    (e : Nat) (he : e < h.BLUEZ_ESYSTEM_OFFSET) :
    (h.BLUEZ_ESYSTEM_OFFSET + e) % 2 ^ 32 = h.BLUEZ_ESYSTEM_OFFSET + e ∧
    h.BLUEZ_ESYSTEM_OFFSET + e ∉ protocol_codes h ∧
    (h.BLUEZ_ESYSTEM_OFFSET + e) &&& h.BLUEZ_ESYSTEM_OFFSET ≠ 0 ∧
    bluez_dbus_error_to_str h strerror (h.BLUEZ_ESYSTEM_OFFSET + e) = some (strerror e) ∧
    ∀ p ∈ error_array h, p.1 &&& h.BLUEZ_ESYSTEM_OFFSET = 0 ∧
      ∀ strerror', bluez_dbus_error_to_str h strerror' p.1 = some p.2 := by
  obtain ⟨hok, k, hk, hoff⟩ := hts
  have he' : e < 2 ^ k := by rw [← hoff]; exact he
  have hlt : 2 ^ k + e < 2 ^ 32 := by
    have h1 : 2 ^ (k + 1) ≤ 2 ^ 32 := Nat.pow_le_pow_right (by decide) (by omega)
    have h2 : 2 ^ (k + 1) = 2 ^ k + 2 ^ k := by rw [pow_succ]; omega
    omega
  have hmod : (2 ^ k + e) % 2 ^ 32 = 2 ^ k + e := Nat.mod_eq_of_lt hlt
  have hbit : (2 ^ k + e) &&& 2 ^ k ≠ 0 := by
    have := system_code_has_system_bit k e hk he'
    rwa [hmod] at this
  rw [hoff]
  refine ⟨hmod, ?_, hbit, ?_, ?_⟩
  · intro hmem
    have := (hok.2 _ hmem).1
    rw [hoff] at this
    exact hbit this
  · unfold bluez_dbus_error_to_str
    rw [hoff]
    simp only [hbit, ne_eq, not_false_eq_true, if_true, strip_system_bit k e hk he']
  · intro p hp
    have hc : p.1 ∈ protocol_codes h := List.mem_map.2 ⟨p, hp, rfl⟩
    refine ⟨by have := (hok.2 _ hc).1; rwa [hoff] at this, fun strerror' => ?_⟩
    exact error_to_str_of_mem h strerror' hok p.1 p.2 hp

theorem sampleHeader_taggedCodeSpaces : TaggedCodeSpaces sampleHeader :=
  ⟨sampleHeader_errorCodesOk, sampleHeader_systemOffsetOk⟩

/-- Instance of C17 under the sample header at host error 19. -/
theorem code_spaces_disjoint_witness :
    TaggedCodeSpaces sampleHeader ∧ 19 < sampleHeader.BLUEZ_ESYSTEM_OFFSET ∧
    (sampleHeader.BLUEZ_ESYSTEM_OFFSET + 19) % 2 ^ 32 = sampleHeader.BLUEZ_ESYSTEM_OFFSET + 19 ∧
    sampleHeader.BLUEZ_ESYSTEM_OFFSET + 19 ∉ protocol_codes sampleHeader ∧
    (sampleHeader.BLUEZ_ESYSTEM_OFFSET + 19) &&& sampleHeader.BLUEZ_ESYSTEM_OFFSET ≠ 0 ∧
    bluez_dbus_error_to_str sampleHeader sample_strerror (sampleHeader.BLUEZ_ESYSTEM_OFFSET + 19)
      = some (sample_strerror 19) ∧
    ∀ p ∈ error_array sampleHeader, p.1 &&& sampleHeader.BLUEZ_ESYSTEM_OFFSET = 0 ∧
      ∀ strerror', bluez_dbus_error_to_str sampleHeader strerror' p.1 = some p.2 :=
  ⟨sampleHeader_taggedCodeSpaces, by decide,
    code_spaces_disjoint sampleHeader sample_strerror sampleHeader_taggedCodeSpaces 19
      (by decide)⟩

/-! ## Manager methods that are declared but not implemented -/

/-- C18 does not hold of the code: for every method call on the manager path with the
manager interface whose method name is that of the init, enable or disable entry of
`mgr_services` (and not that of the first entry), whatever its signature, the scan of
`msg_func` reaches an entry whose `signature` is `NULL` and hands it to `strcmp`:
the behaviour is undefined and `handle_not_implemented_req` is not reached. -/
theorem mgr_stub_null_signature (h : Header) (strerror : Nat → CStr) (n : ManagerNames)
    (T : ServiceTables Handler) (tbl : List profile_obj_path_data)
    (handler : Handler → DBusMessage → hci_dbus_data → Option Reply)
    (msg : DBusMessage) (data : hci_dbus_data) (m : CStr)
    (hT : T.mgr_services = mgr_services n)
    (hne : h.MANAGER_PATH ≠ h.DEVICE_PATH)
    (hpath : msg.path = h.MANAGER_PATH) (hty : msg.type = MessageType.METHOD_CALL)
    (hi : msg.iface = some h.MANAGER_INTERFACE) (hm : msg.method = some m)
    (hstub : m = n.MGR_INIT ∨ m = n.MGR_ENABLE ∨ m = n.MGR_DISABLE)
    (hfirst : m ≠ n.MGR_GET_DEV) :
    msg_func h strerror T tbl handler msg data = none := by
  have h1 : ¬ strcmp h.MANAGER_PATH h.DEVICE_PATH = 0 := by
    rw [strcmp_eq_zero_iff]; exact hne
  have h2 : ¬ strcmp h.MANAGER_PATH h.MANAGER_PATH > 0 := by
    rw [strcmp_self]; decide
  have h3 : ¬ strcmp m n.MGR_GET_DEV = 0 := by
    rw [strcmp_eq_zero_iff]; exact hfirst
  have hscan : ∀ st : Scan Handler,
      scan_handlers h (fun f => handler f msg data) m msg.signature (mgr_services n) st
        = none := by
    intro st
    by_cases e1 : m = n.MGR_INIT
    · have : strcmp m n.MGR_INIT = 0 := (strcmp_eq_zero_iff _ _).2 e1
      simp [mgr_services, scan_handlers, h3, this]
    · have n1 : ¬ strcmp m n.MGR_INIT = 0 := by rw [strcmp_eq_zero_iff]; exact e1
      by_cases e2 : m = n.MGR_ENABLE
      · have : strcmp m n.MGR_ENABLE = 0 := (strcmp_eq_zero_iff _ _).2 e2
        simp [mgr_services, scan_handlers, h3, n1, this]
      · have n2 : ¬ strcmp m n.MGR_ENABLE = 0 := by rw [strcmp_eq_zero_iff]; exact e2
        have e3 : m = n.MGR_DISABLE := by
          rcases hstub with hh | hh | hh
          · exact absurd hh e1
          · exact absurd hh e2
          · exact hh
        have : strcmp m n.MGR_DISABLE = 0 := (strcmp_eq_zero_iff _ _).2 e3
        simp [mgr_services, scan_handlers, h3, n1, n2, this]
  have hc : classify h strerror T tbl msg data
      = some { ptr_handlers := some (mgr_services n), tmp_iface := some h.MANAGER_INTERFACE,
               found := true, reply := none, ret := DBusHandlerResult.NOT_YET_HANDLED } := by
    simp only [classify, hpath, h1, h2, if_false, hT]
  simp only [msg_func, hc, hty, decide_True, Bool.and_self, if_true, hi, strcmp_self, hm, hscan]

/-- Instance for C18: calls of `Init`, `Enable` and `Disable` on the manager path. -/
theorem mgr_stub_null_signature_witness :
    msg_func sampleHeader sample_strerror (tables_with_mgr sampleManagerNames)
        (obj_path_table sampleHeader) stub_aware_handler
        (sample_call "/org/bluez/Manager" "org.bluez.Manager" "Init" "")
        { id := sampleHeader.MANAGER_PATH_ID } = none ∧
    msg_func sampleHeader sample_strerror (tables_with_mgr sampleManagerNames)
        (obj_path_table sampleHeader) stub_aware_handler
        (sample_call "/org/bluez/Manager" "org.bluez.Manager" "Enable" "s")
        { id := sampleHeader.MANAGER_PATH_ID } = none ∧
    msg_func sampleHeader sample_strerror (tables_with_mgr sampleManagerNames)
        (obj_path_table sampleHeader) stub_aware_handler
        (sample_call "/org/bluez/Manager" "org.bluez.Manager" "Disable" "")
        { id := sampleHeader.MANAGER_PATH_ID } = none :=
  ⟨mgr_stub_null_signature sampleHeader sample_strerror sampleManagerNames
      (tables_with_mgr sampleManagerNames) (obj_path_table sampleHeader) stub_aware_handler
      (sample_call "/org/bluez/Manager" "org.bluez.Manager" "Init" "")
      { id := sampleHeader.MANAGER_PATH_ID } "Init".toList rfl (by decide) rfl rfl rfl rfl
      (Or.inl rfl) (by decide),
    mgr_stub_null_signature sampleHeader sample_strerror sampleManagerNames
      (tables_with_mgr sampleManagerNames) (obj_path_table sampleHeader) stub_aware_handler
      (sample_call "/org/bluez/Manager" "org.bluez.Manager" "Enable" "s")
      { id := sampleHeader.MANAGER_PATH_ID } "Enable".toList rfl (by decide) rfl rfl rfl rfl
      (Or.inr (Or.inl rfl)) (by decide),
    mgr_stub_null_signature sampleHeader sample_strerror sampleManagerNames
      (tables_with_mgr sampleManagerNames) (obj_path_table sampleHeader) stub_aware_handler
      (sample_call "/org/bluez/Manager" "org.bluez.Manager" "Disable" "")
      { id := sampleHeader.MANAGER_PATH_ID } "Disable".toList rfl (by decide) rfl rfl rfl rfl
      (Or.inr (Or.inr rfl)) (by decide)⟩

/-! ## Facts about the identifiers carried by the endpoints -/

theorem mem_register (conn : ObjectTree) (p : CStr) (d : hci_dbus_data)
    (e : CStr × hci_dbus_data)
    (he : e ∈ (dbus_connection_register_object_path conn p d).2) : e ∈ conn ∨ e = (p, d) := by
  unfold dbus_connection_register_object_path at he
  split at he
  · exact Or.inl he
  · rcases List.mem_append.1 he with h1 | h1
    · exact Or.inl h1
    · exact Or.inr (List.mem_singleton.1 h1)

theorem mem_unregister (conn : ObjectTree) (p : CStr) (e : CStr × hci_dbus_data)
    (he : e ∈ (dbus_connection_unregister_object_path conn p).2) : e ∈ conn ∧ e.1 ≠ p := by
  unfold dbus_connection_unregister_object_path at he
  split at he
  · have := List.mem_filter.1 he
    exact ⟨this.1, by simpa using this.2⟩
  · rename_i hreg
    refine ⟨he, fun heq => hreg ?_⟩
    unfold registered
    rw [List.any_eq_true]
    exact ⟨e, he, by simp [heq]⟩

theorem origin_reg_obj_path (h : Header) (conn₀ : ObjectTree) (m_dft m_dev : Bool)
    (conn : ObjectTree) (dft_reg : Int) (id : Nat)
    (hall : ∀ e ∈ conn, EntryOrigin h conn₀ e) :
    ∀ e ∈ (hci_dbus_reg_obj_path h m_dft m_dev conn dft_reg id).2, EntryOrigin h conn₀ e := by
  have hstep : ∀ (c : ObjectTree) (p : CStr) (d : hci_dbus_data),
      (∀ e ∈ c, EntryOrigin h conn₀ e) → EntryOrigin h conn₀ (p, d) →
      ∀ e ∈ (dbus_connection_register_object_path c p d).2, EntryOrigin h conn₀ e := by
    intro c p d hc hpd e he
    rcases mem_register c p d e he with h1 | h1
    · exact hc e h1
    · rw [h1]; exact hpd
  have halias : EntryOrigin h conn₀ (default_path h, { id := h.DEFAULT_DEVICE_PATH_ID }) :=
    Or.inr (Or.inl rfl)
  have hdev : EntryOrigin h conn₀ (device_path h id, { id := id }) :=
    Or.inr (Or.inr ⟨id, rfl⟩)
  unfold hci_dbus_reg_obj_path
  by_cases h0 : dft_reg = 0 <;> cases m_dft <;> cases m_dev <;> simp only [h0, if_true, if_false,
    Bool.not_true, Bool.not_false, Bool.false_eq_true]
  all_goals first
    | exact hall
    | exact hstep _ _ _ hall hdev
    | exact hstep _ _ _ hall halias
    | exact hstep _ _ _ (hstep _ _ _ hall halias) hdev

theorem origin_unreg_obj_path (h : Header) (conn₀ : ObjectTree) (conn : ObjectTree)
    (unreg_dft : Int) (id : Nat) (hall : ∀ e ∈ conn, EntryOrigin h conn₀ e) :
    ∀ e ∈ (hci_dbus_unreg_obj_path h conn unreg_dft id).2, EntryOrigin h conn₀ e := by
  unfold hci_dbus_unreg_obj_path
  simp only [ite_pair_snd]
  intro e he
  have h1 := (mem_unregister _ _ e he).1
  by_cases h0 : unreg_dft ≠ 0
  · rw [if_pos h0, ite_pair_snd] at h1
    exact hall e (mem_unregister _ _ e h1).1
  · rw [if_neg h0] at h1
    exact hall e h1

theorem origin_register_loop (h : Header) (conn₀ : ObjectTree) (m_dft m_dev : Bool) (id : Nat) :
    ∀ (tbl : List profile_obj_path_data) (ret : Int) (conn : ObjectTree),
      (∀ e ∈ conn, EntryOrigin h conn₀ e) →
      ∀ e ∈ (register_loop h m_dft m_dev id tbl ret conn).2.1, EntryOrigin h conn₀ e
  | [], _, _, hall => fun e he => hall e he
  | ptr :: rest, _, conn, hall => by
    simp only [register_loop]
    exact origin_register_loop h conn₀ m_dft m_dev id rest _ _
      (origin_reg_obj_path h conn₀ m_dft m_dev conn ptr.dft_reg id hall)

theorem origin_unregister_loop (h : Header) (conn₀ : ObjectTree) (id : Nat) :
    ∀ (tbl : List profile_obj_path_data) (n : Int) (conn : ObjectTree),
      (∀ e ∈ conn, EntryOrigin h conn₀ e) →
      ∀ e ∈ (unregister_loop h id tbl n conn).2.1, EntryOrigin h conn₀ e
  | [], _, _, hall => fun e he => hall e he
  | _ :: rest, n, conn, hall => by
    simp only [unregister_loop]
    exact origin_unregister_loop h conn₀ id rest _ _
      (origin_unreg_obj_path h conn₀ conn _ id hall)

theorem treeOrigin_step (h : Header) (conn₀ : ObjectTree) (s : State) (c : Call)
    (hs : TreeOrigin h conn₀ s) : TreeOrigin h conn₀ (step h s c) := by
  cases hc : s.connection with
  | none =>
    intro conn hconn
    cases c <;>
      simp [step, hcid_dbus_register_device, hcid_dbus_unregister_device, hc] at hconn
  | some conn =>
    have hall := hs conn hc
    intro conn' hconn
    cases c with
    | register id m_dft m_dev =>
      simp only [step, hcid_dbus_register_device, hc, Option.some.injEq] at hconn
      rw [← hconn]
      exact origin_register_loop h conn₀ m_dft m_dev id s.obj_path_table (-1) conn hall
    | unregister id =>
      simp only [step, hcid_dbus_unregister_device, hc, Option.some.injEq] at hconn
      rw [← hconn]
      exact origin_unregister_loop h conn₀ id s.obj_path_table s.num_adapters conn hall

theorem treeOrigin_run (h : Header) (conn₀ : ObjectTree) :
    ∀ (calls : List Call) (s : State), TreeOrigin h conn₀ s →
      TreeOrigin h conn₀ (run h s calls)
  | [], _, hs => hs
  | c :: cs, s, hs => by
    rw [run_cons]
    exact treeOrigin_run h conn₀ cs _ (treeOrigin_step h conn₀ s c hs)

theorem step_shape (h : Header) (conn : ObjectTree) (n d : Int) (c : Call) :
    ∃ conn' n' d', step h (state_with h conn n d) c = state_with h conn' n' d' := by
  cases c with
  | register id m_dft m_dev =>
    exact ⟨_, _, 1, rfl⟩
  | unregister id =>
    rw [step_detach]
    exact ⟨_, _, _, rfl⟩

theorem run_shape (h : Header) :
    ∀ (calls : List Call) (conn : ObjectTree) (n d : Int),
      ∃ conn' n' d', run h (state_with h conn n d) calls = state_with h conn' n' d'
  | [], conn, n, d => ⟨conn, n, d, rfl⟩
  | c :: cs, conn, n, d => by
    obtain ⟨conn1, n1, d1, h1⟩ := step_shape h conn n d c
    rw [run_cons, h1]
    exact run_shape h cs conn1 n1 d1

theorem object_path_data_register (conn : ObjectTree) (p : CStr) (d : hci_dbus_data)
    (hp : registered conn p = false) :
    object_path_data (dbus_connection_register_object_path conn p d).2 p = some d := by
  have hnone : conn.find? (fun e => e.1 == p) = none := by
    rw [List.find?_eq_none]
    unfold registered at hp
    rw [List.any_eq_false] at hp
    exact hp
  simp [dbus_connection_register_object_path, hp, object_path_data, List.find?_append, hnone]

/-! ## Endpoint lifecycle: detach followed by attach -/

/-- C19, as amended: for distinct adapter ids `a` and `b` and every state reachable
from the initial state by register and unregister calls in which `b` is not attached
(`a` may be), provided `a` is not the identifier of the alias endpoint
(`DEFAULT_DEVICE_PATH_ID`) nor one carried by an endpoint registered before any adapter
was attached (`MANAGER_PATH_ID`, `DEVICE_PATH_ID` after `hcid_dbus_init`): after
`detach a` followed immediately by `attach b` the concrete path of `a` is not
registered, the concrete path of `b` is registered and carries identifier `b`, and no
registered endpoint carries identifier `a`. -/
theorem detach_attach_no_resurrection (h : Header) (conn₀ : ObjectTree) (calls : List Call)
    (a b : Nat) (hd : AliasDistinct h)
    (hids : ∀ e ∈ conn₀, e.2.id ≠ a) (hsent : a ≠ h.DEFAULT_DEVICE_PATH_ID) (hab : a ≠ b)
    (hb : adapter_registered h (run h (initial h conn₀) calls) b = false) :
    adapter_registered h (run h (run h (initial h conn₀) calls) [detach a, attach b]) a = false ∧
    adapter_registered h (run h (run h (initial h conn₀) calls) [detach a, attach b]) b = true ∧
    adapter_data h (run h (run h (initial h conn₀) calls) [detach a, attach b]) b
      = some { id := b } ∧
    carries_id (run h (run h (initial h conn₀) calls) [detach a, attach b]) a = false := by
  have horig : TreeOrigin h conn₀ (run h (initial h conn₀) calls) := by
    apply treeOrigin_run
    intro conn hconn e he
    simp only [initial, Option.some.injEq] at hconn
    rw [← hconn] at he
    exact Or.inl he
  obtain ⟨conn, n, d, hs⟩ := run_shape h calls conn₀ 0 0
  rw [← initial_eq] at hs
  rw [hs] at hb horig ⊢
  have hall : ∀ e ∈ conn, EntryOrigin h conn₀ e := horig conn rfl
  have hbreg : registered conn (device_path h b) = false := by
    simpa [adapter_registered, state_with] using hb
  have hba : b ≠ a := fun e => hab e.symm
  have hfinal : run h (state_with h conn n d) [detach a, attach b]
      = state_with h (attach_tree h (detach_tree h conn n a) (if n > 1 then d else 0) b)
          (n - 1 + 1) 1 := by
    rw [detach, attach, run_cons, step_detach, run_cons, step_attach]
    rfl
  rw [hfinal]
  generalize (if n > 1 then d else 0) = d'
  simp only [adapter_registered, adapter_data, carries_id, state_with]
  have hXb : registered (detach_tree h conn n a) (device_path h b) = false := by
    rw [adapter_detach_tree h hd, hbreg]; rfl
  refine ⟨?_, ?_, ?_, ?_⟩
  · rw [adapter_attach_tree h hd, adapter_detach_tree h hd]
    simp [hba]
  · rw [adapter_attach_tree h hd]
    simp
  · unfold attach_tree
    apply object_path_data_register
    by_cases hz : d' = 0
    · rw [if_pos hz, registered_register, hXb, default_beq_device h hd]; rfl
    · rw [if_neg hz]; exact hXb
  · rw [List.any_eq_false]
    intro e he
    have hXa : ∀ e ∈ detach_tree h conn n a, e.2.id ≠ a := by
      intro e he
      unfold detach_tree at he
      obtain ⟨h1, h2⟩ := mem_unregister _ _ e he
      have h3 : e ∈ conn := by
        split at h1
        · exact h1
        · exact (mem_unregister _ _ e h1).1
      rcases hall e h3 with ho | ho | ⟨c, ho⟩
      · exact hids e ho
      · rw [ho]; exact fun hh => hsent hh.symm
      · rw [ho] at h2 ⊢
        intro hh
        apply h2
        show device_path h c = device_path h a
        rw [show c = a from hh]
    have hne : e.2.id ≠ a := by
      unfold attach_tree at he
      rcases mem_register _ _ _ e he with h1 | h1
      · by_cases hz : d' = 0
        · rw [if_pos hz] at h1
          rcases mem_register _ _ _ e h1 with h2 | h2
          · exact hXa e h2
          · rw [h2]; exact fun hh => hsent hh.symm
        · rw [if_neg hz] at h1
          exact hXa e h1
      · rw [h1]; exact hba
    simpa using hne

/-- Instance of the amended C19: adapters 3 and 1 were attached and 1 detached; then
adapter 3 is detached and adapter 4 attached. -/
theorem detach_attach_no_resurrection_witness :
    adapter_registered sampleHeader
        (run sampleHeader (run sampleHeader sampleInitial [attach 3, attach 1, detach 1])
          [detach 3, attach 4]) 3 = false ∧
    adapter_registered sampleHeader
        (run sampleHeader (run sampleHeader sampleInitial [attach 3, attach 1, detach 1])
          [detach 3, attach 4]) 4 = true ∧
    adapter_data sampleHeader
        (run sampleHeader (run sampleHeader sampleInitial [attach 3, attach 1, detach 1])
          [detach 3, attach 4]) 4 = some { id := 4 } ∧
    carries_id
        (run sampleHeader (run sampleHeader sampleInitial [attach 3, attach 1, detach 1])
          [detach 3, attach 4]) 3 = false :=
  detach_attach_no_resurrection sampleHeader (init_tree sampleHeader)
    [attach 3, attach 1, detach 1] 3 4 sampleHeader_aliasDistinct
    (by decide) (by decide) (by decide) (by decide)

/-- C19 fails as stated: the adapter id 65533 is the identifier the alias endpoint
carries. With adapter 65533 attached and adapter 0 not, after `detach 65533` and
`attach 0` the alias endpoint is registered and carries identifier 65533. Likewise the
manager endpoint, registered before any adapter is attached, carries identifier 65535
after `detach 65535` and `attach 0`. -/
theorem alias_carries_detached_id :
    sampleHeader.DEFAULT_DEVICE_PATH_ID = 65533 ∧
    adapter_registered sampleHeader (run sampleHeader sampleInitial [attach 65533]) 65533
      = true ∧
    adapter_registered sampleHeader (run sampleHeader sampleInitial [attach 65533]) 0 = false ∧
    alias_registered sampleHeader
        (run sampleHeader (run sampleHeader sampleInitial [attach 65533])
          [detach 65533, attach 0]) = true ∧
    carries_id
        (run sampleHeader (run sampleHeader sampleInitial [attach 65533])
          [detach 65533, attach 0]) 65533 = true ∧
    sampleHeader.MANAGER_PATH_ID = 65535 ∧
    adapter_registered sampleHeader (run sampleHeader sampleInitial [attach 65535]) 65535
      = true ∧
    adapter_registered sampleHeader (run sampleHeader sampleInitial [attach 65535]) 0 = false ∧
    carries_id
        (run sampleHeader (run sampleHeader sampleInitial [attach 65535])
          [detach 65535, attach 0]) 65535 = true := by
  decide

/-! ## Event loop bridge: translation and drain -/

theorem dispatch_loop_drains (M : Type) (on_handle : Nat → List M → List M) :
    ∀ (q : List M) (fuel : Nat), q.length < fuel →
      dispatch_loop (queue_transport M on_handle) fuel q = some ([], max q.length 1)
  | [], 0, hf => by simp at hf
  | [], fuel + 1, _ => by simp [dispatch_loop, queue_transport]
  | _ :: _, 0, hf => by simp at hf
  | [_], fuel + 1, _ => by simp [dispatch_loop, queue_transport]
  | _ :: y :: rest, fuel + 1, hf => by
    have hlen : (y :: rest).length < fuel := by
      simp only [List.length_cons] at hf ⊢; omega
    have ih := dispatch_loop_drains M on_handle (y :: rest) fuel hlen
    have hmax : max (y :: rest).length 1 = (y :: rest).length := by
      simp only [List.length_cons]; omega
    rw [hmax] at ih
    simp only [dispatch_loop, queue_transport, List.isEmpty_cons, Bool.false_eq_true, if_false,
      if_true]
    simp only [queue_transport] at ih
    rw [ih]
    simp

theorem watch_flags_bits (g : GIOBits) (cond : Nat) :
    (watch_flags g cond).testBit 0 = decide (cond &&& g.G_IO_IN ≠ 0) ∧
    (watch_flags g cond).testBit 1 = decide (cond &&& g.G_IO_OUT ≠ 0) ∧
    (watch_flags g cond).testBit 2 = decide (cond &&& g.G_IO_ERR ≠ 0) ∧
    (watch_flags g cond).testBit 3 = decide (cond &&& g.G_IO_HUP ≠ 0) ∧
    watch_flags g cond < 16 := by
  have key : ∀ (p1 p2 p3 p4 : Prop) [Decidable p1] [Decidable p2] [Decidable p3] [Decidable p4],
      ((if p4 then (if p3 then (if p2 then (if p1 then 0 ||| DBUS_WATCH_READABLE else 0)
          ||| DBUS_WATCH_WRITABLE else (if p1 then 0 ||| DBUS_WATCH_READABLE else 0))
          ||| DBUS_WATCH_HANGUP else (if p2 then (if p1 then 0 ||| DBUS_WATCH_READABLE else 0)
          ||| DBUS_WATCH_WRITABLE else (if p1 then 0 ||| DBUS_WATCH_READABLE else 0)))
          ||| DBUS_WATCH_ERROR
        else (if p3 then (if p2 then (if p1 then 0 ||| DBUS_WATCH_READABLE else 0)
          ||| DBUS_WATCH_WRITABLE else (if p1 then 0 ||| DBUS_WATCH_READABLE else 0))
          ||| DBUS_WATCH_HANGUP else (if p2 then (if p1 then 0 ||| DBUS_WATCH_READABLE else 0)
          ||| DBUS_WATCH_WRITABLE else (if p1 then 0 ||| DBUS_WATCH_READABLE else 0)))) : Nat)
        = (if p1 then 1 else 0) + (if p2 then 2 else 0) + (if p4 then 4 else 0)
          + (if p3 then 8 else 0) := by
    intro p1 p2 p3 p4 _ _ _ _
    by_cases h1 : p1 <;> by_cases h2 : p2 <;> by_cases h3 : p3 <;> by_cases h4 : p4 <;>
      simp only [if_pos, if_neg, h1, h2, h3, h4, not_false_eq_true] <;> decide
  have key2 : ∀ (p1 p2 p3 p4 : Prop) [Decidable p1] [Decidable p2] [Decidable p3]
      [Decidable p4],
      ((if p1 then 1 else 0) + (if p2 then 2 else 0) + (if p4 then 4 else 0)
          + (if p3 then 8 else 0) : Nat).testBit 0 = decide p1 ∧
      ((if p1 then 1 else 0) + (if p2 then 2 else 0) + (if p4 then 4 else 0)
          + (if p3 then 8 else 0) : Nat).testBit 1 = decide p2 ∧
      ((if p1 then 1 else 0) + (if p2 then 2 else 0) + (if p4 then 4 else 0)
          + (if p3 then 8 else 0) : Nat).testBit 2 = decide p4 ∧
      ((if p1 then 1 else 0) + (if p2 then 2 else 0) + (if p4 then 4 else 0)
          + (if p3 then 8 else 0) : Nat).testBit 3 = decide p3 ∧
      ((if p1 then 1 else 0) + (if p2 then 2 else 0) + (if p4 then 4 else 0)
          + (if p3 then 8 else 0) : Nat) < 16 := by
    intro p1 p2 p3 p4 _ _ _ _
    by_cases h1 : p1 <;> by_cases h2 : p2 <;> by_cases h3 : p3 <;> by_cases h4 : p4 <;>
      simp only [if_pos, if_neg, h1, h2, h3, h4, not_false_eq_true, decide_True,
        decide_False] <;> decide
  unfold watch_flags
  simp only []
  rw [key]
  exact key2 _ _ _ _

/-- C20: on every wake-up `watch_func` hands the transport exactly the translation of
the host readiness bits (IN to readable, OUT to writable, HUP to hang-up, ERR to error
and no other bit), then dispatches until the transport no longer reports that data
remains: for every queue of `n` pending messages, each dispatch removing one, the loop
ends after `max n 1` dispatches (any fuel above `n` is enough), the queue is left
empty and `watch_func` returns `TRUE`. -/
theorem watch_func_translates_and_drains (g : GIOBits) (M : Type)
    (on_handle : Nat → List M → List M) (cond : Nat) (q : List M) (fuel : Nat)
    (hfuel : (on_handle (watch_flags g cond) q).length < fuel) :
    watch_func g (queue_transport M on_handle) fuel cond q
        = some { ret := true, flags := watch_flags g cond, transport := [],
                 dispatches := max (on_handle (watch_flags g cond) q).length 1 } ∧
      (watch_flags g cond).testBit 0 = decide (cond &&& g.G_IO_IN ≠ 0) ∧
      (watch_flags g cond).testBit 1 = decide (cond &&& g.G_IO_OUT ≠ 0) ∧
      (watch_flags g cond).testBit 2 = decide (cond &&& g.G_IO_ERR ≠ 0) ∧
      (watch_flags g cond).testBit 3 = decide (cond &&& g.G_IO_HUP ≠ 0) ∧
      watch_flags g cond < 16 := by
  refine ⟨?_, watch_flags_bits g cond⟩
  have hd := dispatch_loop_drains M on_handle _ fuel hfuel
  unfold watch_func
  simp only []
  have hh : (queue_transport M on_handle).dbus_watch_handle = on_handle := rfl
  rw [hh, hd]

/-- Instance of C20: a wake-up for input and hang-up with three messages pending. -/
theorem watch_func_translates_and_drains_witness :
    watch_func sampleGIOBits (queue_transport Nat (fun _ q => q)) 4 17 [10, 20, 30]
        = some { ret := true, flags := 9, transport := [], dispatches := 3 } ∧
      (watch_flags sampleGIOBits 17).testBit 0 = decide (17 &&& sampleGIOBits.G_IO_IN ≠ 0) ∧
      (watch_flags sampleGIOBits 17).testBit 1 = decide (17 &&& sampleGIOBits.G_IO_OUT ≠ 0) ∧
      (watch_flags sampleGIOBits 17).testBit 2 = decide (17 &&& sampleGIOBits.G_IO_ERR ≠ 0) ∧
      (watch_flags sampleGIOBits 17).testBit 3 = decide (17 &&& sampleGIOBits.G_IO_HUP ≠ 0) ∧
      watch_flags sampleGIOBits 17 < 16 :=
  watch_func_translates_and_drains sampleGIOBits Nat (fun _ q => q) 17 [10, 20, 30] 4
    (by decide)

/-! ## Authorization round trip: the size of the PIN -/

/-- C21 does not hold of the code: for every non-error agent reply whose first argument
is a string longer than the `pin_code` field, `reply_handler_function` asks `memcpy`
to write the whole string, `strlen(pin)` bytes and so more than the field holds, into
`pin_code`; the copy runs past the end of the field and the behaviour is undefined. -/
theorem long_pin_copied_unbounded (pin_code_size : Nat) (req : pin_request)
    (m : AgentMessage) (pin : CStr) (rest : List DBusArg)
    (hty : m.type ≠ MessageType.ERROR) (hargs : m.args = DBusArg.string pin :: rest)
    (hlong : pin_code_size < pin.length) :
    pin_copy_length (some m) = some pin.length ∧
    reply_handler_function pin_code_size req (some m) = none := by
  have hn : ¬ pin.length ≤ pin_code_size := by omega
  constructor
  · simp [pin_copy_length, hty, hargs]
  · simp [reply_handler_function, hty, hargs, hn]

/-- Instance for C21: a PIN of 17 bytes against the field of 16. -/
theorem long_pin_copied_unbounded_witness :
    (16 : Nat) < ("12345678901234567".toList).length ∧
    pin_copy_length (some (pin_reply "12345678901234567")) = some 17 ∧
    reply_handler_function 16 sample_pin_request (some (pin_reply "12345678901234567"))
      = none :=
  ⟨by decide,
    long_pin_copied_unbounded 16 sample_pin_request (pin_reply "12345678901234567")
      "12345678901234567".toList [] (by decide) rfl (by decide)⟩

/-! ## Facts about the delivery of a message -/

theorem strrchr_next_not_mem (c : Char) : ∀ (r : CStr), c ∉ r → strrchr_next c r = none
  | [], _ => rfl
  | x :: xs, hx => by
    have h1 : c ∉ xs := fun hm => hx (List.mem_cons_of_mem _ hm)
    have h2 : x ≠ c := fun he => hx (by rw [he]; exact List.mem_cons_self _ _)
    simp [strrchr_next, strrchr_next_not_mem c xs h1, h2]

theorem strrchr_next_append (c : Char) (r : CStr) (hr : c ∉ r) :
    ∀ (l : CStr), strrchr_next c (l ++ c :: r) = some r
  | [] => by simp [strrchr_next, strrchr_next_not_mem c r hr]
  | x :: xs => by
    rw [List.cons_append]
    simp [strrchr_next, strrchr_next_append c r hr xs]

theorem default_path_ne_manager (h : Header) : default_path h ≠ h.MANAGER_PATH := by
  intro he
  have hl := congrArg List.length he
  simp [default_path] at hl

theorem device_path_ne_manager (h : Header) (id : Nat) : device_path h id ≠ h.MANAGER_PATH := by
  intro he
  have hl := congrArg List.length he
  simp [device_path] at hl

theorem object_path_data_mem (conn : ObjectTree) (p : CStr) (d : hci_dbus_data)
    (hp : object_path_data conn p = some d) : (p, d) ∈ conn := by
  unfold object_path_data at hp
  cases hf : conn.find? (fun e => e.1 == p) with
  | none => rw [hf] at hp; simp at hp
  | some e =>
    rw [hf] at hp
    have h1 := List.find?_some hf
    have h2 := List.mem_of_find?_eq_some hf
    have h3 : e.1 = p := by simpa using h1
    have h4 : e.2 = d := by simpa using hp
    rw [← h3, ← h4]
    exact h2

theorem object_path_data_register_keeps (conn : ObjectTree) (p q : CStr)
    (d x : hci_dbus_data) (hq : object_path_data conn q = some x) :
    object_path_data (dbus_connection_register_object_path conn p d).2 q = some x := by
  unfold dbus_connection_register_object_path
  split
  · exact hq
  · unfold object_path_data at hq ⊢
    rw [List.find?_append]
    cases hf : conn.find? (fun e => e.1 == q) with
    | none => rw [hf] at hq; simp at hq
    | some e => rw [hf] at hq; simpa using hq

theorem object_path_data_filter (p q : CStr) (hpq : p ≠ q) :
    ∀ (conn : ObjectTree),
      object_path_data (conn.filter (fun e => !(e.1 == p))) q = object_path_data conn q
  | [] => rfl
  | e :: rest => by
    have ih := object_path_data_filter p q hpq rest
    unfold object_path_data at ih ⊢
    by_cases h1 : e.1 = p
    · have h2 : ¬ e.1 = q := fun hh => hpq (h1.symm.trans hh)
      simp only [List.filter, h1, beq_self_eq_true, Bool.not_true]
      rw [List.find?_cons_of_neg _ (by simpa using h2)]
      exact ih
    · have hb : (!(e.1 == p)) = true := by simpa using h1
      simp only [List.filter, hb]
      by_cases h2 : e.1 = q
      · simp [List.find?, h2]
      · rw [List.find?_cons_of_neg _ (by simpa using h2),
          List.find?_cons_of_neg _ (by simpa using h2)]
        exact ih

theorem object_path_data_unregister_other (conn : ObjectTree) (p q : CStr) (hpq : p ≠ q) :
    object_path_data (dbus_connection_unregister_object_path conn p).2 q
      = object_path_data conn q := by
  unfold dbus_connection_unregister_object_path
  split
  · exact object_path_data_filter p q hpq conn
  · rfl

theorem manager_data_reg_obj_path (h : Header) (m_dft m_dev : Bool) (conn : ObjectTree)
    (dft_reg : Int) (id : Nat) (x : hci_dbus_data)
    (hx : object_path_data conn h.MANAGER_PATH = some x) :
    object_path_data (hci_dbus_reg_obj_path h m_dft m_dev conn dft_reg id).2 h.MANAGER_PATH
      = some x := by
  unfold hci_dbus_reg_obj_path
  by_cases h0 : dft_reg = 0 <;> cases m_dft <;> cases m_dev <;> simp only [h0, if_true, if_false,
    Bool.not_true, Bool.not_false, Bool.false_eq_true]
  all_goals first
    | exact hx
    | exact object_path_data_register_keeps _ _ _ _ _ hx
    | exact object_path_data_register_keeps _ _ _ _ _
        (object_path_data_register_keeps _ _ _ _ _ hx)

theorem manager_data_unreg_obj_path (h : Header) (conn : ObjectTree) (unreg_dft : Int)
    (id : Nat) (x : hci_dbus_data) (hx : object_path_data conn h.MANAGER_PATH = some x) :
    object_path_data (hci_dbus_unreg_obj_path h conn unreg_dft id).2 h.MANAGER_PATH
      = some x := by
  unfold hci_dbus_unreg_obj_path
  simp only [ite_pair_snd]
  rw [object_path_data_unregister_other _ _ _ (device_path_ne_manager h id)]
  by_cases h0 : unreg_dft ≠ 0
  · rw [if_pos h0, ite_pair_snd,
      object_path_data_unregister_other _ _ _ (default_path_ne_manager h)]
    exact hx
  · rw [if_neg h0]
    exact hx

theorem manager_data_register_loop (h : Header) (m_dft m_dev : Bool) (id : Nat)
    (x : hci_dbus_data) :
    ∀ (tbl : List profile_obj_path_data) (ret : Int) (conn : ObjectTree),
      object_path_data conn h.MANAGER_PATH = some x →
      object_path_data (register_loop h m_dft m_dev id tbl ret conn).2.1 h.MANAGER_PATH
        = some x
  | [], _, _, hx => hx
  | ptr :: rest, _, conn, hx => by
    simp only [register_loop]
    exact manager_data_register_loop h m_dft m_dev id x rest _ _
      (manager_data_reg_obj_path h m_dft m_dev conn ptr.dft_reg id x hx)

theorem manager_data_unregister_loop (h : Header) (id : Nat) (x : hci_dbus_data) :
    ∀ (tbl : List profile_obj_path_data) (n : Int) (conn : ObjectTree),
      object_path_data conn h.MANAGER_PATH = some x →
      object_path_data (unregister_loop h id tbl n conn).2.1 h.MANAGER_PATH = some x
  | [], _, _, hx => hx
  | _ :: rest, n, conn, hx => by
    simp only [unregister_loop]
    exact manager_data_unregister_loop h id x rest _ _
      (manager_data_unreg_obj_path h conn _ id x hx)

theorem manager_data_step (h : Header) (x : hci_dbus_data) (s : State) (c : Call)
    (hs : ∀ conn, s.connection = some conn → object_path_data conn h.MANAGER_PATH = some x) :
    ∀ conn, (step h s c).connection = some conn →
      object_path_data conn h.MANAGER_PATH = some x := by
  cases hc : s.connection with
  | none =>
    intro conn hconn
    cases c <;>
      simp [step, hcid_dbus_register_device, hcid_dbus_unregister_device, hc] at hconn
  | some conn =>
    have hx := hs conn hc
    intro conn' hconn
    cases c with
    | register id m_dft m_dev =>
      simp only [step, hcid_dbus_register_device, hc, Option.some.injEq] at hconn
      rw [← hconn]
      exact manager_data_register_loop h m_dft m_dev id x s.obj_path_table (-1) conn hx
    | unregister id =>
      simp only [step, hcid_dbus_unregister_device, hc, Option.some.injEq] at hconn
      rw [← hconn]
      exact manager_data_unregister_loop h id x s.obj_path_table s.num_adapters conn hx

theorem manager_data_run (h : Header) (x : hci_dbus_data) :
    ∀ (calls : List Call) (s : State),
      (∀ conn, s.connection = some conn → object_path_data conn h.MANAGER_PATH = some x) →
      ∀ conn, (run h s calls).connection = some conn →
        object_path_data conn h.MANAGER_PATH = some x
  | [], _, hs => hs
  | c :: cs, s, hs => by
    rw [run_cons]
    exact manager_data_run h x cs _ (manager_data_step h x s c hs)

theorem manager_data_init (h : Header) (hp : EndpointPathsOk h) :
    object_path_data (init_tree h) h.MANAGER_PATH = some { id := h.MANAGER_PATH_ID } := by
  have hne : (h.DEVICE_PATH == h.MANAGER_PATH) = false := beq_false_of_ne hp.2
  simp [object_path_data, init_tree, List.find?, hne]

theorem sampleHeader_endpointPathsOk : EndpointPathsOk sampleHeader := by decide

/-! ## Request router: unknown paths -/

/-- C9: in every state reached from the one `hcid_dbus_init` leaves behind by register
and unregister calls, for every call whose path compares strictly greater than the
manager path and is not the device path, and whose final path segment equals no profile
name in `obj_path_table`, `msg_func` answers with the UnknownPath error reply and
reports the call as handled, whatever handler the call is handed to and whatever
identifier is bound to it; and when the path lies below the manager path the call is
handed to one handler, the fallback handler of the manager path. -/
theorem unknown_path_for_every_receiver {H : Type} (h : Header) (strerror : Nat → CStr)
    (T : ServiceTables H) (handler : H → DBusMessage → hci_dbus_data → Option Reply)
    (calls : List Call) (msg : DBusMessage) (rel_path : CStr)
    (hok : ErrorCodesOk h) (hpaths : EndpointPathsOk h)
    (hdev : msg.path ≠ h.DEVICE_PATH)
    (hgt : strcmp msg.path h.MANAGER_PATH > 0)
    (hrel : strrchr_next '/' msg.path = some rel_path)
    (hno : ∀ p ∈ (run h (initial h (init_tree h)) calls).obj_path_table,
      p.name ≠ rel_path) :
    (∀ data ∈ handlers_tried h (run h (initial h (init_tree h)) calls) msg.path,
      msg_func h strerror T (run h (initial h (init_tree h)) calls).obj_path_table handler
          msg data
        = some { ret := DBusHandlerResult.HANDLED,
                 sent := some (Reply.error h.ERROR_INTERFACE
                   "Device path is not registered".toList
                   [DBusArg.uint32 h.BLUEZ_EDBUS_UNKNOWN_PATH]),
                 invoked := [] }) ∧
    ((h.MANAGER_PATH ++ ['/']) <+: msg.path →
      handlers_tried h (run h (initial h (init_tree h)) calls) msg.path
        = [{ id := h.MANAGER_PATH_ID }]) := by
  have horig : TreeOrigin h (init_tree h) (run h (initial h (init_tree h)) calls) := by
    apply treeOrigin_run
    intro conn hconn e he
    simp only [initial, Option.some.injEq] at hconn
    rw [← hconn] at he
    exact Or.inl he
  have hmgr := manager_data_run h { id := h.MANAGER_PATH_ID } calls (initial h (init_tree h))
    (by
      intro conn hconn
      simp only [initial, Option.some.injEq] at hconn
      rw [← hconn]
      exact manager_data_init h hpaths)
  obtain ⟨conn, n, d, hs⟩ := run_shape h calls (init_tree h) 0 0
  rw [← initial_eq] at hs
  rw [hs] at horig hmgr hno ⊢
  have hall : ∀ e ∈ conn, EntryOrigin h (init_tree h) e := horig conn rfl
  have hM : object_path_data conn h.MANAGER_PATH = some { id := h.MANAGER_PATH_ID } :=
    hmgr conn rfl
  have hname : h.BLUEZ_HCI ≠ rel_path :=
    hno { name := h.BLUEZ_HCI, status := 1, dft_reg := d } (by simp [state_with, table_with])
  have hexact : object_path_data conn msg.path = none := by
    cases hf : object_path_data conn msg.path with
    | none => rfl
    | some x =>
      exfalso
      have hmem := object_path_data_mem conn msg.path x hf
      rcases hall _ hmem with ho | ho | ⟨c, ho⟩
      · simp only [init_tree, List.mem_cons, Prod.mk.injEq, List.mem_singleton,
          List.not_mem_nil, or_false] at ho
        rcases ho with ⟨h1, _⟩ | ⟨h1, _⟩
        · exact hdev h1
        · rw [h1, strcmp_self] at hgt
          exact absurd hgt (by decide)
      · have hp : msg.path = default_path h := (Prod.mk.inj ho).1
        rw [hp] at hrel
        unfold default_path at hrel
        rw [strrchr_next_append '/' h.BLUEZ_HCI hpaths.1] at hrel
        exact hname (Option.some.inj hrel)
      · have hp : msg.path = device_path h c := (Prod.mk.inj ho).1
        rw [hp] at hrel
        unfold device_path at hrel
        rw [strrchr_next_append '/' h.BLUEZ_HCI hpaths.1] at hrel
        exact hname (Option.some.inj hrel)
  have hchain : handlers_tried h (state_with h conn n d) msg.path
      = if (h.MANAGER_PATH ++ ['/']) <+: msg.path then [{ id := h.MANAGER_PATH_ID }]
        else [] := by
    simp [handlers_tried, state_with, dispatch_chain, hexact, hM]
  constructor
  · intro data hdata
    rw [hchain] at hdata
    split at hdata
    · have hd : data = { id := h.MANAGER_PATH_ID } := by simpa using hdata
      subst hd
      have hval := msg_func_unmatched_child h strerror T
        (state_with h conn n d).obj_path_table handler msg { id := h.MANAGER_PATH_ID }
        rel_path hok hdev hgt hrel hno
      rw [if_pos rfl] at hval
      exact hval
    · simp at hdata
  · intro hpre
    rw [hchain, if_pos hpre]

/-- Instance of C9: with adapter 0 attached, a call on `/org/bluez/Manager/hci0/Foo` is
handed to the fallback handler only, which answers with the UnknownPath error reply. -/
theorem unknown_path_for_every_receiver_witness :
    handlers_tried sampleHeader (run sampleHeader sampleInitial [attach 0])
        "/org/bluez/Manager/hci0/Foo".toList = [{ id := 65535 }] ∧
    msg_func sampleHeader sample_strerror (tables_with_dev overloaded_table)
        (run sampleHeader sampleInitial [attach 0]).obj_path_table sample_handler
        (sample_call "/org/bluez/Manager/hci0/Foo" "org.bluez.Manager" "Scan" "s")
        { id := 65535 }
      = some { ret := DBusHandlerResult.HANDLED,
               sent := some (Reply.error sampleHeader.ERROR_INTERFACE
                 "Device path is not registered".toList
                 [DBusArg.uint32 sampleHeader.BLUEZ_EDBUS_UNKNOWN_PATH]),
               invoked := [] } :=
  ⟨(unknown_path_for_every_receiver sampleHeader sample_strerror
      (tables_with_dev overloaded_table) sample_handler [attach 0]
      (sample_call "/org/bluez/Manager/hci0/Foo" "org.bluez.Manager" "Scan" "s")
      "Foo".toList sampleHeader_errorCodesOk sampleHeader_endpointPathsOk
      (by decide) (by decide) (by decide) (by decide)).2 (by decide),
    (unknown_path_for_every_receiver sampleHeader sample_strerror
      (tables_with_dev overloaded_table) sample_handler [attach 0]
      (sample_call "/org/bluez/Manager/hci0/Foo" "org.bluez.Manager" "Scan" "s")
      "Foo".toList sampleHeader_errorCodesOk sampleHeader_endpointPathsOk
      (by decide) (by decide) (by decide) (by decide)).1 { id := 65535 } (by decide)⟩

end Hcid
